import Mathlib

/-!
# avif-coder: decode / encode pipeline orchestration

A shallow embedding of `decodeImplementationNative` (JniDecoder.cpp) and of
`encodeBitmap`, `getSizeImpl` and the MIME probes (JniEncoder.cpp).  The
`std::bad_alloc` handlers of the decode, encode and size entry points are
embedded apart from the bodies they guard; those of the MIME probes are left
out.  The codec library, the pixel kernels and the host runtime are external: every call into them is recorded, in program order,
in a list of calls, and what they answer is read from an environment record
whose fields carry the name of the call they stand for.  Single-precision
values are kept abstract (type `F`), so no rounding behaviour is assumed.
-/

namespace AvifCoder

/-! ## libheif and Android constants -/

/-- Code `heif_transfer_characteristic_ITU_R_BT_709_5` of libheif. -/
def heif_transfer_characteristic_ITU_R_BT_709_5 : Int := 1
/-- Code `heif_transfer_characteristic_unspecified` of libheif. -/
def heif_transfer_characteristic_unspecified : Int := 2
/-- Code `heif_transfer_characteristic_ITU_R_BT_470_6_System_M` of libheif. -/
def heif_transfer_characteristic_ITU_R_BT_470_6_System_M : Int := 4
/-- Code `heif_transfer_characteristic_ITU_R_BT_470_6_System_B_G` of libheif. -/
def heif_transfer_characteristic_ITU_R_BT_470_6_System_B_G : Int := 5
/-- Code `heif_transfer_characteristic_ITU_R_BT_601_6` of libheif. -/
def heif_transfer_characteristic_ITU_R_BT_601_6 : Int := 6
/-- Code `heif_transfer_characteristic_SMPTE_240M` of libheif. -/
def heif_transfer_characteristic_SMPTE_240M : Int := 7
/-- Code `heif_transfer_characteristic_linear` of libheif. -/
def heif_transfer_characteristic_linear : Int := 8
/-- Code `heif_transfer_characteristic_logarithmic_100` of libheif. -/
def heif_transfer_characteristic_logarithmic_100 : Int := 9
/-- Code `heif_transfer_characteristic_logarithmic_100_sqrt10` of libheif. -/
def heif_transfer_characteristic_logarithmic_100_sqrt10 : Int := 10
/-- Code `heif_transfer_characteristic_IEC_61966_2_4` of libheif. -/
def heif_transfer_characteristic_IEC_61966_2_4 : Int := 11
/-- Code `heif_transfer_characteristic_ITU_R_BT_1361` of libheif. -/
def heif_transfer_characteristic_ITU_R_BT_1361 : Int := 12
/-- Code `heif_transfer_characteristic_IEC_61966_2_1` of libheif. -/
def heif_transfer_characteristic_IEC_61966_2_1 : Int := 13
/-- Code `heif_transfer_characteristic_ITU_R_BT_2020_2_10bit` of libheif. -/
def heif_transfer_characteristic_ITU_R_BT_2020_2_10bit : Int := 14
/-- Code `heif_transfer_characteristic_ITU_R_BT_2020_2_12bit` of libheif. -/
def heif_transfer_characteristic_ITU_R_BT_2020_2_12bit : Int := 15
/-- Code `heif_transfer_characteristic_ITU_R_BT_2100_0_PQ` of libheif. -/
def heif_transfer_characteristic_ITU_R_BT_2100_0_PQ : Int := 16
/-- Code `heif_transfer_characteristic_SMPTE_ST_428_1` of libheif. -/
def heif_transfer_characteristic_SMPTE_ST_428_1 : Int := 17
/-- Code `heif_transfer_characteristic_ITU_R_BT_2100_0_HLG` of libheif. -/
def heif_transfer_characteristic_ITU_R_BT_2100_0_HLG : Int := 18

/-- Code `heif_color_primaries_unspecified` of libheif. -/
def heif_color_primaries_unspecified : Int := 2

/-- Code `heif_compression_HEVC` of libheif. -/
def heif_compression_HEVC : Int := 1
/-- Code `heif_compression_AV1` of libheif. -/
def heif_compression_AV1 : Int := 4

/-- Code `ANDROID_BITMAP_FORMAT_RGBA_8888` of android/bitmap.h. -/
def ANDROID_BITMAP_FORMAT_RGBA_8888 : Int := 1
/-- Code `ANDROID_BITMAP_FORMAT_RGB_565` of android/bitmap.h. -/
def ANDROID_BITMAP_FORMAT_RGB_565 : Int := 4
/-- Code `ANDROID_BITMAP_FORMAT_RGBA_F16` of android/bitmap.h. -/
def ANDROID_BITMAP_FORMAT_RGBA_F16 : Int := 9
/-- Code `ANDROID_BITMAP_FORMAT_RGBA_1010102` of android/bitmap.h. -/
def ANDROID_BITMAP_FORMAT_RGBA_1010102 : Int := 10

/-- The two interleaved layouts the pipeline asks libheif for. -/
inductive heif_chroma
  | heif_chroma_interleaved_RGBA
  | heif_chroma_interleaved_RRGGBBAA_LE
  deriving DecidableEq, Repr

/-- The transfer-function variants named by the decoder
(`TransferFunction::Srgb`, ...). -/
inductive TransferFunction
  | Srgb | Linear | Gamma2p2 | Gamma2p8 | Hlg | Pq | Smpte240 | Smpte428
  | Log100 | Log100Sqrt10 | Iec61966 | Bt1361 | Itur709
  deriving DecidableEq, Repr

/-- Modelled from the spec: the enumeration `PreferredColorConfig` is declared
in definitions.h, which is not among the sources; section 6 lists its values
(Rgba8888, Rgb565, HardwareAccelerated, RgbaF16, Rgba1010102).  The decoder
names only `Rgba_8888`. -/
inductive PreferredColorConfig
  | Rgba_8888 | Rgb_565 | Hardware | Rgba_F16 | Rgba_1010102
  deriving DecidableEq, Repr

/-- Modelled from the spec: the enumeration `ScaleMode` is declared in
definitions.h, which is not among the sources; section 6 lists Fit and
Resize. -/
inductive ScaleMode
  | Fit | Resize
  deriving DecidableEq, Repr

/-- Modelled from the spec: the enumeration `CurveToneMapper` is declared in
definitions.h, which is not among the sources; section 6 lists the tone-mapper
preferences Skip, Hlg, Pq and Auto.  The decoder names only `TONE_SKIP`. -/
inductive CurveToneMapper
  | TONE_SKIP | TONE_HLG | TONE_PQ | TONE_AUTO
  deriving DecidableEq, Repr

/-! ## Colour data -/

/-- The NCLX descriptor `heif_color_profile_nclx`: the fields the decoder
reads. -/
structure heif_color_profile_nclx (F : Type) where
  color_primaries : Int
  transfer_characteristics : Int
  color_primary_red_x : F
  color_primary_red_y : F
  color_primary_green_x : F
  color_primary_green_y : F
  color_primary_blue_x : F
  color_primary_blue_y : F
  color_primary_white_x : F
  color_primary_white_y : F

/-- An `Eigen::Matrix<float, 3, 2>` of chromaticities, one row per primary. -/
structure Primaries (F : Type) where
  red_x : F
  red_y : F
  green_x : F
  green_y : F
  blue_x : F
  blue_y : F

/-- An `Eigen::Vector2f` white point. -/
structure WhitePoint (F : Type) where
  x : F
  y : F

/-- An `Eigen::Matrix3f`, indexed (row, column). -/
def Matrix3f (F : Type) : Type := Fin 3 → Fin 3 → F

/-- The colorimetry helpers of colorspace/ColorMatrix.h, ColorSpaceProfile.h
and Eigen that the decoder calls; none of them is among the sources, so they
are parameters.  `C` stands for `ITURColorCoefficients`. -/
structure ColorSpaceLib (F C : Type) where
  getSRGBPrimaries : Primaries F
  getIlluminantD65 : WhitePoint F
  GamutRgbToXYZ : Primaries F → WhitePoint F → Matrix3f F
  inverse : Matrix3f F → Matrix3f F
  mul : Matrix3f F → Matrix3f F → Matrix3f F
  colorPrimariesComputeYCoeffs : Primaries F → WhitePoint F → C

/-- The arguments handed to `applyColorMatrix` / `applyColorMatrix16Bit`
(the 16-bit applier receives the bit depth as well). -/
structure ColorMatrixArgs (F C : Type) where
  data : List Nat
  stride : Int
  imageWidth : Int
  imageHeight : Int
  matrix : List F
  forwardTrc : TransferFunction
  dstTrc : TransferFunction
  toneMapper : CurveToneMapper
  coeffs : C

/-- The arguments handed to `coder::ReformatColorConfig`. -/
structure ReformatArgs where
  dstARGB : List Nat
  imageConfig : String
  preferredColorConfig : PreferredColorConfig
  bitDepth : Int
  imageWidth : Int
  imageHeight : Int
  stride : Int
  useBitmapHalf16Floats : Bool
  alphaPremultiplied : Bool
  deriving DecidableEq, Repr

/-- What `coder::ReformatColorConfig` leaves in the variables it receives by
reference. -/
structure ReformatResult where
  dstARGB : List Nat
  imageConfig : String
  stride : Int
  useBitmapHalf16Floats : Bool
  hwBuffer : Option Nat
  deriving DecidableEq, Repr

/-- The arguments of `createBitmap`; the returned host bitmap is identified
with them. -/
structure Bitmap where
  data : List Nat
  imageConfig : String
  stride : Int
  imageWidth : Int
  imageHeight : Int
  useBitmapHalf16Floats : Bool
  hwBuffer : Option Nat
  deriving DecidableEq, Repr

/-- What `RescaleImage` leaves behind on success: the pixel data with its
stride and the final dimensions. -/
structure Rescaled where
  data : List Nat
  stride : Int
  imageWidth : Int
  imageHeight : Int
  deriving DecidableEq, Repr

/-- What `RecognizeICC` writes: the ICC bytes, the NCLX pointer and the
`hasNCLX` flag. -/
structure Recognized (F : Type) where
  profile : List Nat
  nclx : Option (heif_color_profile_nclx F)
  hasNCLX : Bool

/-- The calls of the decoder into its collaborators that the properties below
observe, with the arguments that matter. -/
inductive DecodeCall (F C : Type)
  | throwException (message : String)
  | throwBitDepthException
  | heif_decode_image (chroma : heif_chroma)
  | UnpremultiplyRGBA (data : List Nat) (stride imageWidth imageHeight : Int)
  | convertUseICC (data : List Nat) (stride imageWidth imageHeight : Int)
      (profile : List Nat) (useBitmapHalf16Floats : Bool)
  | applyColorMatrix16Bit (bitDepth : Int) (args : ColorMatrixArgs F C)
  | applyColorMatrix (args : ColorMatrixArgs F C)
  | ReformatColorConfig (args : ReformatArgs)
  | createBitmap (bitmap : Bitmap)

/-- The answers of the collaborators during one call of
`decodeImplementationNative`.  Helpers that report a failure by returning
false (`checkDecodePreconditions`, `RescaleImage`) answer `none`. -/
structure DecodeEnv (F C : Type) where
  -- arguments: javaColorSpace, javaScaleMode, javaToneMapper
  checkDecodePreconditions :
    Int → Int → Int → Option (PreferredColorConfig × ScaleMode × CurveToneMapper)
  -- true when the context pointer is not null
  heif_context_alloc : Bool
  -- true when the result code is heif_error_Ok
  heif_context_read_from_memory_without_copy : List Nat → Bool
  -- true when the result code is heif_error_Ok and the handle is not null
  heif_context_get_primary_image_handle : Bool
  heif_image_handle_get_chroma_bits_per_pixel : Int
  androidOSVersion : Int
  -- true when the result code is heif_error_Ok and the image is not null
  heif_decode_image : heif_chroma → Bool
  RecognizeICC : Recognized F
  heif_image_handle_has_alpha_channel : Bool
  heif_image_handle_is_premultiplied_alpha : Int
  -- arguments: useBitmapHalf16Floats, scaledWidth, scaledHeight, scaleMode
  RescaleImage : Bool → Int → Int → ScaleMode → Option Rescaled
  -- arguments: data, stride, width, height; the result is the buffer afterwards
  UnpremultiplyRGBA : List Nat → Int → Int → Int → List Nat
  -- arguments: data, stride, width, height, profile, useBitmapHalf16Floats;
  -- the result is the buffer afterwards and the stride written back
  convertUseICC : List Nat → Int → Int → Int → List Nat → Bool → List Nat × Int
  lib : ColorSpaceLib F C
  -- the result of either applier is the buffer afterwards
  applyColorMatrix16Bit : Int → ColorMatrixArgs F C → List Nat
  applyColorMatrix : ColorMatrixArgs F C → List Nat
  -- `Except.error what` when a `ReformatBitmapError` is thrown
  ReformatColorConfig : ReformatArgs → Except String ReformatResult

/-- The arguments of `decodeImplementationNative`. -/
structure DecodeArgs where
  srcBuffer : List Nat
  scaledWidth : Int
  scaledHeight : Int
  javaColorSpace : Int
  javaScaleMode : Int
  javaToneMapper : Int
  deriving DecidableEq, Repr

/-- The outcome of a call: the returned object (`none` for `nullptr`) and the
calls made, in order. -/
structure DecodeOutcome (F C : Type) where
  result : Option Bitmap
  calls : List (DecodeCall F C)

/-! ## decodeImplementationNative -/

/-- The local variables of `decodeImplementationNative` once the pixels are
decoded and rescaled (line 147). -/
structure Decoded (F : Type) where
  preferredColorConfig : PreferredColorConfig
  toneMapper : CurveToneMapper
  bitDepth : Int
  useBitmapHalf16Floats : Bool
  profile : List Nat
  nclx : Option (heif_color_profile_nclx F)
  hasNCLX : Bool
  alphaPremultiplied : Bool
  initialData : List Nat
  stride : Int
  imageWidth : Int
  imageHeight : Int

/-- Lines 83-93: `useBitmapHalf16Floats` starts false and is set when the source
is deeper than 8 bits and the OS is at least version 26. -/
def useBitmapHalf16Floats (bitDepth osVersion : Int) : Bool :=
  if bitDepth > 8 ∧ osVersion ≥ 26 then true else false

/-- Lines 102-103: the layout asked of `heif_decode_image`. -/
def decodeChroma (useHalf : Bool) : heif_chroma :=
  if useHalf then heif_chroma.heif_chroma_interleaved_RRGGBBAA_LE
  else heif_chroma.heif_chroma_interleaved_RGBA

/-- Line 272: the image config string. -/
def imageConfigOf (useHalf : Bool) : String :=
  if useHalf then "RGBA_F16" else "ARGB_8888"

/-- Lines 43-147 of `decodeImplementationNative`: preconditions, context,
reading, the primary handle, the bit-depth check, decoding, profile
recognition, the alpha state and rescaling.  An early `return nullptr` is
`Except.error` with the calls made so far. -/
def decodeSource {F C : Type} (env : DecodeEnv F C) (a : DecodeArgs) :
    Except (List (DecodeCall F C)) (Decoded F × List (DecodeCall F C)) :=
  match env.checkDecodePreconditions a.javaColorSpace a.javaScaleMode a.javaToneMapper with
  | none => .error []
  | some (preferredColorConfig, scaleMode, toneMapper) =>
    if !env.heif_context_alloc then
      .error [.throwException "Can't create HEIF/AVIF decoder due to unknown reason"]
    else if !env.heif_context_read_from_memory_without_copy a.srcBuffer then
      .error [.throwException "Can't read heif file exception"]
    else if !env.heif_context_get_primary_image_handle then
      .error [.throwException "Acquiring an image from file has failed"]
    else
      let bitDepth := env.heif_image_handle_get_chroma_bits_per_pixel
      if bitDepth < 0 then
        .error [.throwBitDepthException]
      else
        let useHalf := useBitmapHalf16Floats bitDepth env.androidOSVersion
        let chroma := decodeChroma useHalf
        if !env.heif_decode_image chroma then
          .error [.heif_decode_image chroma, .throwException "Decoding an image has failed"]
        else
          let recognized := env.RecognizeICC
          let alphaPremultiplied :=
            if env.heif_image_handle_has_alpha_channel then
              decide (env.heif_image_handle_is_premultiplied_alpha ≠ 0)
            else false
          match env.RescaleImage useHalf a.scaledWidth a.scaledHeight scaleMode with
          | none => .error [.heif_decode_image chroma]
          | some r =>
            .ok ({ preferredColorConfig := preferredColorConfig
                   toneMapper := toneMapper
                   bitDepth := bitDepth
                   useBitmapHalf16Floats := useHalf
                   profile := recognized.profile
                   nclx := recognized.nclx
                   hasNCLX := recognized.hasNCLX
                   alphaPremultiplied := alphaPremultiplied
                   initialData := r.data
                   stride := r.stride
                   imageWidth := r.imageWidth
                   imageHeight := r.imageHeight }, [.heif_decode_image chroma])

/-- Lines 149-156: premultiplied alpha is removed, and the flag cleared, unless
the preferred config is `Rgba_8888` or the half-float target is in use. -/
def unpremultiplyStep {F C : Type} (env : DecodeEnv F C) (d : Decoded F) :
    Decoded F × List (DecodeCall F C) :=
  if d.alphaPremultiplied && d.preferredColorConfig != PreferredColorConfig.Rgba_8888
      && !d.useBitmapHalf16Floats then
    ({ d with
        initialData := env.UnpremultiplyRGBA d.initialData d.stride d.imageWidth d.imageHeight
        alphaPremultiplied := false },
     [.UnpremultiplyRGBA d.initialData d.stride d.imageWidth d.imageHeight])
  else (d, [])

/-- Lines 169-179: the source primaries. -/
def nclxPrimaries {F C : Type} (lib : ColorSpaceLib F C) (n : heif_color_profile_nclx F) :
    Primaries F :=
  if n.color_primaries ≠ heif_color_primaries_unspecified then
    { red_x := n.color_primary_red_x, red_y := n.color_primary_red_y
      green_x := n.color_primary_green_x, green_y := n.color_primary_green_y
      blue_x := n.color_primary_blue_x, blue_y := n.color_primary_blue_y }
  else lib.getSRGBPrimaries

/-- Lines 180-186: the source white point. -/
def nclxWhitePoint {F C : Type} (lib : ColorSpaceLib F C) (n : heif_color_profile_nclx F) :
    WhitePoint F :=
  if n.color_primaries ≠ heif_color_primaries_unspecified then
    { x := n.color_primary_white_x, y := n.color_primary_white_y }
  else lib.getIlluminantD65

/-- Lines 188-191: `conversion = destinationProfile.inverse() * sourceProfile`. -/
def conversion {F C : Type} (lib : ColorSpaceLib F C) (n : heif_color_profile_nclx F) :
    Matrix3f F :=
  let destinationProfile := lib.GamutRgbToXYZ lib.getSRGBPrimaries lib.getIlluminantD65
  let sourceProfile := lib.GamutRgbToXYZ (nclxPrimaries lib n) (nclxWhitePoint lib n)
  lib.mul (lib.inverse destinationProfile) sourceProfile

/-- Lines 248-252: the row-major array `matrix[9]`. -/
def flattenMatrix {F : Type} (m : Matrix3f F) : List F :=
  [m 0 0, m 0 1, m 0 2, m 1 0, m 1 1, m 1 2, m 2 0, m 2 1, m 2 2]

/-- Lines 193-197: the tone mapper is overwritten with `TONE_SKIP` unless the
transfer characteristic is HLG or PQ. -/
def gateToneMapper (transfer_characteristics : Int) (toneMapper : CurveToneMapper) :
    CurveToneMapper :=
  if transfer_characteristics ≠ heif_transfer_characteristic_ITU_R_BT_2100_0_HLG ∧
      transfer_characteristics ≠ heif_transfer_characteristic_ITU_R_BT_2100_0_PQ then
    CurveToneMapper.TONE_SKIP
  else toneMapper

/-- Lines 199-244: the chain of comparisons that picks `forwardTrc`, which
starts as `Srgb`. -/
def forwardTrcOf (tc : Int) : TransferFunction :=
  if tc = heif_transfer_characteristic_ITU_R_BT_2100_0_HLG then TransferFunction.Hlg
  else if tc = heif_transfer_characteristic_SMPTE_ST_428_1 then TransferFunction.Smpte428
  else if tc = heif_transfer_characteristic_ITU_R_BT_2100_0_PQ then TransferFunction.Pq
  else if tc = heif_transfer_characteristic_linear then TransferFunction.Linear
  else if tc = heif_transfer_characteristic_ITU_R_BT_470_6_System_M then
    TransferFunction.Gamma2p2
  else if tc = heif_transfer_characteristic_ITU_R_BT_470_6_System_B_G then
    TransferFunction.Gamma2p8
  else if tc = heif_transfer_characteristic_ITU_R_BT_601_6 then TransferFunction.Itur709
  else if tc = heif_transfer_characteristic_ITU_R_BT_709_5 then TransferFunction.Itur709
  else if tc = heif_transfer_characteristic_ITU_R_BT_2020_2_10bit ∨
      tc = heif_transfer_characteristic_ITU_R_BT_2020_2_12bit then TransferFunction.Itur709
  else if tc = heif_transfer_characteristic_SMPTE_240M then TransferFunction.Smpte240
  else if tc = heif_transfer_characteristic_logarithmic_100 then TransferFunction.Log100
  else if tc = heif_transfer_characteristic_logarithmic_100_sqrt10 then
    TransferFunction.Log100Sqrt10
  else if tc = heif_transfer_characteristic_IEC_61966_2_1 then TransferFunction.Srgb
  else if tc = heif_transfer_characteristic_IEC_61966_2_4 then TransferFunction.Iec61966
  else if tc = heif_transfer_characteristic_ITU_R_BT_1361 then TransferFunction.Bt1361
  else if tc = heif_transfer_characteristic_unspecified then TransferFunction.Srgb
  else TransferFunction.Srgb

/-- Lines 169-269, the body of the NCLX branch: the arguments the colour-matrix
applier receives for the buffer `dstARGB`. -/
def nclxArgs {F C : Type} (lib : ColorSpaceLib F C) (d : Decoded F)
    (n : heif_color_profile_nclx F) (dstARGB : List Nat) : ColorMatrixArgs F C :=
  { data := dstARGB
    stride := d.stride
    imageWidth := d.imageWidth
    imageHeight := d.imageHeight
    matrix := flattenMatrix (conversion lib n)
    forwardTrc := forwardTrcOf n.transfer_characteristics
    dstTrc := TransferFunction.Srgb
    toneMapper := gateToneMapper n.transfer_characteristics d.toneMapper
    coeffs := lib.colorPrimariesComputeYCoeffs (nclxPrimaries lib n) (nclxWhitePoint lib n) }

/-- Lines 158-270: the colour step.  Returns the buffer `dstARGB`, the stride
(which `convertUseICC` may rewrite) and the calls made. -/
def colorStep {F C : Type} (env : DecodeEnv F C) (d : Decoded F) :
    (List Nat × Int) × List (DecodeCall F C) :=
  let dstARGB := d.initialData
  if !d.profile.isEmpty then
    (env.convertUseICC dstARGB d.stride d.imageWidth d.imageHeight d.profile
        d.useBitmapHalf16Floats,
     [.convertUseICC dstARGB d.stride d.imageWidth d.imageHeight d.profile
        d.useBitmapHalf16Floats])
  else
    match d.nclx with
    | some n =>
      if d.hasNCLX ∧
          n.transfer_characteristics ≠ heif_transfer_characteristic_unspecified ∧
          n.color_primaries ≠ heif_color_primaries_unspecified then
        let args := nclxArgs env.lib d n dstARGB
        if d.useBitmapHalf16Floats then
          ((env.applyColorMatrix16Bit d.bitDepth args, d.stride),
           [.applyColorMatrix16Bit d.bitDepth args])
        else
          ((env.applyColorMatrix args, d.stride), [.applyColorMatrix args])
      else ((dstARGB, d.stride), [])
    | none => ((dstARGB, d.stride), [])

/-- Lines 272-288: the image config, the reformat step and the creation of the
host bitmap; a `ReformatBitmapError` is rethrown as a Java exception. -/
def reformatStep {F C : Type} (env : DecodeEnv F C) (d : Decoded F)
    (dstARGB : List Nat) (stride : Int) : DecodeOutcome F C :=
  let imageConfig := imageConfigOf d.useBitmapHalf16Floats
  let args : ReformatArgs :=
    { dstARGB := dstARGB
      imageConfig := imageConfig
      preferredColorConfig := d.preferredColorConfig
      bitDepth := d.bitDepth
      imageWidth := d.imageWidth
      imageHeight := d.imageHeight
      stride := stride
      useBitmapHalf16Floats := d.useBitmapHalf16Floats
      alphaPremultiplied := d.alphaPremultiplied }
  match env.ReformatColorConfig args with
  | .error what =>
    { result := none, calls := [.ReformatColorConfig args, .throwException what] }
  | .ok r =>
    let bitmap : Bitmap :=
      { data := r.dstARGB
        imageConfig := r.imageConfig
        stride := r.stride
        imageWidth := d.imageWidth
        imageHeight := d.imageHeight
        useBitmapHalf16Floats := r.useBitmapHalf16Floats
        hwBuffer := r.hwBuffer }
    { result := some bitmap, calls := [.ReformatColorConfig args, .createBitmap bitmap] }

/-- The function `decodeImplementationNative` of JniDecoder.cpp. -/
def decodeImplementationNative {F C : Type} (env : DecodeEnv F C) (a : DecodeArgs) :
    DecodeOutcome F C :=
  match decodeSource env a with
  | .error calls => { result := none, calls := calls }
  | .ok (d0, calls0) =>
    let (d, calls1) := unpremultiplyStep env d0
    let ((dstARGB, stride), calls2) := colorStep env d
    let out := reformatStep env d dstARGB stride
    { result := out.result, calls := calls0 ++ calls1 ++ calls2 ++ out.calls }

/-! ## Observations on the calls of a decode -/

/-- The ICC profiles handed to `convertUseICC`, in call order. -/
def iccCallsOf {F C : Type} : List (DecodeCall F C) → List (List Nat)
  | [] => []
  | .convertUseICC _ _ _ _ profile _ :: rest => profile :: iccCallsOf rest
  | _ :: rest => iccCallsOf rest

/-- The argument records handed to `applyColorMatrix` or
`applyColorMatrix16Bit`, in call order. -/
def colorMatrixArgsOf {F C : Type} : List (DecodeCall F C) → List (ColorMatrixArgs F C)
  | [] => []
  | .applyColorMatrix args :: rest => args :: colorMatrixArgsOf rest
  | .applyColorMatrix16Bit _ args :: rest => args :: colorMatrixArgsOf rest
  | _ :: rest => colorMatrixArgsOf rest

/-- The argument records handed to `ReformatColorConfig`, in call order. -/
def reformatArgsOf {F C : Type} : List (DecodeCall F C) → List ReformatArgs
  | [] => []
  | .ReformatColorConfig args :: rest => args :: reformatArgsOf rest
  | _ :: rest => reformatArgsOf rest

/-- The layouts asked of `heif_decode_image`, in call order. -/
def decodeChromasOf {F C : Type} : List (DecodeCall F C) → List heif_chroma
  | [] => []
  | .heif_decode_image chroma :: rest => chroma :: decodeChromasOf rest
  | _ :: rest => decodeChromasOf rest

/-- The number of `UnpremultiplyRGBA` calls. -/
def unpremultiplyCallsOf {F C : Type} : List (DecodeCall F C) → Nat
  | [] => 0
  | .UnpremultiplyRGBA _ _ _ _ :: rest => unpremultiplyCallsOf rest + 1
  | _ :: rest => unpremultiplyCallsOf rest

/-! ## Section 4.3 of the specification, as written -/

/-- The mapping table of section 4.3, row by row. -/
def transferTable : List (Int × TransferFunction) :=
  [ (heif_transfer_characteristic_IEC_61966_2_1, TransferFunction.Srgb),
    (heif_transfer_characteristic_unspecified, TransferFunction.Srgb),
    (heif_transfer_characteristic_linear, TransferFunction.Linear),
    (heif_transfer_characteristic_ITU_R_BT_470_6_System_M, TransferFunction.Gamma2p2),
    (heif_transfer_characteristic_ITU_R_BT_470_6_System_B_G, TransferFunction.Gamma2p8),
    (heif_transfer_characteristic_ITU_R_BT_601_6, TransferFunction.Itur709),
    (heif_transfer_characteristic_ITU_R_BT_709_5, TransferFunction.Itur709),
    (heif_transfer_characteristic_ITU_R_BT_2020_2_10bit, TransferFunction.Itur709),
    (heif_transfer_characteristic_ITU_R_BT_2020_2_12bit, TransferFunction.Itur709),
    (heif_transfer_characteristic_SMPTE_240M, TransferFunction.Smpte240),
    (heif_transfer_characteristic_logarithmic_100, TransferFunction.Log100),
    (heif_transfer_characteristic_logarithmic_100_sqrt10, TransferFunction.Log100Sqrt10),
    (heif_transfer_characteristic_IEC_61966_2_4, TransferFunction.Iec61966),
    (heif_transfer_characteristic_ITU_R_BT_1361, TransferFunction.Bt1361),
    (heif_transfer_characteristic_SMPTE_ST_428_1, TransferFunction.Smpte428),
    (heif_transfer_characteristic_ITU_R_BT_2100_0_HLG, TransferFunction.Hlg),
    (heif_transfer_characteristic_ITU_R_BT_2100_0_PQ, TransferFunction.Pq) ]

/-- The transfer function section 4.3 assigns to a code: the table row when
there is one, `Srgb` for an unmatched code. -/
def specTransferFunction (tc : Int) : TransferFunction :=
  (transferTable.lookup tc).getD TransferFunction.Srgb

/-! ## Concrete decode inputs -/

/-- A concrete environment over integer samples: every collaborator succeeds,
the pixel kernels leave the data as it is, and the preconditions read the
Java codes 1.. in declaration order. -/
def fixtureEnv (bitDepth osVersion : Int) (profile : List Nat)
    (nclx : Option (heif_color_profile_nclx Int)) (hasAlpha : Bool) (premultiplied : Int) :
    DecodeEnv Int Unit :=
  { checkDecodePreconditions := fun colorSpace _ toneMapper =>
      some (if colorSpace = 1 then PreferredColorConfig.Rgba_8888
            else if colorSpace = 2 then PreferredColorConfig.Rgb_565
            else if colorSpace = 3 then PreferredColorConfig.Hardware
            else if colorSpace = 4 then PreferredColorConfig.Rgba_F16
            else PreferredColorConfig.Rgba_1010102,
            ScaleMode.Fit,
            if toneMapper = 1 then CurveToneMapper.TONE_SKIP
            else if toneMapper = 2 then CurveToneMapper.TONE_HLG
            else if toneMapper = 3 then CurveToneMapper.TONE_PQ
            else CurveToneMapper.TONE_AUTO)
    heif_context_alloc := true
    heif_context_read_from_memory_without_copy := fun _ => true
    heif_context_get_primary_image_handle := true
    heif_image_handle_get_chroma_bits_per_pixel := bitDepth
    androidOSVersion := osVersion
    heif_decode_image := fun _ => true
    RecognizeICC := { profile := profile, nclx := nclx, hasNCLX := nclx.isSome }
    heif_image_handle_has_alpha_channel := hasAlpha
    heif_image_handle_is_premultiplied_alpha := premultiplied
    RescaleImage := fun _ _ _ _ =>
      some { data := [1, 2, 3, 4], stride := 4, imageWidth := 1, imageHeight := 1 }
    UnpremultiplyRGBA := fun data _ _ _ => data
    convertUseICC := fun data stride _ _ _ _ => (data, stride)
    lib :=
      { getSRGBPrimaries :=
          { red_x := 0, red_y := 0, green_x := 0, green_y := 0, blue_x := 0, blue_y := 0 }
        getIlluminantD65 := { x := 0, y := 0 }
        GamutRgbToXYZ := fun _ _ _ _ => 0
        inverse := fun m => m
        mul := fun m _ => m
        colorPrimariesComputeYCoeffs := fun _ _ => () }
    applyColorMatrix16Bit := fun _ args => args.data
    applyColorMatrix := fun args => args.data
    ReformatColorConfig := fun args =>
      .ok { dstARGB := args.dstARGB, imageConfig := args.imageConfig, stride := args.stride
            useBitmapHalf16Floats := args.useBitmapHalf16Floats, hwBuffer := none } }

/-- An NCLX descriptor over integer samples with the given primaries and
transfer codes. -/
def fixtureNclx (color_primaries transfer_characteristics : Int) :
    heif_color_profile_nclx Int :=
  { color_primaries := color_primaries
    transfer_characteristics := transfer_characteristics
    color_primary_red_x := 0, color_primary_red_y := 0
    color_primary_green_x := 0, color_primary_green_y := 0
    color_primary_blue_x := 0, color_primary_blue_y := 0
    color_primary_white_x := 0, color_primary_white_y := 0 }

/-- Decode arguments with the given Java colour-config and tone-mapper codes. -/
def fixtureArgs (javaColorSpace javaToneMapper : Int) : DecodeArgs :=
  { srcBuffer := [0], scaledWidth := 0, scaledHeight := 0
    javaColorSpace := javaColorSpace, javaScaleMode := 1, javaToneMapper := javaToneMapper }

/-! ## encodeBitmap -/

/-- Value `AVIF_LOSSY_MODE` of `enum AvifQualityMode`. -/
def AVIF_LOSSY_MODE : Int := 1
/-- Value `AVIF_LOSELESS_MODE` of `enum AvifQualityMode`. -/
def AVIF_LOSELESS_MODE : Int := 2

/-- Code `heif_error_Ok` of libheif. -/
def heif_error_Ok : Int := 0

/-- Bit `ANDROID_BITMAP_FLAGS_IS_HARDWARE` of android/bitmap.h (1 << 31). -/
def ANDROID_BITMAP_FLAGS_IS_HARDWARE : Nat := 2147483648

/-- The `heif_error` fields the encoder reads. -/
structure heif_error where
  code : Int
  message : String
  deriving DecidableEq, Repr

/-- The fields of `AndroidBitmapInfo`. -/
structure AndroidBitmapInfo where
  width : Nat
  height : Nat
  stride : Nat
  format : Int
  flags : Nat
  deriving DecidableEq, Repr

/-- The value handed to `heif_encoder_set_parameter_string`: a string literal
for "chroma", the integer `speed` for "speed". -/
inductive ParameterValue
  | text (value : String)
  | number (value : Int)
  deriving DecidableEq, Repr

/-- The calls of `encodeBitmap` into its collaborators, with the arguments that
matter.  `RGBA1010102ToUnsigned` has an 8-bit and a 16-bit destination
overload; `wide` tells which one is called.  The two trailing arguments of
`Rgb565ToUnsigned8` are recorded under the names section 4.5 gives them (bit
depth and fixed alpha); the helper itself is not among the sources. -/
inductive EncodeCall
  | throwException (message : String)
  | throwPixelsException
  | throwHardwareBitmapException
  | throwInvalidPixelsFormat
  | heif_encoder_set_lossy_quality (quality : Int)
  | heif_encoder_set_lossless (enable : Bool)
  | heif_encoder_set_parameter_string (name : String) (value : ParameterValue)
  | AndroidBitmap_lockPixels
  | AndroidBitmap_unlockPixels
  | heif_image_create (width height : Nat) (chroma : heif_chroma)
  | heif_image_add_plane (width height : Nat) (bitDepth : Int)
  | UnpremultiplyRGBA
  | Rgb565ToUnsigned8 (bitDepth : Int) (alpha : Int)
  | RGBA1010102ToUnsigned (wide : Bool) (bitDepth : Int)
  | RGBAF16BitToNBitU16 (bitDepth : Int)
  | RGBAF16BitToNBitU8 (bitDepth : Int) (flag : Bool)
  | heif_image_set_premultiplied_alpha (flag : Bool)
  | colorProfileFromDataSpace (is8Bit : Bool) (bitDepth : Int) (dataSpace : Int)
  | heif_image_set_nclx_color_profile
  | heif_image_set_raw_color_profile (profileType : String) (profile : List Nat)
  | heif_context_encode_image
  | heif_context_set_primary_image
  | heif_context_write
  deriving DecidableEq, Repr

/-- The answers of the collaborators during one call of `encodeBitmap`. -/
structure EncodeEnv where
  -- true when the context pointer is not null
  heif_context_alloc : Bool
  heif_context_get_encoder_for_format : Int → heif_error
  heif_encoder_set_lossy_quality : Int → heif_error
  heif_encoder_set_lossless : Bool → heif_error
  heif_encoder_set_parameter_string : String → ParameterValue → heif_error
  -- the return code and the info written
  AndroidBitmap_getInfo : Int × AndroidBitmapInfo
  -- the return code
  AndroidBitmap_lockPixels : Int
  -- arguments: width, height, chroma
  heif_image_create : Nat → Nat → heif_chroma → heif_error
  -- arguments: width, height, bit depth
  heif_image_add_plane : Nat → Nat → Int → heif_error
  -- arguments: the 8-bit flag, bitDepth, dataSpace; the result is the returned
  -- flag and the ICC bytes written
  colorProfileFromDataSpace : Bool → Int → Int → Bool × List Nat
  heif_image_set_nclx_color_profile : heif_error
  heif_image_set_raw_color_profile : String → List Nat → heif_error
  -- the result and whether the handle written is not null
  heif_context_encode_image : heif_error × Bool
  -- the result and the bytes handed to `writeHeifData`
  heif_context_write : heif_error × List Nat

/-- The arguments of `encodeBitmap` (the bitmap itself is read through the
environment). -/
structure EncodeArgs where
  heifCompressionFormat : Int
  quality : Int
  speed : Int
  dataSpace : Int
  qualityMode : Int
  deriving DecidableEq, Repr

/-- The outcome of `encodeBitmap`: the returned bytes (`none` for `nullptr`) and
the calls made, in order. -/
structure EncodeOutcome where
  result : Option (List Nat)
  calls : List EncodeCall
  deriving DecidableEq, Repr

/-- Lines 101-142: the encoder is configured from the quality mode.  The flag
is false when a parameter was rejected and the call returns `nullptr`. -/
def configureEncoder (env : EncodeEnv) (quality speed qualityMode : Int) :
    Bool × List EncodeCall :=
  if qualityMode = AVIF_LOSSY_MODE then
    if quality ≤ 100 ∧ quality > 0 then
      let r1 := env.heif_encoder_set_lossy_quality quality
      if r1.code ≠ heif_error_Ok then
        (false, [.heif_encoder_set_lossy_quality quality,
          .throwException ("Can't set encoder quality: " ++ r1.message)])
      else
        let r2 := env.heif_encoder_set_parameter_string "chroma" (.text "420")
        if r2.code ≠ heif_error_Ok then
          (false, [.heif_encoder_set_lossy_quality quality,
            .heif_encoder_set_parameter_string "chroma" (.text "420"),
            .throwException ("Can't set encoder chroma: " ++ r2.message)])
        else if speed > 0 ∧ speed < 20 then
          let r3 := env.heif_encoder_set_parameter_string "speed" (.number speed)
          if r3.code ≠ heif_error_Ok then
            (false, [.heif_encoder_set_lossy_quality quality,
              .heif_encoder_set_parameter_string "chroma" (.text "420"),
              .heif_encoder_set_parameter_string "speed" (.number speed),
              .throwException ("Can't set speed/effort: " ++ r3.message)])
          else
            (true, [.heif_encoder_set_lossy_quality quality,
              .heif_encoder_set_parameter_string "chroma" (.text "420"),
              .heif_encoder_set_parameter_string "speed" (.number speed)])
        else
          (true, [.heif_encoder_set_lossy_quality quality,
            .heif_encoder_set_parameter_string "chroma" (.text "420")])
    else (true, [])
  else if qualityMode = AVIF_LOSELESS_MODE then
    let r1 := env.heif_encoder_set_lossless true
    if r1.code ≠ heif_error_Ok then
      (false, [.heif_encoder_set_lossless true,
        .throwException ("Can't set encoder quality: " ++ r1.message)])
    else
      let r2 := env.heif_encoder_set_parameter_string "chroma" (.text "444")
      if r2.code ≠ heif_error_Ok then
        (false, [.heif_encoder_set_lossless true,
          .heif_encoder_set_parameter_string "chroma" (.text "444"),
          .throwException ("Can't set encoder chroma: " ++ r2.message)])
      else
        (true, [.heif_encoder_set_lossless true,
          .heif_encoder_set_parameter_string "chroma" (.text "444")])
  else (true, [])

/-- Lines 176-182: the layout of the codec image. -/
def encodeChroma (format heifCompressionFormat : Int) : heif_chroma :=
  if (format = ANDROID_BITMAP_FORMAT_RGBA_F16 ∧ heifCompressionFormat = heif_compression_AV1) ∨
      (format = ANDROID_BITMAP_FORMAT_RGBA_1010102 ∧
        heifCompressionFormat = heif_compression_AV1) then
    heif_chroma.heif_chroma_interleaved_RRGGBBAA_LE
  else heif_chroma.heif_chroma_interleaved_RGBA

/-- Lines 201-207: the bit depth of the plane. -/
def encodeBitDepth (format heifCompressionFormat : Int) : Int :=
  if format = ANDROID_BITMAP_FORMAT_RGB_565 then 8
  else if (format = ANDROID_BITMAP_FORMAT_RGBA_F16 ∧
        heifCompressionFormat = heif_compression_AV1) ∨
      (format = ANDROID_BITMAP_FORMAT_RGBA_1010102 ∧
        heifCompressionFormat = heif_compression_AV1) then 10
  else 8

/-- Lines 83-219 of `encodeBitmap`: context and encoder creation, encoder
configuration, the bitmap checks, the pixel copy, image creation and plane
creation.  An early `return nullptr` is `Except.error` with the calls made so
far; on success the bitmap info is returned with the calls. -/
def encodeSetup (env : EncodeEnv) (a : EncodeArgs) :
    Except (List EncodeCall) (AndroidBitmapInfo × List EncodeCall) :=
  if !env.heif_context_alloc then
    .error [.throwException "Can't create HEIF/AVIF encoder due to unknown reason"]
  else
    let r0 := env.heif_context_get_encoder_for_format a.heifCompressionFormat
    if r0.code ≠ heif_error_Ok then
      .error [.throwException ("Can't create encoder with exception: " ++ r0.message)]
    else
      let (configured, calls1) := configureEncoder env a.quality a.speed a.qualityMode
      if !configured then .error calls1
      else
        let info := env.AndroidBitmap_getInfo.2
        if env.AndroidBitmap_getInfo.1 < 0 then
          .error (calls1 ++ [.throwPixelsException])
        else if info.flags &&& ANDROID_BITMAP_FLAGS_IS_HARDWARE ≠ 0 then
          .error (calls1 ++ [.throwHardwareBitmapException])
        else if info.format ≠ ANDROID_BITMAP_FORMAT_RGBA_8888 ∧
            info.format ≠ ANDROID_BITMAP_FORMAT_RGB_565 ∧
            info.format ≠ ANDROID_BITMAP_FORMAT_RGBA_F16 ∧
            info.format ≠ ANDROID_BITMAP_FORMAT_RGBA_1010102 then
          .error (calls1 ++ [.throwInvalidPixelsFormat])
        else if env.AndroidBitmap_lockPixels ≠ 0 then
          .error (calls1 ++ [.AndroidBitmap_lockPixels, .throwPixelsException])
        else
          let chroma := encodeChroma info.format a.heifCompressionFormat
          let r1 := env.heif_image_create info.width info.height chroma
          if r1.code ≠ heif_error_Ok then
            .error (calls1 ++ [.AndroidBitmap_lockPixels, .AndroidBitmap_unlockPixels,
              .heif_image_create info.width info.height chroma,
              .throwException ("Can't create encoded image with exception: " ++ r1.message)])
          else
            let bitDepth := encodeBitDepth info.format a.heifCompressionFormat
            let r2 := env.heif_image_add_plane info.width info.height bitDepth
            if r2.code ≠ heif_error_Ok then
              .error (calls1 ++ [.AndroidBitmap_lockPixels, .AndroidBitmap_unlockPixels,
                .heif_image_create info.width info.height chroma,
                .heif_image_add_plane info.width info.height bitDepth,
                .throwException
                  ("Can't create add plane to encoded image with exception: " ++ r2.message)])
            else
              .ok (info, calls1 ++ [.AndroidBitmap_lockPixels, .AndroidBitmap_unlockPixels,
                .heif_image_create info.width info.height chroma,
                .heif_image_add_plane info.width info.height bitDepth])

/-- Lines 221-259: the conversion of the source pixels into the plane, with the
premultiplied-alpha flag each branch sets. -/
def convertPixels (format heifCompressionFormat : Int) : List EncodeCall :=
  if format = ANDROID_BITMAP_FORMAT_RGBA_8888 then
    [.UnpremultiplyRGBA, .heif_image_set_premultiplied_alpha false]
  else if format = ANDROID_BITMAP_FORMAT_RGB_565 then
    [.Rgb565ToUnsigned8 8 255]
  else if format = ANDROID_BITMAP_FORMAT_RGBA_1010102 then
    if heifCompressionFormat = heif_compression_HEVC then
      [.RGBA1010102ToUnsigned false 8, .heif_image_set_premultiplied_alpha true]
    else
      [.RGBA1010102ToUnsigned true 10, .heif_image_set_premultiplied_alpha true]
  else if format = ANDROID_BITMAP_FORMAT_RGBA_F16 then
    if heifCompressionFormat = heif_compression_AV1 then
      [.RGBAF16BitToNBitU16 10]
    else
      [.RGBAF16BitToNBitU8 8 true, .heif_image_set_premultiplied_alpha true]
  else []

/-- Lines 261-294: the profile is attached.  The flag is false when libheif
rejected the profile and the call returns `nullptr`. -/
def attachProfile (env : EncodeEnv) (bitDepth dataSpace : Int) : Bool × List EncodeCall :=
  let r := env.colorProfileFromDataSpace (decide (bitDepth = 8)) bitDepth dataSpace
  let call := EncodeCall.colorProfileFromDataSpace (decide (bitDepth = 8)) bitDepth dataSpace
  let nclxResult := r.1
  let iccProfile := r.2
  if nclxResult then
    if iccProfile.length < 1 then
      let e := env.heif_image_set_nclx_color_profile
      if e.code ≠ heif_error_Ok then
        (false, [call, .heif_image_set_nclx_color_profile,
          .throwException ("Can't set required color profiel: " ++ e.message)])
      else (true, [call, .heif_image_set_nclx_color_profile])
    else
      let e := env.heif_image_set_raw_color_profile "prof" iccProfile
      if e.code ≠ heif_error_Ok then
        (false, [call, .heif_image_set_raw_color_profile "prof" iccProfile,
          .throwException ("Can't set required color profile: " ++ e.message)])
      else (true, [call, .heif_image_set_raw_color_profile "prof" iccProfile])
  else (true, [call])

/-- Lines 296-338: the image is encoded and the container written. -/
def encodeAndWrite (env : EncodeEnv) : EncodeOutcome :=
  let result := env.heif_context_encode_image.1
  let handle := env.heif_context_encode_image.2
  let calls1 : List EncodeCall :=
    if handle ∧ result.code = heif_error_Ok then
      [.heif_context_encode_image, .heif_context_set_primary_image]
    else [.heif_context_encode_image]
  if result.code ≠ heif_error_Ok then
    { result := none
      calls := calls1 ++
        [.throwException ("Encoding an image failed with exception: " ++ result.message)] }
  else
    let written := env.heif_context_write
    if written.1.code ≠ heif_error_Ok then
      { result := none
        calls := calls1 ++ [.heif_context_write,
          .throwException
            ("Writing encoded image has failed with exception: " ++ written.1.message)] }
    else { result := some written.2, calls := calls1 ++ [.heif_context_write] }

/-- The function `encodeBitmap` of JniEncoder.cpp. -/
def encodeBitmap (env : EncodeEnv) (a : EncodeArgs) : EncodeOutcome :=
  match encodeSetup env a with
  | .error calls => { result := none, calls := calls }
  | .ok (info, calls0) =>
    let calls1 := convertPixels info.format a.heifCompressionFormat
    let (attached, calls2) :=
      attachProfile env (encodeBitDepth info.format a.heifCompressionFormat) a.dataSpace
    if !attached then { result := none, calls := calls0 ++ calls1 ++ calls2 }
    else
      let out := encodeAndWrite env
      { result := out.result, calls := calls0 ++ calls1 ++ calls2 ++ out.calls }

/-! ## Observations on the calls of an encode -/

/-- The encoder-configuration calls, in call order. -/
def encoderSettingsOf : List EncodeCall → List EncodeCall
  | [] => []
  | .heif_encoder_set_lossy_quality q :: rest =>
    .heif_encoder_set_lossy_quality q :: encoderSettingsOf rest
  | .heif_encoder_set_lossless b :: rest => .heif_encoder_set_lossless b :: encoderSettingsOf rest
  | .heif_encoder_set_parameter_string name v :: rest =>
    .heif_encoder_set_parameter_string name v :: encoderSettingsOf rest
  | _ :: rest => encoderSettingsOf rest

/-- The layouts handed to `heif_image_create`, in call order. -/
def createdChromasOf : List EncodeCall → List heif_chroma
  | [] => []
  | .heif_image_create _ _ chroma :: rest => chroma :: createdChromasOf rest
  | _ :: rest => createdChromasOf rest

/-- The bit depths handed to `heif_image_add_plane`, in call order. -/
def planeBitDepthsOf : List EncodeCall → List Int
  | [] => []
  | .heif_image_add_plane _ _ bitDepth :: rest => bitDepth :: planeBitDepthsOf rest
  | _ :: rest => planeBitDepthsOf rest

/-- The pixel-conversion calls, in call order. -/
def conversionsOf : List EncodeCall → List EncodeCall
  | [] => []
  | .UnpremultiplyRGBA :: rest => .UnpremultiplyRGBA :: conversionsOf rest
  | .Rgb565ToUnsigned8 b al :: rest => .Rgb565ToUnsigned8 b al :: conversionsOf rest
  | .RGBA1010102ToUnsigned w b :: rest => .RGBA1010102ToUnsigned w b :: conversionsOf rest
  | .RGBAF16BitToNBitU16 b :: rest => .RGBAF16BitToNBitU16 b :: conversionsOf rest
  | .RGBAF16BitToNBitU8 b f :: rest => .RGBAF16BitToNBitU8 b f :: conversionsOf rest
  | _ :: rest => conversionsOf rest

/-- The bit depth a pixel-conversion call is handed, when it takes one
(`UnpremultiplyRGBA` does not). -/
def conversionBitDepth : EncodeCall → Option Int
  | .Rgb565ToUnsigned8 b _ => some b
  | .RGBA1010102ToUnsigned _ b => some b
  | .RGBAF16BitToNBitU16 b => some b
  | .RGBAF16BitToNBitU8 b _ => some b
  | _ => none

/-- The flags handed to `heif_image_set_premultiplied_alpha`, in call order. -/
def premultipliedFlagsOf : List EncodeCall → List Bool
  | [] => []
  | .heif_image_set_premultiplied_alpha flag :: rest => flag :: premultipliedFlagsOf rest
  | _ :: rest => premultipliedFlagsOf rest

/-! ## Concrete encode inputs -/

/-- A reply of libheif with code `heif_error_Ok`. -/
def okError : heif_error := { code := heif_error_Ok, message := "ok" }

/-- A concrete environment in which every collaborator succeeds, for a 2x2
software bitmap of the given format. -/
def fixtureEncodeEnv (format : Int) : EncodeEnv :=
  { heif_context_alloc := true
    heif_context_get_encoder_for_format := fun _ => okError
    heif_encoder_set_lossy_quality := fun _ => okError
    heif_encoder_set_lossless := fun _ => okError
    heif_encoder_set_parameter_string := fun _ _ => okError
    AndroidBitmap_getInfo :=
      (0, { width := 2, height := 2, stride := 8, format := format, flags := 0 })
    AndroidBitmap_lockPixels := 0
    heif_image_create := fun _ _ _ => okError
    heif_image_add_plane := fun _ _ _ => okError
    colorProfileFromDataSpace := fun _ _ _ => (false, [])
    heif_image_set_nclx_color_profile := okError
    heif_image_set_raw_color_profile := fun _ _ => okError
    heif_context_encode_image := (okError, true)
    heif_context_write := (okError, [0, 0, 0, 28]) }

/-- Encode arguments for the given codec, quality, speed and quality mode. -/
def fixtureEncodeArgs (codec quality speed qualityMode : Int) : EncodeArgs :=
  { heifCompressionFormat := codec, quality := quality, speed := speed, dataSpace := 0
    qualityMode := qualityMode }

/-! ## Further observations on the calls of a decode and of an encode -/

/-- The number of `throwBitDepthException` calls of a decode. -/
def bitDepthErrorsOf {F C : Type} : List (DecodeCall F C) → Nat
  | [] => 0
  | .throwBitDepthException :: rest => bitDepthErrorsOf rest + 1
  | _ :: rest => bitDepthErrorsOf rest

/-- The number of errors a decode raises (`throwException` and
`throwBitDepthException` calls). -/
def decodeThrowsOf {F C : Type} : List (DecodeCall F C) → Nat
  | [] => 0
  | .throwException _ :: rest => decodeThrowsOf rest + 1
  | .throwBitDepthException :: rest => decodeThrowsOf rest + 1
  | _ :: rest => decodeThrowsOf rest

/-- The errors an encode raises, in call order. -/
def throwsOf : List EncodeCall → List EncodeCall
  | [] => []
  | .throwException message :: rest => .throwException message :: throwsOf rest
  | .throwPixelsException :: rest => .throwPixelsException :: throwsOf rest
  | .throwHardwareBitmapException :: rest => .throwHardwareBitmapException :: throwsOf rest
  | .throwInvalidPixelsFormat :: rest => .throwInvalidPixelsFormat :: throwsOf rest
  | _ :: rest => throwsOf rest

/-- The profile-attachment calls of an encode
(`heif_image_set_nclx_color_profile`, `heif_image_set_raw_color_profile`), in
call order. -/
def profileCallsOf : List EncodeCall → List EncodeCall
  | [] => []
  | .heif_image_set_nclx_color_profile :: rest =>
    .heif_image_set_nclx_color_profile :: profileCallsOf rest
  | .heif_image_set_raw_color_profile t profile :: rest =>
    .heif_image_set_raw_color_profile t profile :: profileCallsOf rest
  | _ :: rest => profileCallsOf rest

/-- The number of `AndroidBitmap_lockPixels` calls of an encode. -/
def pixelLocksOf : List EncodeCall → Nat
  | [] => 0
  | .AndroidBitmap_lockPixels :: rest => pixelLocksOf rest + 1
  | _ :: rest => pixelLocksOf rest

/-- The number of `heif_context_encode_image` calls of an encode. -/
def encodeImageCallsOf : List EncodeCall → Nat
  | [] => 0
  | .heif_context_encode_image :: rest => encodeImageCallsOf rest + 1
  | _ :: rest => encodeImageCallsOf rest

/-- The errors of the hardware check and of the format check
(`throwHardwareBitmapException`, `throwInvalidPixelsFormat`), in call order. -/
def formatRejectionsOf : List EncodeCall → List EncodeCall
  | [] => []
  | .throwHardwareBitmapException :: rest =>
    .throwHardwareBitmapException :: formatRejectionsOf rest
  | .throwInvalidPixelsFormat :: rest => .throwInvalidPixelsFormat :: formatRejectionsOf rest
  | _ :: rest => formatRejectionsOf rest

/-! ## getSizeImpl -/

/-- The calls of `getSizeImpl` into its collaborators. -/
inductive SizeCall
  | throwException (message : String)
  | throwBitDepthException
  | heif_image_handle_release
  | NewObject (width height : Int)
  deriving DecidableEq, Repr

/-- The answers of the collaborators during one call of `getSizeImpl`. -/
structure SizeEnv where
  -- true when the context pointer is not null
  heif_context_alloc : Bool
  -- arguments: the bytes and `totalLength`
  heif_context_read_from_memory_without_copy : List Nat → Int → heif_error
  heif_context_get_primary_image_handle : heif_error
  heif_image_handle_get_chroma_bits_per_pixel : Int
  heif_image_handle_get_width : Int
  heif_image_handle_get_height : Int

/-- The outcome of `getSizeImpl`: the `android.util.Size` returned (`none` for
`nullptr`) and the calls made, in order. -/
structure SizeOutcome where
  result : Option (Int × Int)
  calls : List SizeCall
  deriving DecidableEq, Repr

/-- The function `Java_com_radzivon_bartoshyk_avif_coder_HeifCoder_getSizeImpl`
of JniEncoder.cpp (lines 445-494), without the `std::bad_alloc` handler. -/
def Java_com_radzivon_bartoshyk_avif_coder_HeifCoder_getSizeImpl (env : SizeEnv)
    (byte_array : List Nat) : SizeOutcome :=
  if !env.heif_context_alloc then { result := none, calls := [] }
  else
    let totalLength : Int := byte_array.length
    let r1 := env.heif_context_read_from_memory_without_copy byte_array totalLength
    if r1.code ≠ heif_error_Ok then
      { result := none, calls := [.throwException "Reading an file buffer has failed"] }
    else
      let r2 := env.heif_context_get_primary_image_handle
      if r2.code ≠ heif_error_Ok then
        { result := none
          calls := [.throwException "Acquiring an image from buffer has failed"] }
      else
        let bitDepth := env.heif_image_handle_get_chroma_bits_per_pixel
        if bitDepth < 0 then
          { result := none, calls := [.heif_image_handle_release, .throwBitDepthException] }
        else
          let width := env.heif_image_handle_get_width
          let height := env.heif_image_handle_get_height
          { result := some (width, height)
            calls := [.heif_image_handle_release, .NewObject width height] }

/-- The number of `throwBitDepthException` calls of a `getSizeImpl`. -/
def sizeBitDepthErrorsOf : List SizeCall → Nat
  | [] => 0
  | .throwBitDepthException :: rest => sizeBitDepthErrorsOf rest + 1
  | _ :: rest => sizeBitDepthErrorsOf rest

/-! ## The MIME probes -/

/-- The outcome of a probe: the returned `jboolean` and the messages of the
exceptions raised, in order. -/
structure ProbeOutcome where
  result : Bool
  thrown : List String
  deriving DecidableEq, Repr

/-- A `java.nio.ByteBuffer` as JNI shows it: the memory at
`GetDirectBufferAddress` (`none` for a null address) and
`GetDirectBufferCapacity` cast to `int`. -/
structure ByteBuffer where
  GetDirectBufferAddress : Option (List Nat)
  GetDirectBufferCapacity : Int
  deriving DecidableEq, Repr

/-- The function `Java_com_radzivon_bartoshyk_avif_coder_HeifCoder_isHeifImageImpl`
(lines 382-401), without the `std::bad_alloc` handler.  The first argument
stands for libheif's `heif_get_file_mime_type (data, len)`. -/
def Java_com_radzivon_bartoshyk_avif_coder_HeifCoder_isHeifImageImpl
    (heif_get_file_mime_type : List Nat → Int → String) (byte_array : List Nat) :
    ProbeOutcome :=
  let totalLength : Int := byte_array.length
  let mime := heif_get_file_mime_type byte_array totalLength
  { result := mime == "image/heic" || mime == "image/heif" ||
      mime == "image/heic-sequence" || mime == "image/heif-sequence"
    thrown := [] }

/-- The function `Java_com_radzivon_bartoshyk_avif_coder_HeifCoder_isAvifImageImpl`
(lines 403-421), without the `std::bad_alloc` handler. -/
def Java_com_radzivon_bartoshyk_avif_coder_HeifCoder_isAvifImageImpl
    (heif_get_file_mime_type : List Nat → Int → String) (byte_array : List Nat) :
    ProbeOutcome :=
  let totalLength : Int := byte_array.length
  let mime := heif_get_file_mime_type byte_array totalLength
  { result := mime == "image/avif" || mime == "image/avif-sequence"
    thrown := [] }

/-- The function
`Java_com_radzivon_bartoshyk_avif_coder_HeifCoder_isSupportedImageImpl`
(lines 423-443), without the `std::bad_alloc` handler. -/
def Java_com_radzivon_bartoshyk_avif_coder_HeifCoder_isSupportedImageImpl
    (heif_get_file_mime_type : List Nat → Int → String) (byte_array : List Nat) :
    ProbeOutcome :=
  let totalLength : Int := byte_array.length
  let mime := heif_get_file_mime_type byte_array totalLength
  { result := mime == "image/heic" || mime == "image/heif" ||
      mime == "image/heic-sequence" || mime == "image/heif-sequence" ||
      mime == "image/avif" || mime == "image/avif-sequence"
    thrown := [] }

/-- The function
`Java_com_radzivon_bartoshyk_avif_coder_HeifCoder_isSupportedImageImplBB`
(lines 497-522), without the `std::bad_alloc` handler.  The vector `srcBuffer`
holds the first `length` bytes at the buffer address. -/
def Java_com_radzivon_bartoshyk_avif_coder_HeifCoder_isSupportedImageImplBB
    (heif_get_file_mime_type : List Nat → Int → String) (byteBuffer : ByteBuffer) :
    ProbeOutcome :=
  let length := byteBuffer.GetDirectBufferCapacity
  match byteBuffer.GetDirectBufferAddress with
  | none => { result := false, thrown := ["Only direct byte buffers are supported"] }
  | some bufferAddress =>
    if length ≤ 0 then
      { result := false, thrown := ["Only direct byte buffers are supported"] }
    else
      let srcBuffer := bufferAddress.take length.toNat
      let mime := heif_get_file_mime_type srcBuffer srcBuffer.length
      { result := mime == "image/heic" || mime == "image/heif" ||
          mime == "image/heic-sequence" || mime == "image/heif-sequence" ||
          mime == "image/avif" || mime == "image/avif-sequence"
        thrown := [] }

/-! ## Further concrete inputs -/

/-- The fixture encode environment for an arbitrary bitmap info. -/
def fixtureEncodeEnvOf (info : AndroidBitmapInfo) : EncodeEnv :=
  { fixtureEncodeEnv info.format with AndroidBitmap_getInfo := (0, info) }

/-- A concrete `getSizeImpl` environment for a 1x1 image with the given
context-allocation answer and bit depth. -/
def fixtureSizeEnv (allocated : Bool) (bitDepth : Int) : SizeEnv :=
  { heif_context_alloc := allocated
    heif_context_read_from_memory_without_copy := fun _ _ => okError
    heif_context_get_primary_image_handle := okError
    heif_image_handle_get_chroma_bits_per_pixel := bitDepth
    heif_image_handle_get_width := 1
    heif_image_handle_get_height := 1 }

/-- A stand-in for `heif_get_file_mime_type` on concrete buffers: a buffer
starting with byte 1 is reported as AVIF, one starting with byte 2 as HEIC,
anything else with the empty string. -/
def fixtureMime (data : List Nat) (_len : Int) : String :=
  match data with
  | 1 :: _ => "image/avif"
  | 2 :: _ => "image/heic"
  | _ => ""

/-! ## The JNI entry points and their allocation-failure handlers -/

section DecodeLemmas

variable {F C : Type}

theorem iccCallsOf_append (xs ys : List (DecodeCall F C)) :
    iccCallsOf (xs ++ ys) = iccCallsOf xs ++ iccCallsOf ys := by
  induction xs with
  | nil => rfl
  | cons x xs ih => cases x <;> simp [iccCallsOf, ih]

theorem colorMatrixArgsOf_append (xs ys : List (DecodeCall F C)) :
    colorMatrixArgsOf (xs ++ ys) = colorMatrixArgsOf xs ++ colorMatrixArgsOf ys := by
  induction xs with
  | nil => rfl
  | cons x xs ih => cases x <;> simp [colorMatrixArgsOf, ih]

theorem reformatArgsOf_append (xs ys : List (DecodeCall F C)) :
    reformatArgsOf (xs ++ ys) = reformatArgsOf xs ++ reformatArgsOf ys := by
  induction xs with
  | nil => rfl
  | cons x xs ih => cases x <;> simp [reformatArgsOf, ih]

theorem decodeChromasOf_append (xs ys : List (DecodeCall F C)) :
    decodeChromasOf (xs ++ ys) = decodeChromasOf xs ++ decodeChromasOf ys := by
  induction xs with
  | nil => rfl
  | cons x xs ih => cases x <;> simp [decodeChromasOf, ih]

/-- What a successful `decodeSource` says about the state it returns. -/
theorem decodeSource_ok (env : DecodeEnv F C) (a : DecodeArgs) (d : Decoded F)
    (calls0 : List (DecodeCall F C)) (h : decodeSource env a = .ok (d, calls0)) :
    (∃ scaleMode, env.checkDecodePreconditions a.javaColorSpace a.javaScaleMode
        a.javaToneMapper = some (d.preferredColorConfig, scaleMode, d.toneMapper)) ∧
    d.bitDepth = env.heif_image_handle_get_chroma_bits_per_pixel ∧
    0 ≤ d.bitDepth ∧
    d.useBitmapHalf16Floats = useBitmapHalf16Floats d.bitDepth env.androidOSVersion ∧
    d.profile = env.RecognizeICC.profile ∧
    d.nclx = env.RecognizeICC.nclx ∧
    d.hasNCLX = env.RecognizeICC.hasNCLX ∧
    d.alphaPremultiplied =
      (env.heif_image_handle_has_alpha_channel &&
        decide (env.heif_image_handle_is_premultiplied_alpha ≠ 0)) ∧
    calls0 = [.heif_decode_image (decodeChroma d.useBitmapHalf16Floats)] := by
  unfold decodeSource at h
  split at h
  · simp at h
  · rename_i cfg sm tm hpre
    split at h
    · simp at h
    split at h
    · simp at h
    split at h
    · simp at h
    simp only at h
    split at h
    · simp at h
    rename_i hbits
    split at h
    · simp at h
    split at h
    · simp at h
    rename_i r hr
    simp only [Except.ok.injEq, Prod.mk.injEq] at h
    obtain ⟨hd, hc⟩ := h
    subst hd
    refine ⟨⟨sm, hpre⟩, rfl, by simpa using hbits, rfl, rfl, rfl, rfl, ?_, hc.symm⟩
    cases env.heif_image_handle_has_alpha_channel <;> simp

/-- The calls of a decode that got past rescaling. -/
theorem decode_of_source_ok (env : DecodeEnv F C) (a : DecodeArgs) (d : Decoded F)
    (calls0 : List (DecodeCall F C)) (h : decodeSource env a = .ok (d, calls0)) :
    (decodeImplementationNative env a).calls =
      calls0 ++ (unpremultiplyStep env d).2 ++ (colorStep env (unpremultiplyStep env d).1).2 ++
        (reformatStep env (unpremultiplyStep env d).1
          (colorStep env (unpremultiplyStep env d).1).1.1
          (colorStep env (unpremultiplyStep env d).1).1.2).calls ∧
    (decodeImplementationNative env a).result =
      (reformatStep env (unpremultiplyStep env d).1
        (colorStep env (unpremultiplyStep env d).1).1.1
        (colorStep env (unpremultiplyStep env d).1).1.2).result := by
  simp [decodeImplementationNative, h]

theorem unpremultiplyStep_fields (env : DecodeEnv F C) (d : Decoded F) :
    (unpremultiplyStep env d).1.preferredColorConfig = d.preferredColorConfig ∧
    (unpremultiplyStep env d).1.toneMapper = d.toneMapper ∧
    (unpremultiplyStep env d).1.bitDepth = d.bitDepth ∧
    (unpremultiplyStep env d).1.useBitmapHalf16Floats = d.useBitmapHalf16Floats ∧
    (unpremultiplyStep env d).1.profile = d.profile ∧
    (unpremultiplyStep env d).1.nclx = d.nclx ∧
    (unpremultiplyStep env d).1.hasNCLX = d.hasNCLX := by
  unfold unpremultiplyStep
  split <;> simp

theorem unpremultiplyStep_calls (env : DecodeEnv F C) (d : Decoded F) :
    iccCallsOf (unpremultiplyStep env d).2 = [] ∧
    colorMatrixArgsOf (unpremultiplyStep env d).2 = [] ∧
    reformatArgsOf (unpremultiplyStep env d).2 = [] ∧
    decodeChromasOf (unpremultiplyStep env d).2 = [] := by
  unfold unpremultiplyStep
  split <;> simp [iccCallsOf, colorMatrixArgsOf, reformatArgsOf, decodeChromasOf]

theorem unpremultiplyStep_alpha (env : DecodeEnv F C) (d : Decoded F) :
    (unpremultiplyStep env d).1.alphaPremultiplied =
      (d.alphaPremultiplied &&
        (decide (d.preferredColorConfig = PreferredColorConfig.Rgba_8888) ||
          d.useBitmapHalf16Floats)) := by
  unfold unpremultiplyStep
  cases hα : d.alphaPremultiplied <;> cases hu : d.useBitmapHalf16Floats <;>
    by_cases hc : d.preferredColorConfig = PreferredColorConfig.Rgba_8888 <;> simp [hα, hu, hc]

theorem reformatStep_calls (env : DecodeEnv F C) (d : Decoded F) (buf : List Nat)
    (stride : Int) :
    iccCallsOf (reformatStep env d buf stride).calls = [] ∧
    colorMatrixArgsOf (reformatStep env d buf stride).calls = [] ∧
    decodeChromasOf (reformatStep env d buf stride).calls = [] ∧
    reformatArgsOf (reformatStep env d buf stride).calls =
      [{ dstARGB := buf
         imageConfig := imageConfigOf d.useBitmapHalf16Floats
         preferredColorConfig := d.preferredColorConfig
         bitDepth := d.bitDepth
         imageWidth := d.imageWidth
         imageHeight := d.imageHeight
         stride := stride
         useBitmapHalf16Floats := d.useBitmapHalf16Floats
         alphaPremultiplied := d.alphaPremultiplied }] := by
  unfold reformatStep
  simp only
  split <;> simp [iccCallsOf, colorMatrixArgsOf, reformatArgsOf, decodeChromasOf]

theorem colorStep_chromas_reformats (env : DecodeEnv F C) (d : Decoded F) :
    decodeChromasOf (colorStep env d).2 = [] ∧ reformatArgsOf (colorStep env d).2 = [] := by
  unfold colorStep
  simp only
  split
  · simp [decodeChromasOf, reformatArgsOf]
  · split
    · split
      · split <;> simp [decodeChromasOf, reformatArgsOf]
      · simp [decodeChromasOf, reformatArgsOf]
    · simp [decodeChromasOf, reformatArgsOf]

theorem colorStep_icc (env : DecodeEnv F C) (d : Decoded F) (hp : d.profile ≠ []) :
    iccCallsOf (colorStep env d).2 = [d.profile] ∧ colorMatrixArgsOf (colorStep env d).2 = [] := by
  unfold colorStep
  have : d.profile.isEmpty = false := by
    cases hq : d.profile with
    | nil => exact absurd hq hp
    | cons x xs => rfl
  simp [this, iccCallsOf, colorMatrixArgsOf]

theorem colorStep_nclx (env : DecodeEnv F C) (d : Decoded F) (n : heif_color_profile_nclx F)
    (hp : d.profile = []) (hh : d.hasNCLX = true) (hn : d.nclx = some n)
    (htc : n.transfer_characteristics ≠ heif_transfer_characteristic_unspecified)
    (hcp : n.color_primaries ≠ heif_color_primaries_unspecified) :
    iccCallsOf (colorStep env d).2 = [] ∧
    colorMatrixArgsOf (colorStep env d).2 = [nclxArgs env.lib d n d.initialData] := by
  unfold colorStep
  simp only [hp, hn, hh, List.isEmpty_nil]
  cases hu : d.useBitmapHalf16Floats <;> simp [htc, hcp, iccCallsOf, colorMatrixArgsOf]

theorem colorStep_none (env : DecodeEnv F C) (d : Decoded F) (hp : d.profile = [])
    (hno : ¬ (d.hasNCLX = true ∧ ∃ n, d.nclx = some n ∧
      n.transfer_characteristics ≠ heif_transfer_characteristic_unspecified ∧
      n.color_primaries ≠ heif_color_primaries_unspecified)) :
    iccCallsOf (colorStep env d).2 = [] ∧ colorMatrixArgsOf (colorStep env d).2 = [] := by
  unfold colorStep
  simp only [hp, List.isEmpty_nil]
  cases hn : d.nclx with
  | none => simp [iccCallsOf, colorMatrixArgsOf]
  | some n =>
    have : ¬ (d.hasNCLX = true ∧
        n.transfer_characteristics ≠ heif_transfer_characteristic_unspecified ∧
        n.color_primaries ≠ heif_color_primaries_unspecified) := by
      intro hc
      exact hno ⟨hc.1, n, hn, hc.2⟩
    simp [this, iccCallsOf, colorMatrixArgsOf]

/-- The colour calls of a whole decode are those of its colour step. -/
theorem decode_colour_calls (env : DecodeEnv F C) (a : DecodeArgs) (d : Decoded F)
    (calls0 : List (DecodeCall F C)) (h : decodeSource env a = .ok (d, calls0)) :
    iccCallsOf (decodeImplementationNative env a).calls =
      iccCallsOf (colorStep env (unpremultiplyStep env d).1).2 ∧
    colorMatrixArgsOf (decodeImplementationNative env a).calls =
      colorMatrixArgsOf (colorStep env (unpremultiplyStep env d).1).2 := by
  have hc := (decodeSource_ok env a d calls0 h).2.2.2.2.2.2.2.2
  rw [(decode_of_source_ok env a d calls0 h).1]
  simp [iccCallsOf_append, colorMatrixArgsOf_append, unpremultiplyStep_calls, reformatStep_calls,
    hc, iccCallsOf, colorMatrixArgsOf]

theorem forwardTrcOf_eq_spec (tc : Int) : forwardTrcOf tc = specTransferFunction tc := by
  by_cases hr : 0 ≤ tc ∧ tc ≤ 18
  · obtain ⟨h0, h1⟩ := hr
    interval_cases tc <;> rfl
  · have hlt : tc < 0 ∨ 18 < tc := by omega
    simp only [forwardTrcOf, specTransferFunction, transferTable, List.lookup,
      heif_transfer_characteristic_ITU_R_BT_709_5, heif_transfer_characteristic_unspecified,
      heif_transfer_characteristic_ITU_R_BT_470_6_System_M,
      heif_transfer_characteristic_ITU_R_BT_470_6_System_B_G,
      heif_transfer_characteristic_ITU_R_BT_601_6, heif_transfer_characteristic_SMPTE_240M,
      heif_transfer_characteristic_linear, heif_transfer_characteristic_logarithmic_100,
      heif_transfer_characteristic_logarithmic_100_sqrt10,
      heif_transfer_characteristic_IEC_61966_2_4, heif_transfer_characteristic_ITU_R_BT_1361,
      heif_transfer_characteristic_IEC_61966_2_1,
      heif_transfer_characteristic_ITU_R_BT_2020_2_10bit,
      heif_transfer_characteristic_ITU_R_BT_2020_2_12bit,
      heif_transfer_characteristic_ITU_R_BT_2100_0_PQ,
      heif_transfer_characteristic_SMPTE_ST_428_1,
      heif_transfer_characteristic_ITU_R_BT_2100_0_HLG]
    have e : ∀ k : Int, 0 ≤ k → k ≤ 18 → (tc == k) = false := by
      intro k hk0 hk1
      simp only [beq_eq_false_iff_ne, ne_eq]
      omega
    have e2 : ∀ k : Int, 0 ≤ k → k ≤ 18 → ¬ tc = k := by
      intro k hk0 hk1
      omega
    simp [e, e2]

theorem forwardTrcOf_hlg_or_pq (tc : Int) :
    (forwardTrcOf tc = TransferFunction.Hlg ∨ forwardTrcOf tc = TransferFunction.Pq) ↔
      (tc = heif_transfer_characteristic_ITU_R_BT_2100_0_HLG ∨
        tc = heif_transfer_characteristic_ITU_R_BT_2100_0_PQ) := by
  by_cases hr : 0 ≤ tc ∧ tc ≤ 18
  · obtain ⟨h0, h1⟩ := hr
    interval_cases tc <;> decide
  · have hs : forwardTrcOf tc = TransferFunction.Srgb := by
      rw [forwardTrcOf_eq_spec]
      have e : ∀ k : Int, 0 ≤ k → k ≤ 18 → (tc == k) = false := by
        intro k hk0 hk1
        simp only [beq_eq_false_iff_ne, ne_eq]
        omega
      simp [specTransferFunction, transferTable, List.lookup, e,
        heif_transfer_characteristic_ITU_R_BT_709_5, heif_transfer_characteristic_unspecified,
        heif_transfer_characteristic_ITU_R_BT_470_6_System_M,
        heif_transfer_characteristic_ITU_R_BT_470_6_System_B_G,
        heif_transfer_characteristic_ITU_R_BT_601_6, heif_transfer_characteristic_SMPTE_240M,
        heif_transfer_characteristic_linear, heif_transfer_characteristic_logarithmic_100,
        heif_transfer_characteristic_logarithmic_100_sqrt10,
        heif_transfer_characteristic_IEC_61966_2_4, heif_transfer_characteristic_ITU_R_BT_1361,
        heif_transfer_characteristic_IEC_61966_2_1,
        heif_transfer_characteristic_ITU_R_BT_2020_2_10bit,
        heif_transfer_characteristic_ITU_R_BT_2020_2_12bit,
        heif_transfer_characteristic_ITU_R_BT_2100_0_PQ,
        heif_transfer_characteristic_SMPTE_ST_428_1,
        heif_transfer_characteristic_ITU_R_BT_2100_0_HLG]
    simp only [hs, heif_transfer_characteristic_ITU_R_BT_2100_0_HLG,
      heif_transfer_characteristic_ITU_R_BT_2100_0_PQ]
    constructor
    · intro h
      rcases h with h | h <;> cases h
    · intro h
      omega

/-- The tone-mapper preference only reaches `decodeSource` through the
preconditions. -/
theorem decodeSource_toneMapper (env : DecodeEnv F C) (a : DecodeArgs) (j2 : Int)
    (cfg : PreferredColorConfig) (sm : ScaleMode) (t1 t2 : CurveToneMapper)
    (h1 : env.checkDecodePreconditions a.javaColorSpace a.javaScaleMode a.javaToneMapper =
      some (cfg, sm, t1))
    (h2 : env.checkDecodePreconditions a.javaColorSpace a.javaScaleMode j2 = some (cfg, sm, t2))
    (d : Decoded F) (calls0 : List (DecodeCall F C))
    (hok : decodeSource env a = .ok (d, calls0)) :
    decodeSource env { a with javaToneMapper := j2 } = .ok ({ d with toneMapper := t2 }, calls0) := by
  unfold decodeSource at hok ⊢
  simp only [h1] at hok
  simp only [h2]
  split at hok
  · simp at hok
  rename_i hA
  split at hok
  · simp at hok
  rename_i hB
  split at hok
  · simp at hok
  rename_i hC
  split at hok
  · simp at hok
  rename_i hD
  split at hok
  · simp at hok
  rename_i hE
  split at hok
  · simp at hok
  rename_i r hr
  simp only [Except.ok.injEq, Prod.mk.injEq] at hok
  obtain ⟨hd, hc⟩ := hok
  subst hd
  subst hc
  simp only [hA, hB, hC, hD, hE, hr, if_false]
  rfl

theorem unpremultiplyStep_toneMapper (env : DecodeEnv F C) (d : Decoded F)
    (t : CurveToneMapper) :
    unpremultiplyStep env { d with toneMapper := t } =
      ({ (unpremultiplyStep env d).1 with toneMapper := t }, (unpremultiplyStep env d).2) := by
  unfold unpremultiplyStep
  simp only
  split <;> rfl

theorem gateToneMapper_skip (tc : Int) (t : CurveToneMapper)
    (hHLG : tc ≠ heif_transfer_characteristic_ITU_R_BT_2100_0_HLG)
    (hPQ : tc ≠ heif_transfer_characteristic_ITU_R_BT_2100_0_PQ) :
    gateToneMapper tc t = CurveToneMapper.TONE_SKIP := by
  simp [gateToneMapper, hHLG, hPQ]

theorem gateToneMapper_keep (tc : Int) (t : CurveToneMapper)
    (hx : tc = heif_transfer_characteristic_ITU_R_BT_2100_0_HLG ∨
      tc = heif_transfer_characteristic_ITU_R_BT_2100_0_PQ) :
    gateToneMapper tc t = t := by
  unfold gateToneMapper
  rw [if_neg]
  intro hc
  rcases hx with hx | hx
  · exact hc.1 hx
  · exact hc.2 hx

theorem colorStep_toneMapper (env : DecodeEnv F C) (d : Decoded F) (t : CurveToneMapper)
    (hgate : ∀ n, d.nclx = some n →
      n.transfer_characteristics ≠ heif_transfer_characteristic_ITU_R_BT_2100_0_HLG ∧
      n.transfer_characteristics ≠ heif_transfer_characteristic_ITU_R_BT_2100_0_PQ) :
    colorStep env { d with toneMapper := t } = colorStep env d := by
  unfold colorStep
  simp only
  cases hn : d.nclx with
  | none => rfl
  | some n =>
    obtain ⟨hHLG, hPQ⟩ := hgate n hn
    simp only [nclxArgs, gateToneMapper_skip _ _ hHLG hPQ]

theorem reformatStep_toneMapper (env : DecodeEnv F C) (d : Decoded F) (t : CurveToneMapper)
    (buf : List Nat) (stride : Int) :
    reformatStep env { d with toneMapper := t } buf stride = reformatStep env d buf stride := by
  rfl

/-- The reformat and decode requests of a whole decode. -/
theorem decode_requests (env : DecodeEnv F C) (a : DecodeArgs) (d : Decoded F)
    (calls0 : List (DecodeCall F C)) (h : decodeSource env a = .ok (d, calls0)) :
    decodeChromasOf (decodeImplementationNative env a).calls =
      [decodeChroma d.useBitmapHalf16Floats] ∧
    (reformatArgsOf (decodeImplementationNative env a).calls).map
        (fun r => (r.imageConfig, r.preferredColorConfig, r.alphaPremultiplied)) =
      [(imageConfigOf d.useBitmapHalf16Floats, d.preferredColorConfig,
        d.alphaPremultiplied &&
          (decide (d.preferredColorConfig = PreferredColorConfig.Rgba_8888) ||
            d.useBitmapHalf16Floats))] := by
  have hc := (decodeSource_ok env a d calls0 h).2.2.2.2.2.2.2.2
  obtain ⟨hcfg, _, _, huse, _, _, _⟩ := unpremultiplyStep_fields env d
  rw [(decode_of_source_ok env a d calls0 h).1]
  simp [decodeChromasOf_append, reformatArgsOf_append, unpremultiplyStep_calls,
    reformatStep_calls, colorStep_chromas_reformats, hc, decodeChromasOf, reformatArgsOf,
    hcfg, huse, unpremultiplyStep_alpha]

/-- When the descriptor's primaries and white point are the sRGB and D65 values
of the library, the decoder multiplies the inverse of the destination matrix
by that same matrix. -/
theorem conversion_of_srgb_source (lib : ColorSpaceLib F C) (n : heif_color_profile_nclx F)
    (hp : nclxPrimaries lib n = lib.getSRGBPrimaries)
    (hw : nclxWhitePoint lib n = lib.getIlluminantD65) :
    conversion lib n =
      lib.mul (lib.inverse (lib.GamutRgbToXYZ lib.getSRGBPrimaries lib.getIlluminantD65))
        (lib.GamutRgbToXYZ lib.getSRGBPrimaries lib.getIlluminantD65) := by
  simp only [conversion, hp, hw]

end DecodeLemmas

section EncodeLemmas

theorem encoderSettingsOf_append (xs ys : List EncodeCall) :
    encoderSettingsOf (xs ++ ys) = encoderSettingsOf xs ++ encoderSettingsOf ys := by
  induction xs with
  | nil => rfl
  | cons x xs ih => cases x <;> simp [encoderSettingsOf, ih]

theorem createdChromasOf_append (xs ys : List EncodeCall) :
    createdChromasOf (xs ++ ys) = createdChromasOf xs ++ createdChromasOf ys := by
  induction xs with
  | nil => rfl
  | cons x xs ih => cases x <;> simp [createdChromasOf, ih]

theorem planeBitDepthsOf_append (xs ys : List EncodeCall) :
    planeBitDepthsOf (xs ++ ys) = planeBitDepthsOf xs ++ planeBitDepthsOf ys := by
  induction xs with
  | nil => rfl
  | cons x xs ih => cases x <;> simp [planeBitDepthsOf, ih]

theorem conversionsOf_append (xs ys : List EncodeCall) :
    conversionsOf (xs ++ ys) = conversionsOf xs ++ conversionsOf ys := by
  induction xs with
  | nil => rfl
  | cons x xs ih => cases x <;> simp [conversionsOf, ih]

theorem premultipliedFlagsOf_append (xs ys : List EncodeCall) :
    premultipliedFlagsOf (xs ++ ys) = premultipliedFlagsOf xs ++ premultipliedFlagsOf ys := by
  induction xs with
  | nil => rfl
  | cons x xs ih => cases x <;> simp [premultipliedFlagsOf, ih]

/-- The configuration step creates no image, adds no plane, converts no pixel
and sets no alpha flag. -/
theorem configureEncoder_calls (env : EncodeEnv) (quality speed qualityMode : Int) :
    createdChromasOf (configureEncoder env quality speed qualityMode).2 = [] ∧
    planeBitDepthsOf (configureEncoder env quality speed qualityMode).2 = [] ∧
    conversionsOf (configureEncoder env quality speed qualityMode).2 = [] ∧
    premultipliedFlagsOf (configureEncoder env quality speed qualityMode).2 = [] := by
  unfold configureEncoder
  simp only
  split_ifs <;> exact ⟨rfl, rfl, rfl, rfl⟩

theorem convertPixels_settings (format codec : Int) :
    encoderSettingsOf (convertPixels format codec) = [] ∧
    createdChromasOf (convertPixels format codec) = [] ∧
    planeBitDepthsOf (convertPixels format codec) = [] := by
  unfold convertPixels
  split_ifs <;> exact ⟨rfl, rfl, rfl⟩

theorem attachProfile_calls (env : EncodeEnv) (bitDepth dataSpace : Int) :
    encoderSettingsOf (attachProfile env bitDepth dataSpace).2 = [] ∧
    createdChromasOf (attachProfile env bitDepth dataSpace).2 = [] ∧
    planeBitDepthsOf (attachProfile env bitDepth dataSpace).2 = [] ∧
    conversionsOf (attachProfile env bitDepth dataSpace).2 = [] ∧
    premultipliedFlagsOf (attachProfile env bitDepth dataSpace).2 = [] := by
  unfold attachProfile
  simp only
  split_ifs <;> exact ⟨rfl, rfl, rfl, rfl, rfl⟩

theorem encodeAndWrite_calls (env : EncodeEnv) :
    encoderSettingsOf (encodeAndWrite env).calls = [] ∧
    createdChromasOf (encodeAndWrite env).calls = [] ∧
    planeBitDepthsOf (encodeAndWrite env).calls = [] ∧
    conversionsOf (encodeAndWrite env).calls = [] ∧
    premultipliedFlagsOf (encodeAndWrite env).calls = [] := by
  unfold encodeAndWrite
  simp only
  split_ifs <;> exact ⟨rfl, rfl, rfl, rfl, rfl⟩

/-- What a successful `encodeSetup` says about the bitmap and the calls. -/
theorem encodeSetup_ok (env : EncodeEnv) (a : EncodeArgs) (info : AndroidBitmapInfo)
    (calls0 : List EncodeCall) (h : encodeSetup env a = .ok (info, calls0)) :
    info = env.AndroidBitmap_getInfo.2 ∧
    (info.format = ANDROID_BITMAP_FORMAT_RGBA_8888 ∨
      info.format = ANDROID_BITMAP_FORMAT_RGB_565 ∨
      info.format = ANDROID_BITMAP_FORMAT_RGBA_F16 ∨
      info.format = ANDROID_BITMAP_FORMAT_RGBA_1010102) ∧
    calls0 = (configureEncoder env a.quality a.speed a.qualityMode).2 ++
      [.AndroidBitmap_lockPixels, .AndroidBitmap_unlockPixels,
       .heif_image_create info.width info.height
         (encodeChroma info.format a.heifCompressionFormat),
       .heif_image_add_plane info.width info.height
         (encodeBitDepth info.format a.heifCompressionFormat)] := by
  unfold encodeSetup at h
  split at h
  · simp at h
  simp only at h
  split at h
  · simp at h
  split at h
  · simp at h
  split at h
  · simp at h
  split at h
  · simp at h
  split at h
  · simp at h
  rename_i hfmt
  split at h
  · simp at h
  split at h
  · simp at h
  split at h
  · simp at h
  simp only [Except.ok.injEq, Prod.mk.injEq] at h
  obtain ⟨hi, hc⟩ := h
  subst hi
  refine ⟨rfl, ?_, hc.symm⟩
  by_contra hno
  apply hfmt
  simp only [not_or] at hno
  exact hno

/-- The calls of an encode that got past plane creation. -/
theorem encode_of_setup_ok (env : EncodeEnv) (a : EncodeArgs) (info : AndroidBitmapInfo)
    (calls0 : List EncodeCall) (h : encodeSetup env a = .ok (info, calls0)) :
    ∃ tail, (encodeBitmap env a).calls =
        calls0 ++ convertPixels info.format a.heifCompressionFormat ++ tail ∧
      encoderSettingsOf tail = [] ∧ createdChromasOf tail = [] ∧ planeBitDepthsOf tail = [] ∧
      conversionsOf tail = [] ∧ premultipliedFlagsOf tail = [] := by
  obtain ⟨p1, p2, p3, p4, p5⟩ :=
    attachProfile_calls env (encodeBitDepth info.format a.heifCompressionFormat) a.dataSpace
  obtain ⟨w1, w2, w3, w4, w5⟩ := encodeAndWrite_calls env
  unfold encodeBitmap
  simp only [h]
  split
  · exact ⟨_, rfl, p1, p2, p3, p4, p5⟩
  · refine ⟨(attachProfile env (encodeBitDepth info.format a.heifCompressionFormat)
      a.dataSpace).2 ++ (encodeAndWrite env).calls, by simp, ?_, ?_, ?_, ?_, ?_⟩
    · rw [encoderSettingsOf_append, p1, w1]; rfl
    · rw [createdChromasOf_append, p2, w2]; rfl
    · rw [planeBitDepthsOf_append, p3, w3]; rfl
    · rw [conversionsOf_append, p4, w4]; rfl
    · rw [premultipliedFlagsOf_append, p5, w5]; rfl

/-- The encoder settings of a whole encode are those of its configuration
step, once the context and the encoder exist. -/
theorem encode_settings (env : EncodeEnv) (a : EncodeArgs)
    (halloc : env.heif_context_alloc = true)
    (henc : (env.heif_context_get_encoder_for_format a.heifCompressionFormat).code =
      heif_error_Ok) :
    encoderSettingsOf (encodeBitmap env a).calls =
      encoderSettingsOf (configureEncoder env a.quality a.speed a.qualityMode).2 := by
  cases hs : encodeSetup env a with
  | error calls =>
    have : (encodeBitmap env a).calls = calls := by simp [encodeBitmap, hs]
    rw [this]
    unfold encodeSetup at hs
    simp only [halloc, henc, Bool.not_true, Bool.false_eq_true, if_false, ne_eq,
      not_true_eq_false] at hs
    split_ifs at hs <;> simp only [Except.error.injEq, reduceCtorEq] at hs <;> subst hs <;>
      simp [encoderSettingsOf_append, encoderSettingsOf]
  | ok v =>
    obtain ⟨info, calls0⟩ := v
    obtain ⟨tail, hcalls, ht, _⟩ := encode_of_setup_ok env a info calls0 hs
    obtain ⟨_, _, hc0⟩ := encodeSetup_ok env a info calls0 hs
    rw [hcalls, hc0]
    simp [encoderSettingsOf_append, encoderSettingsOf, ht, (convertPixels_settings _ _).1]

theorem encoderSettingsOf_configureEncoder_lossy (env : EncodeEnv) (quality speed : Int)
    (hq : (env.heif_encoder_set_lossy_quality quality).code = heif_error_Ok)
    (hc : (env.heif_encoder_set_parameter_string "chroma" (ParameterValue.text "420")).code =
      heif_error_Ok)
    (hs : 1 ≤ speed ∧ speed ≤ 19 →
      (env.heif_encoder_set_parameter_string "speed" (ParameterValue.number speed)).code =
        heif_error_Ok)
    (h1 : 1 ≤ quality) (h100 : quality ≤ 100) :
    encoderSettingsOf (configureEncoder env quality speed AVIF_LOSSY_MODE).2 =
      [EncodeCall.heif_encoder_set_lossy_quality quality,
       EncodeCall.heif_encoder_set_parameter_string "chroma" (ParameterValue.text "420")] ++
      (if 1 ≤ speed ∧ speed ≤ 19 then
        [EncodeCall.heif_encoder_set_parameter_string "speed" (ParameterValue.number speed)]
       else []) := by
  have hrange : quality ≤ 100 ∧ quality > 0 := ⟨h100, by omega⟩
  have hq' : ¬ ((env.heif_encoder_set_lossy_quality quality).code ≠ heif_error_Ok) :=
    not_not.mpr hq
  have hc' : ¬ ((env.heif_encoder_set_parameter_string "chroma"
      (ParameterValue.text "420")).code ≠ heif_error_Ok) := not_not.mpr hc
  unfold configureEncoder
  rw [if_pos rfl, if_pos hrange]
  simp only
  rw [if_neg hq', if_neg hc']
  by_cases hsp : speed > 0 ∧ speed < 20
  · have hin : 1 ≤ speed ∧ speed ≤ 19 := by omega
    have hs' : ¬ ((env.heif_encoder_set_parameter_string "speed"
        (ParameterValue.number speed)).code ≠ heif_error_Ok) := not_not.mpr (hs hin)
    rw [if_pos hsp, if_neg hs', if_pos hin]
    rfl
  · have hout : ¬ (1 ≤ speed ∧ speed ≤ 19) := by omega
    rw [if_neg hsp, if_neg hout]
    rfl

theorem configureEncoder_lossless (env : EncodeEnv) (quality speed : Int) :
    configureEncoder env quality speed AVIF_LOSELESS_MODE =
      configureEncoder env 0 0 AVIF_LOSELESS_MODE := by
  unfold configureEncoder
  have : ¬ (AVIF_LOSELESS_MODE = AVIF_LOSSY_MODE) := by decide
  simp only [this, if_false]

theorem encoderSettingsOf_configureEncoder_lossless (env : EncodeEnv) (quality speed : Int)
    (hl : (env.heif_encoder_set_lossless true).code = heif_error_Ok)
    (hc : (env.heif_encoder_set_parameter_string "chroma" (ParameterValue.text "444")).code =
      heif_error_Ok) :
    encoderSettingsOf (configureEncoder env quality speed AVIF_LOSELESS_MODE).2 =
      [EncodeCall.heif_encoder_set_lossless true,
       EncodeCall.heif_encoder_set_parameter_string "chroma" (ParameterValue.text "444")] := by
  have hm : ¬ (AVIF_LOSELESS_MODE = AVIF_LOSSY_MODE) := by decide
  have hl' : ¬ ((env.heif_encoder_set_lossless true).code ≠ heif_error_Ok) := not_not.mpr hl
  have hc' : ¬ ((env.heif_encoder_set_parameter_string "chroma"
      (ParameterValue.text "444")).code ≠ heif_error_Ok) := not_not.mpr hc
  unfold configureEncoder
  rw [if_neg hm, if_pos rfl]
  simp only
  rw [if_neg hl', if_neg hc']
  rfl

end EncodeLemmas

/-! ## Claims about decode -/

/-- C1: in a decode that reaches the colour step, a non-empty ICC profile is
handed to `convertUseICC` exactly once and no colour-matrix applier is called,
whatever the NCLX descriptor says; with an empty profile and an NCLX
descriptor whose primaries and transfer characteristic are both specified,
exactly one colour-matrix applier call is made and `convertUseICC` is not
called; otherwise neither is called. -/
theorem decode_colour_path_choice {F C : Type} (env : DecodeEnv F C) (a : DecodeArgs)
    (d : Decoded F) (calls0 : List (DecodeCall F C))
    (h : decodeSource env a = .ok (d, calls0)) :
    (env.RecognizeICC.profile ≠ [] →
      iccCallsOf (decodeImplementationNative env a).calls = [env.RecognizeICC.profile] ∧
      colorMatrixArgsOf (decodeImplementationNative env a).calls = []) ∧
    (env.RecognizeICC.profile = [] →
      (env.RecognizeICC.hasNCLX = true ∧ ∃ n, env.RecognizeICC.nclx = some n ∧
        n.transfer_characteristics ≠ heif_transfer_characteristic_unspecified ∧
        n.color_primaries ≠ heif_color_primaries_unspecified) →
      iccCallsOf (decodeImplementationNative env a).calls = [] ∧
      (colorMatrixArgsOf (decodeImplementationNative env a).calls).length = 1) ∧
    (env.RecognizeICC.profile = [] →
      ¬ (env.RecognizeICC.hasNCLX = true ∧ ∃ n, env.RecognizeICC.nclx = some n ∧
        n.transfer_characteristics ≠ heif_transfer_characteristic_unspecified ∧
        n.color_primaries ≠ heif_color_primaries_unspecified) →
      iccCallsOf (decodeImplementationNative env a).calls = [] ∧
      colorMatrixArgsOf (decodeImplementationNative env a).calls = []) := by
  obtain ⟨_, _, _, _, hprof, hnclx, hhas, _, _⟩ := decodeSource_ok env a d calls0 h
  obtain ⟨_, _, _, _, hp1, hn1, hh1⟩ := unpremultiplyStep_fields env d
  obtain ⟨hi, hm⟩ := decode_colour_calls env a d calls0 h
  rw [hi, hm]
  have ep : (unpremultiplyStep env d).1.profile = env.RecognizeICC.profile := by rw [hp1, hprof]
  have en : (unpremultiplyStep env d).1.nclx = env.RecognizeICC.nclx := by rw [hn1, hnclx]
  have eh : (unpremultiplyStep env d).1.hasNCLX = env.RecognizeICC.hasNCLX := by rw [hh1, hhas]
  refine ⟨?_, ?_, ?_⟩
  · intro hne
    have := colorStep_icc env (unpremultiplyStep env d).1 (by rw [ep]; exact hne)
    rw [ep] at this
    exact this
  · intro he hx
    obtain ⟨hhn, n, hsome, htc, hcp⟩ := hx
    have := colorStep_nclx env (unpremultiplyStep env d).1 n (by rw [ep]; exact he)
      (by rw [eh]; exact hhn) (by rw [en]; exact hsome) htc hcp
    rw [this.1, this.2]
    exact ⟨rfl, rfl⟩
  · intro he hx
    refine colorStep_none env (unpremultiplyStep env d).1 (by rw [ep]; exact he) ?_
    rw [eh, en]
    exact hx

/-- Witness of C1: an image carrying both ICC bytes and a fully specified NCLX
descriptor takes the ICC path only. -/
theorem decode_colour_path_choice_witness :
    iccCallsOf (decodeImplementationNative
        (fixtureEnv 8 30 [1, 2, 3] (some (fixtureNclx 1 13)) false 0)
        (fixtureArgs 1 1)).calls = [[1, 2, 3]] ∧
    colorMatrixArgsOf (decodeImplementationNative
        (fixtureEnv 8 30 [1, 2, 3] (some (fixtureNclx 1 13)) false 0)
        (fixtureArgs 1 1)).calls = [] :=
  (decode_colour_path_choice (fixtureEnv 8 30 [1, 2, 3] (some (fixtureNclx 1 13)) false 0)
    (fixtureArgs 1 1) _ _ rfl).1 (by decide)

/-- C2: the chain of comparisons that picks the forward transfer function
agrees with the mapping table of section 4.3 on every code, unmatched codes
giving Srgb; and in a decode on the NCLX path the colour-matrix applier
receives the table's transfer function for the descriptor's code. -/
theorem decode_forward_transfer_table {F C : Type} (env : DecodeEnv F C) (a : DecodeArgs)
    (d : Decoded F) (calls0 : List (DecodeCall F C)) (n : heif_color_profile_nclx F)
    (h : decodeSource env a = .ok (d, calls0))
    (hp : env.RecognizeICC.profile = []) (hh : env.RecognizeICC.hasNCLX = true)
    (hn : env.RecognizeICC.nclx = some n)
    (htc : n.transfer_characteristics ≠ heif_transfer_characteristic_unspecified)
    (hcp : n.color_primaries ≠ heif_color_primaries_unspecified) :
    (∀ tc : Int, forwardTrcOf tc = specTransferFunction tc) ∧
    (colorMatrixArgsOf (decodeImplementationNative env a).calls).map
        (fun args => args.forwardTrc) =
      [specTransferFunction n.transfer_characteristics] := by
  refine ⟨forwardTrcOf_eq_spec, ?_⟩
  obtain ⟨_, _, _, _, hprof, hnclx, hhas, _, _⟩ := decodeSource_ok env a d calls0 h
  obtain ⟨_, _, _, _, hp1, hn1, hh1⟩ := unpremultiplyStep_fields env d
  rw [(decode_colour_calls env a d calls0 h).2,
    (colorStep_nclx env (unpremultiplyStep env d).1 n (by rw [hp1, hprof]; exact hp)
      (by rw [hh1, hhas]; exact hh) (by rw [hn1, hnclx]; exact hn) htc hcp).2]
  simp [nclxArgs, forwardTrcOf_eq_spec]

/-- Witness of C2: a BT.709 descriptor gives Itur709. -/
theorem decode_forward_transfer_table_witness :
    (colorMatrixArgsOf (decodeImplementationNative
        (fixtureEnv 8 30 [] (some (fixtureNclx 1 1)) false 0) (fixtureArgs 1 4)).calls).map
        (fun args => args.forwardTrc) = [TransferFunction.Itur709] :=
  (decode_forward_transfer_table (fixtureEnv 8 30 [] (some (fixtureNclx 1 1)) false 0)
    (fixtureArgs 1 4) _ _ (fixtureNclx 1 1) rfl rfl rfl rfl (by decide) (by decide)).2

/-- C3: on the NCLX path, when the transfer characteristic is neither HLG nor
PQ, the colour-matrix applier receives `TONE_SKIP` whatever tone mapper the
caller preferred, and a second decode of the same image that differs only in
the tone-mapper preference makes the same calls with the same arguments and
returns the same bitmap. -/
theorem decode_tone_mapper_noninterference {F C : Type} (env : DecodeEnv F C)
    (a : DecodeArgs) (j2 : Int) (cfg : PreferredColorConfig) (sm : ScaleMode)
    (t1 t2 : CurveToneMapper) (d : Decoded F) (calls0 : List (DecodeCall F C))
    (n : heif_color_profile_nclx F)
    (h1 : env.checkDecodePreconditions a.javaColorSpace a.javaScaleMode a.javaToneMapper =
      some (cfg, sm, t1))
    (h2 : env.checkDecodePreconditions a.javaColorSpace a.javaScaleMode j2 = some (cfg, sm, t2))
    (h : decodeSource env a = .ok (d, calls0))
    (hp : env.RecognizeICC.profile = []) (hh : env.RecognizeICC.hasNCLX = true)
    (hn : env.RecognizeICC.nclx = some n)
    (htc : n.transfer_characteristics ≠ heif_transfer_characteristic_unspecified)
    (hcp : n.color_primaries ≠ heif_color_primaries_unspecified)
    (hHLG : n.transfer_characteristics ≠ heif_transfer_characteristic_ITU_R_BT_2100_0_HLG)
    (hPQ : n.transfer_characteristics ≠ heif_transfer_characteristic_ITU_R_BT_2100_0_PQ) :
    (colorMatrixArgsOf (decodeImplementationNative env a).calls).map
        (fun args => args.toneMapper) = [CurveToneMapper.TONE_SKIP] ∧
    decodeImplementationNative env { a with javaToneMapper := j2 } =
      decodeImplementationNative env a := by
  obtain ⟨_, _, _, _, hprof, hnclx, hhas, _, _⟩ := decodeSource_ok env a d calls0 h
  obtain ⟨_, _, _, _, hp1, hn1, hh1⟩ := unpremultiplyStep_fields env d
  constructor
  · rw [(decode_colour_calls env a d calls0 h).2,
      (colorStep_nclx env (unpremultiplyStep env d).1 n (by rw [hp1, hprof]; exact hp)
        (by rw [hh1, hhas]; exact hh) (by rw [hn1, hnclx]; exact hn) htc hcp).2]
    simp [nclxArgs, gateToneMapper_skip _ _ hHLG hPQ]
  · have h' := decodeSource_toneMapper env a j2 cfg sm t1 t2 h1 h2 d calls0 h
    have hgate : ∀ m, (unpremultiplyStep env d).1.nclx = some m →
        m.transfer_characteristics ≠ heif_transfer_characteristic_ITU_R_BT_2100_0_HLG ∧
        m.transfer_characteristics ≠ heif_transfer_characteristic_ITU_R_BT_2100_0_PQ := by
      intro m hm
      rw [hn1, hnclx, hn] at hm
      cases hm
      exact ⟨hHLG, hPQ⟩
    simp only [decodeImplementationNative, h, h', unpremultiplyStep_toneMapper,
      colorStep_toneMapper env _ t2 hgate, reformatStep_toneMapper]

/-- Witness of C3: a BT.709 image decoded with preference Auto and with
preference Skip. -/
theorem decode_tone_mapper_noninterference_witness :
    (colorMatrixArgsOf (decodeImplementationNative
        (fixtureEnv 8 30 [] (some (fixtureNclx 1 1)) false 0) (fixtureArgs 1 4)).calls).map
        (fun args => args.toneMapper) = [CurveToneMapper.TONE_SKIP] ∧
    decodeImplementationNative (fixtureEnv 8 30 [] (some (fixtureNclx 1 1)) false 0)
        { fixtureArgs 1 4 with javaToneMapper := 1 } =
      decodeImplementationNative (fixtureEnv 8 30 [] (some (fixtureNclx 1 1)) false 0)
        (fixtureArgs 1 4) :=
  decode_tone_mapper_noninterference (fixtureEnv 8 30 [] (some (fixtureNclx 1 1)) false 0)
    (fixtureArgs 1 4) 1 PreferredColorConfig.Rgba_8888 ScaleMode.Fit
    CurveToneMapper.TONE_AUTO CurveToneMapper.TONE_SKIP _ _ (fixtureNclx 1 1)
    rfl rfl rfl rfl rfl rfl (by decide) (by decide) (by decide) (by decide)

/-- Counterexample to C4 as stated: an HLG image decoded by a caller whose
tone-mapper preference is Skip reaches the colour-matrix applier with
`TONE_SKIP`, although the forward transfer function is Hlg. -/
theorem decode_tone_mapping_iff_counterexample :
    (colorMatrixArgsOf (decodeImplementationNative
        (fixtureEnv 10 30 [] (some (fixtureNclx 9 18)) false 0) (fixtureArgs 1 1)).calls).map
        (fun args => (args.toneMapper, args.forwardTrc)) =
      [(CurveToneMapper.TONE_SKIP, TransferFunction.Hlg)] ∧
    ¬ (∀ p ∈ (colorMatrixArgsOf (decodeImplementationNative
        (fixtureEnv 10 30 [] (some (fixtureNclx 9 18)) false 0) (fixtureArgs 1 1)).calls).map
        (fun args => (args.toneMapper, args.forwardTrc)),
      p.1 ≠ CurveToneMapper.TONE_SKIP ↔
        (p.2 = TransferFunction.Hlg ∨ p.2 = TransferFunction.Pq)) := by
  constructor
  · rfl
  · decide

/-- C4, amended: on the NCLX path the tone-mapper mode handed to the
colour-matrix applier differs from Skip exactly when the forward transfer
function is Hlg or Pq and the caller's own preference differs from Skip; for
Hlg and Pq the caller's preference is handed on unchanged. -/
theorem decode_tone_mapping_engaged {F C : Type} (env : DecodeEnv F C) (a : DecodeArgs)
    (cfg : PreferredColorConfig) (sm : ScaleMode) (t : CurveToneMapper)
    (d : Decoded F) (calls0 : List (DecodeCall F C)) (n : heif_color_profile_nclx F)
    (hpre : env.checkDecodePreconditions a.javaColorSpace a.javaScaleMode a.javaToneMapper =
      some (cfg, sm, t))
    (h : decodeSource env a = .ok (d, calls0))
    (hp : env.RecognizeICC.profile = []) (hh : env.RecognizeICC.hasNCLX = true)
    (hn : env.RecognizeICC.nclx = some n)
    (htc : n.transfer_characteristics ≠ heif_transfer_characteristic_unspecified)
    (hcp : n.color_primaries ≠ heif_color_primaries_unspecified) :
    ∃ args, colorMatrixArgsOf (decodeImplementationNative env a).calls = [args] ∧
      (args.toneMapper ≠ CurveToneMapper.TONE_SKIP ↔
        ((args.forwardTrc = TransferFunction.Hlg ∨ args.forwardTrc = TransferFunction.Pq) ∧
          t ≠ CurveToneMapper.TONE_SKIP)) ∧
      ((args.forwardTrc = TransferFunction.Hlg ∨ args.forwardTrc = TransferFunction.Pq) →
        args.toneMapper = t) := by
  obtain ⟨⟨sm', hpre'⟩, _, _, _, hprof, hnclx, hhas, _, _⟩ := decodeSource_ok env a d calls0 h
  obtain ⟨_, htm1, _, _, hp1, hn1, hh1⟩ := unpremultiplyStep_fields env d
  have ht : d.toneMapper = t := by
    rw [hpre] at hpre'
    simp only [Option.some.injEq, Prod.mk.injEq] at hpre'
    exact hpre'.2.2.symm
  refine ⟨nclxArgs env.lib (unpremultiplyStep env d).1 n (unpremultiplyStep env d).1.initialData,
    ?_, ?_, ?_⟩
  · rw [(decode_colour_calls env a d calls0 h).2]
    exact (colorStep_nclx env (unpremultiplyStep env d).1 n (by rw [hp1, hprof]; exact hp)
      (by rw [hh1, hhas]; exact hh) (by rw [hn1, hnclx]; exact hn) htc hcp).2
  · simp only [nclxArgs, htm1, ht, forwardTrcOf_hlg_or_pq]
    constructor
    · intro hne
      by_cases hx : n.transfer_characteristics = heif_transfer_characteristic_ITU_R_BT_2100_0_HLG ∨
          n.transfer_characteristics = heif_transfer_characteristic_ITU_R_BT_2100_0_PQ
      · rw [gateToneMapper_keep _ _ hx] at hne
        exact ⟨hx, hne⟩
      · exfalso
        apply hne
        exact gateToneMapper_skip _ _ (fun e => hx (Or.inl e)) (fun e => hx (Or.inr e))
    · intro hx
      rw [gateToneMapper_keep _ _ hx.1]
      exact hx.2
  · simp only [nclxArgs, htm1, ht, forwardTrcOf_hlg_or_pq]
    intro hx
    exact gateToneMapper_keep _ _ hx

/-- Witness of the amended C4: a PQ image decoded with preference Auto. -/
theorem decode_tone_mapping_engaged_witness :
    ∃ args, colorMatrixArgsOf (decodeImplementationNative
        (fixtureEnv 10 30 [] (some (fixtureNclx 9 16)) false 0) (fixtureArgs 1 4)).calls =
        [args] ∧
      (args.toneMapper ≠ CurveToneMapper.TONE_SKIP ↔
        ((args.forwardTrc = TransferFunction.Hlg ∨ args.forwardTrc = TransferFunction.Pq) ∧
          CurveToneMapper.TONE_AUTO ≠ CurveToneMapper.TONE_SKIP)) ∧
      ((args.forwardTrc = TransferFunction.Hlg ∨ args.forwardTrc = TransferFunction.Pq) →
        args.toneMapper = CurveToneMapper.TONE_AUTO) :=
  decode_tone_mapping_engaged (fixtureEnv 10 30 [] (some (fixtureNclx 9 16)) false 0)
    (fixtureArgs 1 4) PreferredColorConfig.Rgba_8888 ScaleMode.Fit CurveToneMapper.TONE_AUTO
    _ _ (fixtureNclx 9 16) rfl rfl rfl rfl rfl (by decide) (by decide)

/-- Counterexample to C5 as stated: with preferred config `Rgba_8888` a source
without alpha channel reaches the reformat step flagged straight, and with
preferred config `Rgb_565` a premultiplied 10-bit source on OS version 30
reaches it flagged premultiplied. -/
theorem decode_alpha_rule_counterexample :
    (reformatArgsOf (decodeImplementationNative
        (fixtureEnv 8 30 [] none false 0) (fixtureArgs 1 1)).calls).map
        (fun r => (r.preferredColorConfig, r.alphaPremultiplied)) =
      [(PreferredColorConfig.Rgba_8888, false)] ∧
    (reformatArgsOf (decodeImplementationNative
        (fixtureEnv 10 30 [] none true 1) (fixtureArgs 2 1)).calls).map
        (fun r => (r.preferredColorConfig, r.alphaPremultiplied)) =
      [(PreferredColorConfig.Rgb_565, true)] := by
  constructor <;> rfl

/-- C5, amended: the alpha state handed to `ReformatColorConfig` is
premultiplied exactly when the source has an alpha channel that the codec
reports as premultiplied and, in addition, the preferred config is `Rgba_8888`
or the half-float target is in use (bit depth above 8 and OS version at least
26); in every other case it is straight. -/
theorem decode_alpha_handed_to_reformat {F C : Type} (env : DecodeEnv F C) (a : DecodeArgs)
    (cfg : PreferredColorConfig) (sm : ScaleMode) (t : CurveToneMapper)
    (d : Decoded F) (calls0 : List (DecodeCall F C))
    (hpre : env.checkDecodePreconditions a.javaColorSpace a.javaScaleMode a.javaToneMapper =
      some (cfg, sm, t))
    (h : decodeSource env a = .ok (d, calls0)) :
    (reformatArgsOf (decodeImplementationNative env a).calls).map
        (fun r => (r.preferredColorConfig, r.alphaPremultiplied)) =
      [(cfg, decide ((env.heif_image_handle_has_alpha_channel = true ∧
          env.heif_image_handle_is_premultiplied_alpha ≠ 0) ∧
          (cfg = PreferredColorConfig.Rgba_8888 ∨
            (env.heif_image_handle_get_chroma_bits_per_pixel > 8 ∧
              env.androidOSVersion ≥ 26))))] := by
  obtain ⟨⟨sm', hpre'⟩, hbits, _, huse, _, _, _, halpha, _⟩ := decodeSource_ok env a d calls0 h
  have hc : d.preferredColorConfig = cfg := by
    rw [hpre] at hpre'
    simp only [Option.some.injEq, Prod.mk.injEq] at hpre'
    exact hpre'.1.symm
  have hr := (decode_requests env a d calls0 h).2
  have hm : (reformatArgsOf (decodeImplementationNative env a).calls).map
      (fun r => (r.preferredColorConfig, r.alphaPremultiplied)) =
      ((reformatArgsOf (decodeImplementationNative env a).calls).map
        (fun r => (r.imageConfig, r.preferredColorConfig, r.alphaPremultiplied))).map
        (fun p => (p.2.1, p.2.2)) := by
    simp [List.map_map, Function.comp_def]
  rw [hm, hr]
  simp only [List.map_cons, List.map_nil, hc, halpha, huse, hbits, useBitmapHalf16Floats]
  congr 2
  by_cases h1 : env.heif_image_handle_has_alpha_channel = true <;>
    by_cases h2 : env.heif_image_handle_is_premultiplied_alpha = 0 <;>
    by_cases h3 : cfg = PreferredColorConfig.Rgba_8888 <;>
    by_cases h4 : env.heif_image_handle_get_chroma_bits_per_pixel > 8 ∧
      env.androidOSVersion ≥ 26 <;>
    simp [h1, h2, h3, h4]

/-- Witness of the amended C5: a premultiplied 8-bit source with preferred
config `Rgb_565` reaches the reformat step flagged straight. -/
theorem decode_alpha_handed_to_reformat_witness :
    (reformatArgsOf (decodeImplementationNative
        (fixtureEnv 8 30 [] none true 1) (fixtureArgs 2 1)).calls).map
        (fun r => (r.preferredColorConfig, r.alphaPremultiplied)) =
      [(PreferredColorConfig.Rgb_565, false)] :=
  decode_alpha_handed_to_reformat (fixtureEnv 8 30 [] none true 1) (fixtureArgs 2 1)
    PreferredColorConfig.Rgb_565 ScaleMode.Fit CurveToneMapper.TONE_SKIP _ _ rfl rfl

/-- C6: a decode that gets past rescaling has a non-negative reported bit
depth, asks the codec for `RRGGBBAA_LE` and uses image config "RGBA_F16" when
the bit depth is above 8 and the OS version is at least 26, and asks for
interleaved RGBA and uses "ARGB_8888" in every other case. -/
theorem decode_half_float_target {F C : Type} (env : DecodeEnv F C) (a : DecodeArgs)
    (d : Decoded F) (calls0 : List (DecodeCall F C))
    (h : decodeSource env a = .ok (d, calls0)) :
    0 ≤ env.heif_image_handle_get_chroma_bits_per_pixel ∧
    decodeChromasOf (decodeImplementationNative env a).calls =
      [if env.heif_image_handle_get_chroma_bits_per_pixel > 8 ∧ env.androidOSVersion ≥ 26 then
        heif_chroma.heif_chroma_interleaved_RRGGBBAA_LE
       else heif_chroma.heif_chroma_interleaved_RGBA] ∧
    (reformatArgsOf (decodeImplementationNative env a).calls).map (fun r => r.imageConfig) =
      [if env.heif_image_handle_get_chroma_bits_per_pixel > 8 ∧ env.androidOSVersion ≥ 26 then
        "RGBA_F16" else "ARGB_8888"] := by
  obtain ⟨_, hbits, hnn, huse, _, _, _, _, _⟩ := decodeSource_ok env a d calls0 h
  obtain ⟨hch, hr⟩ := decode_requests env a d calls0 h
  have hm : (reformatArgsOf (decodeImplementationNative env a).calls).map
      (fun r => r.imageConfig) =
      ((reformatArgsOf (decodeImplementationNative env a).calls).map
        (fun r => (r.imageConfig, r.preferredColorConfig, r.alphaPremultiplied))).map
        (fun p => p.1) := by
    simp [List.map_map, Function.comp_def]
  rw [hm, hr, hch, huse, hbits] at *
  refine ⟨hnn, ?_, ?_⟩
  · by_cases hx : env.heif_image_handle_get_chroma_bits_per_pixel > 8 ∧ env.androidOSVersion ≥ 26
    · simp [useBitmapHalf16Floats, decodeChroma, hx]
    · simp [useBitmapHalf16Floats, decodeChroma, hx]
  · by_cases hx : env.heif_image_handle_get_chroma_bits_per_pixel > 8 ∧ env.androidOSVersion ≥ 26
    · simp [useBitmapHalf16Floats, imageConfigOf, hx]
    · simp [useBitmapHalf16Floats, imageConfigOf, hx]

/-- Witness of C6: a 10-bit source on OS version 30 and the same source on OS
version 25. -/
theorem decode_half_float_target_witness :
    (decodeChromasOf (decodeImplementationNative
        (fixtureEnv 10 30 [] none false 0) (fixtureArgs 1 1)).calls =
      [heif_chroma.heif_chroma_interleaved_RRGGBBAA_LE] ∧
    (reformatArgsOf (decodeImplementationNative
        (fixtureEnv 10 30 [] none false 0) (fixtureArgs 1 1)).calls).map
        (fun r => r.imageConfig) = ["RGBA_F16"]) ∧
    (decodeChromasOf (decodeImplementationNative
        (fixtureEnv 10 25 [] none false 0) (fixtureArgs 1 1)).calls =
      [heif_chroma.heif_chroma_interleaved_RGBA] ∧
    (reformatArgsOf (decodeImplementationNative
        (fixtureEnv 10 25 [] none false 0) (fixtureArgs 1 1)).calls).map
        (fun r => r.imageConfig) = ["ARGB_8888"]) :=
  ⟨(decode_half_float_target (fixtureEnv 10 30 [] none false 0) (fixtureArgs 1 1) _ _ rfl).2,
   (decode_half_float_target (fixtureEnv 10 25 [] none false 0) (fixtureArgs 1 1) _ _ rfl).2⟩

/-! ## Claims about encode -/

/-- C8: once the context and the encoder exist, lossy mode with quality in
1..100 sets the lossy quality to that value, then chroma "420", and then speed
exactly when 1 <= speed <= 19, provided the codec accepts these settings
themselves; lossless mode enables lossless and sets chroma "444", provided the
codec accepts these two, and no encode in lossless mode depends on the quality
or speed argument. -/
theorem encode_quality_configuration (env : EncodeEnv) (a : EncodeArgs)
    (halloc : env.heif_context_alloc = true)
    (henc : (env.heif_context_get_encoder_for_format a.heifCompressionFormat).code =
      heif_error_Ok) :
    (a.qualityMode = AVIF_LOSSY_MODE → 1 ≤ a.quality → a.quality ≤ 100 →
      (env.heif_encoder_set_lossy_quality a.quality).code = heif_error_Ok →
      (env.heif_encoder_set_parameter_string "chroma" (ParameterValue.text "420")).code =
        heif_error_Ok →
      (1 ≤ a.speed ∧ a.speed ≤ 19 →
        (env.heif_encoder_set_parameter_string "speed" (ParameterValue.number a.speed)).code =
          heif_error_Ok) →
      encoderSettingsOf (encodeBitmap env a).calls =
        [EncodeCall.heif_encoder_set_lossy_quality a.quality,
         EncodeCall.heif_encoder_set_parameter_string "chroma" (ParameterValue.text "420")] ++
        (if 1 ≤ a.speed ∧ a.speed ≤ 19 then
          [EncodeCall.heif_encoder_set_parameter_string "speed"
            (ParameterValue.number a.speed)]
         else [])) ∧
    (a.qualityMode = AVIF_LOSELESS_MODE →
      ((env.heif_encoder_set_lossless true).code = heif_error_Ok →
        (env.heif_encoder_set_parameter_string "chroma" (ParameterValue.text "444")).code =
          heif_error_Ok →
        encoderSettingsOf (encodeBitmap env a).calls =
          [EncodeCall.heif_encoder_set_lossless true,
           EncodeCall.heif_encoder_set_parameter_string "chroma"
             (ParameterValue.text "444")]) ∧
      ∀ quality speed : Int,
        encodeBitmap env { a with quality := quality, speed := speed } = encodeBitmap env a) := by
  constructor
  · intro hm h1 h100 hq hc hs
    rw [encode_settings env a halloc henc, hm]
    exact encoderSettingsOf_configureEncoder_lossy env a.quality a.speed hq hc hs h1 h100
  · intro hm
    constructor
    · intro hl hc
      rw [encode_settings env a halloc henc, hm]
      exact encoderSettingsOf_configureEncoder_lossless env a.quality a.speed hl hc
    · intro quality speed
      unfold encodeBitmap encodeSetup
      simp only [hm, configureEncoder_lossless env quality speed,
        configureEncoder_lossless env a.quality a.speed]

/-- Witness of C8: a lossy AV1 encode with quality 80 and speed 6. -/
theorem encode_quality_configuration_witness :
    encoderSettingsOf (encodeBitmap (fixtureEncodeEnv ANDROID_BITMAP_FORMAT_RGBA_8888)
        (fixtureEncodeArgs heif_compression_AV1 80 6 AVIF_LOSSY_MODE)).calls =
      [EncodeCall.heif_encoder_set_lossy_quality 80,
       EncodeCall.heif_encoder_set_parameter_string "chroma" (ParameterValue.text "420"),
       EncodeCall.heif_encoder_set_parameter_string "speed" (ParameterValue.number 6)] :=
  (encode_quality_configuration (fixtureEncodeEnv ANDROID_BITMAP_FORMAT_RGBA_8888)
    (fixtureEncodeArgs heif_compression_AV1 80 6 AVIF_LOSSY_MODE) rfl rfl).1
    rfl (by decide) (by decide) rfl rfl (fun _ => rfl)

/-- C9: in an encode for AV1 or HEVC that gets past plane creation, the source
format and the codec fix the layout, the plane depth and the conversion:
RGBA_8888 gives interleaved RGBA, 8 bits and `UnpremultiplyRGBA`; RGB_565
gives interleaved RGBA, 8 bits and `Rgb565ToUnsigned8` with depth 8 and alpha
255; RGBA_1010102 and RGBA_F16 give RRGGBBAA_LE and 10 bits for AV1,
interleaved RGBA and 8 bits for HEVC, with the matching conversion; the plane
depth is 10 exactly when the layout is RRGGBBAA_LE, and every conversion that
takes a bit depth is handed the depth of the plane. -/
theorem encode_layout_and_conversion (env : EncodeEnv) (a : EncodeArgs)
    (info : AndroidBitmapInfo) (calls0 : List EncodeCall)
    (h : encodeSetup env a = .ok (info, calls0))
    (hcodec : a.heifCompressionFormat = heif_compression_AV1 ∨
      a.heifCompressionFormat = heif_compression_HEVC) :
    (createdChromasOf (encodeBitmap env a).calls, planeBitDepthsOf (encodeBitmap env a).calls,
        conversionsOf (encodeBitmap env a).calls) =
      (if info.format = ANDROID_BITMAP_FORMAT_RGBA_8888 then
        ([heif_chroma.heif_chroma_interleaved_RGBA], [8], [EncodeCall.UnpremultiplyRGBA])
       else if info.format = ANDROID_BITMAP_FORMAT_RGB_565 then
        ([heif_chroma.heif_chroma_interleaved_RGBA], [8], [EncodeCall.Rgb565ToUnsigned8 8 255])
       else if info.format = ANDROID_BITMAP_FORMAT_RGBA_1010102 then
        (if a.heifCompressionFormat = heif_compression_AV1 then
          ([heif_chroma.heif_chroma_interleaved_RRGGBBAA_LE], [10],
            [EncodeCall.RGBA1010102ToUnsigned true 10])
         else
          ([heif_chroma.heif_chroma_interleaved_RGBA], [8],
            [EncodeCall.RGBA1010102ToUnsigned false 8]))
       else
        (if a.heifCompressionFormat = heif_compression_AV1 then
          ([heif_chroma.heif_chroma_interleaved_RRGGBBAA_LE], [10],
            [EncodeCall.RGBAF16BitToNBitU16 10])
         else
          ([heif_chroma.heif_chroma_interleaved_RGBA], [8],
            [EncodeCall.RGBAF16BitToNBitU8 8 true]))) ∧
    (planeBitDepthsOf (encodeBitmap env a).calls = [10] ↔
      createdChromasOf (encodeBitmap env a).calls =
        [heif_chroma.heif_chroma_interleaved_RRGGBBAA_LE]) ∧
    (∀ c ∈ conversionsOf (encodeBitmap env a).calls, ∀ b, conversionBitDepth c = some b →
      planeBitDepthsOf (encodeBitmap env a).calls = [b]) := by
  obtain ⟨tail, hcalls, _, t2, t3, t4, _⟩ := encode_of_setup_ok env a info calls0 h
  obtain ⟨_, hfmt, hc0⟩ := encodeSetup_ok env a info calls0 h
  obtain ⟨g1, g2, g3, _⟩ := configureEncoder_calls env a.quality a.speed a.qualityMode
  have e1 : createdChromasOf (encodeBitmap env a).calls =
      [encodeChroma info.format a.heifCompressionFormat] := by
    rw [hcalls, hc0]
    simp [createdChromasOf_append, createdChromasOf, g1, t2, (convertPixels_settings _ _).2.1]
  have e2 : planeBitDepthsOf (encodeBitmap env a).calls =
      [encodeBitDepth info.format a.heifCompressionFormat] := by
    rw [hcalls, hc0]
    simp [planeBitDepthsOf_append, planeBitDepthsOf, g2, t3, (convertPixels_settings _ _).2.2]
  have e3 : conversionsOf (encodeBitmap env a).calls =
      conversionsOf (convertPixels info.format a.heifCompressionFormat) := by
    rw [hcalls, hc0]
    simp [conversionsOf_append, conversionsOf, g3, t4]
  rw [e1, e2, e3]
  simp only [ANDROID_BITMAP_FORMAT_RGBA_8888, ANDROID_BITMAP_FORMAT_RGB_565,
    ANDROID_BITMAP_FORMAT_RGBA_F16, ANDROID_BITMAP_FORMAT_RGBA_1010102, heif_compression_AV1,
    heif_compression_HEVC] at hfmt hcodec ⊢
  rcases hfmt with hf | hf | hf | hf <;> rcases hcodec with hk | hk <;>
    simp [hf, hk, encodeChroma, encodeBitDepth, convertPixels, conversionsOf,
      conversionBitDepth, ANDROID_BITMAP_FORMAT_RGBA_8888, ANDROID_BITMAP_FORMAT_RGB_565,
      ANDROID_BITMAP_FORMAT_RGBA_F16, ANDROID_BITMAP_FORMAT_RGBA_1010102, heif_compression_AV1,
      heif_compression_HEVC]

/-- Witness of C9: an RGBA_1010102 bitmap encoded for AV1 and for HEVC. -/
theorem encode_layout_and_conversion_witness :
    ((createdChromasOf (encodeBitmap (fixtureEncodeEnv ANDROID_BITMAP_FORMAT_RGBA_1010102)
        (fixtureEncodeArgs heif_compression_AV1 80 6 AVIF_LOSSY_MODE)).calls,
      planeBitDepthsOf (encodeBitmap (fixtureEncodeEnv ANDROID_BITMAP_FORMAT_RGBA_1010102)
        (fixtureEncodeArgs heif_compression_AV1 80 6 AVIF_LOSSY_MODE)).calls,
      conversionsOf (encodeBitmap (fixtureEncodeEnv ANDROID_BITMAP_FORMAT_RGBA_1010102)
        (fixtureEncodeArgs heif_compression_AV1 80 6 AVIF_LOSSY_MODE)).calls) =
      ([heif_chroma.heif_chroma_interleaved_RRGGBBAA_LE], [10],
        [EncodeCall.RGBA1010102ToUnsigned true 10])) ∧
    ((createdChromasOf (encodeBitmap (fixtureEncodeEnv ANDROID_BITMAP_FORMAT_RGBA_1010102)
        (fixtureEncodeArgs heif_compression_HEVC 80 6 AVIF_LOSSY_MODE)).calls,
      planeBitDepthsOf (encodeBitmap (fixtureEncodeEnv ANDROID_BITMAP_FORMAT_RGBA_1010102)
        (fixtureEncodeArgs heif_compression_HEVC 80 6 AVIF_LOSSY_MODE)).calls,
      conversionsOf (encodeBitmap (fixtureEncodeEnv ANDROID_BITMAP_FORMAT_RGBA_1010102)
        (fixtureEncodeArgs heif_compression_HEVC 80 6 AVIF_LOSSY_MODE)).calls) =
      ([heif_chroma.heif_chroma_interleaved_RGBA], [8],
        [EncodeCall.RGBA1010102ToUnsigned false 8])) :=
  ⟨(encode_layout_and_conversion (fixtureEncodeEnv ANDROID_BITMAP_FORMAT_RGBA_1010102)
      (fixtureEncodeArgs heif_compression_AV1 80 6 AVIF_LOSSY_MODE) _ _ rfl (Or.inl rfl)).1,
   (encode_layout_and_conversion (fixtureEncodeEnv ANDROID_BITMAP_FORMAT_RGBA_1010102)
      (fixtureEncodeArgs heif_compression_HEVC 80 6 AVIF_LOSSY_MODE) _ _ rfl (Or.inr rfl)).1⟩

/-- C10: every encode of an RGBA_1010102 bitmap that gets past plane creation
sets the premultiplied-alpha flag of the codec image exactly once, to true,
whatever the codec, the size, the quality mode and the data space. -/
theorem encode_1010102_premultiplied (env : EncodeEnv) (a : EncodeArgs)
    (info : AndroidBitmapInfo) (calls0 : List EncodeCall)
    (h : encodeSetup env a = .ok (info, calls0))
    (hfmt : info.format = ANDROID_BITMAP_FORMAT_RGBA_1010102) :
    premultipliedFlagsOf (encodeBitmap env a).calls = [true] := by
  obtain ⟨tail, hcalls, _, _, _, _, t5⟩ := encode_of_setup_ok env a info calls0 h
  obtain ⟨_, _, hc0⟩ := encodeSetup_ok env a info calls0 h
  obtain ⟨_, _, _, g4⟩ := configureEncoder_calls env a.quality a.speed a.qualityMode
  rw [hcalls, hc0]
  simp only [premultipliedFlagsOf_append, g4, t5, premultipliedFlagsOf, List.nil_append,
    List.append_nil, hfmt]
  unfold convertPixels
  have n1 : ¬ (ANDROID_BITMAP_FORMAT_RGBA_1010102 = ANDROID_BITMAP_FORMAT_RGBA_8888) := by decide
  have n2 : ¬ (ANDROID_BITMAP_FORMAT_RGBA_1010102 = ANDROID_BITMAP_FORMAT_RGB_565) := by decide
  simp only [n1, n2, if_false, if_true]
  split <;> rfl

/-- Witness of C10: an RGBA_1010102 bitmap encoded losslessly for HEVC. -/
theorem encode_1010102_premultiplied_witness :
    premultipliedFlagsOf (encodeBitmap (fixtureEncodeEnv ANDROID_BITMAP_FORMAT_RGBA_1010102)
      (fixtureEncodeArgs heif_compression_HEVC 0 0 AVIF_LOSELESS_MODE)).calls = [true] :=
  encode_1010102_premultiplied (fixtureEncodeEnv ANDROID_BITMAP_FORMAT_RGBA_1010102)
    (fixtureEncodeArgs heif_compression_HEVC 0 0 AVIF_LOSELESS_MODE) _ _ rfl rfl

/-! ## Lemmas about failures -/

section EncodeFailureLemmas

theorem throwsOf_append (xs ys : List EncodeCall) :
    throwsOf (xs ++ ys) = throwsOf xs ++ throwsOf ys := by
  induction xs with
  | nil => rfl
  | cons x xs ih => cases x <;> simp [throwsOf, ih]

theorem profileCallsOf_append (xs ys : List EncodeCall) :
    profileCallsOf (xs ++ ys) = profileCallsOf xs ++ profileCallsOf ys := by
  induction xs with
  | nil => rfl
  | cons x xs ih => cases x <;> simp [profileCallsOf, ih]

theorem pixelLocksOf_append (xs ys : List EncodeCall) :
    pixelLocksOf (xs ++ ys) = pixelLocksOf xs + pixelLocksOf ys := by
  induction xs with
  | nil => simp [pixelLocksOf]
  | cons x xs ih =>
    cases x <;> simp [pixelLocksOf, ih]
    omega

theorem encodeImageCallsOf_append (xs ys : List EncodeCall) :
    encodeImageCallsOf (xs ++ ys) = encodeImageCallsOf xs + encodeImageCallsOf ys := by
  induction xs with
  | nil => simp [encodeImageCallsOf]
  | cons x xs ih =>
    cases x <;> simp [encodeImageCallsOf, ih]
    omega

theorem formatRejectionsOf_append (xs ys : List EncodeCall) :
    formatRejectionsOf (xs ++ ys) = formatRejectionsOf xs ++ formatRejectionsOf ys := by
  induction xs with
  | nil => rfl
  | cons x xs ih => cases x <;> simp [formatRejectionsOf, ih]

/-- The configuration step either succeeds without raising or fails raising
exactly one error; it touches neither the bitmap nor the image. -/
theorem configureEncoder_throws (env : EncodeEnv) (quality speed qualityMode : Int) :
    (((configureEncoder env quality speed qualityMode).1 = true ∧
        throwsOf (configureEncoder env quality speed qualityMode).2 = []) ∨
      ((configureEncoder env quality speed qualityMode).1 = false ∧
        (throwsOf (configureEncoder env quality speed qualityMode).2).length = 1)) ∧
    pixelLocksOf (configureEncoder env quality speed qualityMode).2 = 0 ∧
    encodeImageCallsOf (configureEncoder env quality speed qualityMode).2 = 0 ∧
    formatRejectionsOf (configureEncoder env quality speed qualityMode).2 = [] ∧
    profileCallsOf (configureEncoder env quality speed qualityMode).2 = [] := by
  unfold configureEncoder
  simp only
  split_ifs <;>
    first
    | exact ⟨Or.inl ⟨rfl, rfl⟩, rfl, rfl, rfl, rfl⟩
    | exact ⟨Or.inr ⟨rfl, rfl⟩, rfl, rfl, rfl, rfl⟩

theorem configureEncoder_no_throw (env : EncodeEnv) (quality speed qualityMode : Int)
    (h : ¬ ((!(configureEncoder env quality speed qualityMode).1) = true)) :
    throwsOf (configureEncoder env quality speed qualityMode).2 = [] := by
  rcases (configureEncoder_throws env quality speed qualityMode).1 with hc | hc
  · exact hc.2
  · rw [hc.1] at h
    exact absurd rfl h

/-- The body of `encodeSetup` as one chain of tests. -/
theorem encodeSetup_eq (env : EncodeEnv) (a : EncodeArgs) :
    encodeSetup env a =
      if (!env.heif_context_alloc) = true then
        .error [.throwException "Can't create HEIF/AVIF encoder due to unknown reason"]
      else if (env.heif_context_get_encoder_for_format a.heifCompressionFormat).code ≠
          heif_error_Ok then
        .error [.throwException ("Can't create encoder with exception: " ++
          (env.heif_context_get_encoder_for_format a.heifCompressionFormat).message)]
      else if (!(configureEncoder env a.quality a.speed a.qualityMode).1) = true then
        .error (configureEncoder env a.quality a.speed a.qualityMode).2
      else if env.AndroidBitmap_getInfo.1 < 0 then
        .error ((configureEncoder env a.quality a.speed a.qualityMode).2 ++
          [.throwPixelsException])
      else if env.AndroidBitmap_getInfo.2.flags &&& ANDROID_BITMAP_FLAGS_IS_HARDWARE ≠ 0 then
        .error ((configureEncoder env a.quality a.speed a.qualityMode).2 ++
          [.throwHardwareBitmapException])
      else if env.AndroidBitmap_getInfo.2.format ≠ ANDROID_BITMAP_FORMAT_RGBA_8888 ∧
          env.AndroidBitmap_getInfo.2.format ≠ ANDROID_BITMAP_FORMAT_RGB_565 ∧
          env.AndroidBitmap_getInfo.2.format ≠ ANDROID_BITMAP_FORMAT_RGBA_F16 ∧
          env.AndroidBitmap_getInfo.2.format ≠ ANDROID_BITMAP_FORMAT_RGBA_1010102 then
        .error ((configureEncoder env a.quality a.speed a.qualityMode).2 ++
          [.throwInvalidPixelsFormat])
      else if env.AndroidBitmap_lockPixels ≠ 0 then
        .error ((configureEncoder env a.quality a.speed a.qualityMode).2 ++
          [.AndroidBitmap_lockPixels, .throwPixelsException])
      else if (env.heif_image_create env.AndroidBitmap_getInfo.2.width
          env.AndroidBitmap_getInfo.2.height
          (encodeChroma env.AndroidBitmap_getInfo.2.format a.heifCompressionFormat)).code ≠
          heif_error_Ok then
        .error ((configureEncoder env a.quality a.speed a.qualityMode).2 ++
          [.AndroidBitmap_lockPixels, .AndroidBitmap_unlockPixels,
           .heif_image_create env.AndroidBitmap_getInfo.2.width
             env.AndroidBitmap_getInfo.2.height
             (encodeChroma env.AndroidBitmap_getInfo.2.format a.heifCompressionFormat),
           .throwException ("Can't create encoded image with exception: " ++
             (env.heif_image_create env.AndroidBitmap_getInfo.2.width
               env.AndroidBitmap_getInfo.2.height
               (encodeChroma env.AndroidBitmap_getInfo.2.format
                 a.heifCompressionFormat)).message)])
      else if (env.heif_image_add_plane env.AndroidBitmap_getInfo.2.width
          env.AndroidBitmap_getInfo.2.height
          (encodeBitDepth env.AndroidBitmap_getInfo.2.format a.heifCompressionFormat)).code ≠
          heif_error_Ok then
        .error ((configureEncoder env a.quality a.speed a.qualityMode).2 ++
          [.AndroidBitmap_lockPixels, .AndroidBitmap_unlockPixels,
           .heif_image_create env.AndroidBitmap_getInfo.2.width
             env.AndroidBitmap_getInfo.2.height
             (encodeChroma env.AndroidBitmap_getInfo.2.format a.heifCompressionFormat),
           .heif_image_add_plane env.AndroidBitmap_getInfo.2.width
             env.AndroidBitmap_getInfo.2.height
             (encodeBitDepth env.AndroidBitmap_getInfo.2.format a.heifCompressionFormat),
           .throwException ("Can't create add plane to encoded image with exception: " ++
             (env.heif_image_add_plane env.AndroidBitmap_getInfo.2.width
               env.AndroidBitmap_getInfo.2.height
               (encodeBitDepth env.AndroidBitmap_getInfo.2.format
                 a.heifCompressionFormat)).message)])
      else
        .ok (env.AndroidBitmap_getInfo.2,
          (configureEncoder env a.quality a.speed a.qualityMode).2 ++
          [.AndroidBitmap_lockPixels, .AndroidBitmap_unlockPixels,
           .heif_image_create env.AndroidBitmap_getInfo.2.width
             env.AndroidBitmap_getInfo.2.height
             (encodeChroma env.AndroidBitmap_getInfo.2.format a.heifCompressionFormat),
           .heif_image_add_plane env.AndroidBitmap_getInfo.2.width
             env.AndroidBitmap_getInfo.2.height
             (encodeBitDepth env.AndroidBitmap_getInfo.2.format a.heifCompressionFormat)]) := by
  rfl

/-- What an early return of `encodeSetup` looks like: exactly one error is
raised and nothing is encoded; a rejection by the hardware or format check
happens before any pixel is read or any image is created, and the two checks
raise an error only for a hardware bitmap or a format outside the four. -/
theorem encodeSetup_error (env : EncodeEnv) (a : EncodeArgs) (calls : List EncodeCall)
    (hs : encodeSetup env a = .error calls) :
    (throwsOf calls).length = 1 ∧ encodeImageCallsOf calls = 0 ∧
    ((env.AndroidBitmap_getInfo.2.flags &&& ANDROID_BITMAP_FLAGS_IS_HARDWARE = 0 ∧
      ¬ (env.AndroidBitmap_getInfo.2.format ≠ ANDROID_BITMAP_FORMAT_RGBA_8888 ∧
        env.AndroidBitmap_getInfo.2.format ≠ ANDROID_BITMAP_FORMAT_RGB_565 ∧
        env.AndroidBitmap_getInfo.2.format ≠ ANDROID_BITMAP_FORMAT_RGBA_F16 ∧
        env.AndroidBitmap_getInfo.2.format ≠ ANDROID_BITMAP_FORMAT_RGBA_1010102)) →
      formatRejectionsOf calls = []) ∧
    ((env.AndroidBitmap_getInfo.2.flags &&& ANDROID_BITMAP_FLAGS_IS_HARDWARE ≠ 0 ∨
      (env.AndroidBitmap_getInfo.2.format ≠ ANDROID_BITMAP_FORMAT_RGBA_8888 ∧
        env.AndroidBitmap_getInfo.2.format ≠ ANDROID_BITMAP_FORMAT_RGB_565 ∧
        env.AndroidBitmap_getInfo.2.format ≠ ANDROID_BITMAP_FORMAT_RGBA_F16 ∧
        env.AndroidBitmap_getInfo.2.format ≠ ANDROID_BITMAP_FORMAT_RGBA_1010102)) →
      pixelLocksOf calls = 0 ∧ createdChromasOf calls = [] ∧
      (env.heif_context_alloc = true →
        (env.heif_context_get_encoder_for_format a.heifCompressionFormat).code =
          heif_error_Ok →
        (configureEncoder env a.quality a.speed a.qualityMode).1 = true →
        0 ≤ env.AndroidBitmap_getInfo.1 →
        throwsOf calls =
          [if env.AndroidBitmap_getInfo.2.flags &&& ANDROID_BITMAP_FLAGS_IS_HARDWARE ≠ 0 then
            EncodeCall.throwHardwareBitmapException
           else EncodeCall.throwInvalidPixelsFormat])) := by
  rw [encodeSetup_eq] at hs
  by_cases h1 : (!env.heif_context_alloc) = true
  · rw [if_pos h1] at hs
    cases hs
    refine ⟨rfl, rfl, fun _ => rfl, fun _ => ⟨rfl, rfl, ?_⟩⟩
    intro ha
    rw [ha] at h1
    exact absurd h1 (by decide)
  rw [if_neg h1] at hs
  by_cases h2 : (env.heif_context_get_encoder_for_format a.heifCompressionFormat).code ≠
      heif_error_Ok
  · rw [if_pos h2] at hs
    cases hs
    exact ⟨rfl, rfl, fun _ => rfl, fun _ => ⟨rfl, rfl, fun _ hb => absurd hb h2⟩⟩
  rw [if_neg h2] at hs
  by_cases h3 : (!(configureEncoder env a.quality a.speed a.qualityMode).1) = true
  · rw [if_pos h3] at hs
    cases hs
    obtain ⟨hcfg, hl, he, hf, _⟩ := configureEncoder_throws env a.quality a.speed a.qualityMode
    obtain ⟨g1, _, _, _⟩ := configureEncoder_calls env a.quality a.speed a.qualityMode
    refine ⟨?_, he, fun _ => hf, fun _ => ⟨hl, g1, ?_⟩⟩
    · rcases hcfg with hc | hc
      · rw [hc.1] at h3
        exact absurd h3 (by decide)
      · exact hc.2
    · intro _ _ hc
      rw [hc] at h3
      exact absurd h3 (by decide)
  rw [if_neg h3] at hs
  by_cases h4 : env.AndroidBitmap_getInfo.1 < 0
  · rw [if_pos h4] at hs
    cases hs
    have ht := configureEncoder_no_throw env a.quality a.speed a.qualityMode h3
    obtain ⟨_, hl, he, hf, _⟩ := configureEncoder_throws env a.quality a.speed a.qualityMode
    obtain ⟨g1, _, _, _⟩ := configureEncoder_calls env a.quality a.speed a.qualityMode
    rw [throwsOf_append, ht, encodeImageCallsOf_append, he, formatRejectionsOf_append, hf,
      pixelLocksOf_append, hl, createdChromasOf_append, g1]
    refine ⟨rfl, rfl, fun _ => rfl, fun _ => ⟨rfl, rfl, ?_⟩⟩
    intro _ _ _ hge
    omega
  rw [if_neg h4] at hs
  by_cases h5 : env.AndroidBitmap_getInfo.2.flags &&& ANDROID_BITMAP_FLAGS_IS_HARDWARE ≠ 0
  · rw [if_pos h5] at hs
    cases hs
    have ht := configureEncoder_no_throw env a.quality a.speed a.qualityMode h3
    obtain ⟨_, hl, he, hf, _⟩ := configureEncoder_throws env a.quality a.speed a.qualityMode
    obtain ⟨g1, _, _, _⟩ := configureEncoder_calls env a.quality a.speed a.qualityMode
    rw [throwsOf_append, ht, encodeImageCallsOf_append, he, formatRejectionsOf_append, hf,
      pixelLocksOf_append, hl, createdChromasOf_append, g1]
    refine ⟨rfl, rfl, fun hg => absurd hg.1 h5, fun _ => ⟨rfl, rfl, ?_⟩⟩
    intro _ _ _ _
    rw [if_pos h5]
    rfl
  rw [if_neg h5] at hs
  by_cases h6 : env.AndroidBitmap_getInfo.2.format ≠ ANDROID_BITMAP_FORMAT_RGBA_8888 ∧
      env.AndroidBitmap_getInfo.2.format ≠ ANDROID_BITMAP_FORMAT_RGB_565 ∧
      env.AndroidBitmap_getInfo.2.format ≠ ANDROID_BITMAP_FORMAT_RGBA_F16 ∧
      env.AndroidBitmap_getInfo.2.format ≠ ANDROID_BITMAP_FORMAT_RGBA_1010102
  · rw [if_pos h6] at hs
    cases hs
    have ht := configureEncoder_no_throw env a.quality a.speed a.qualityMode h3
    obtain ⟨_, hl, he, hf, _⟩ := configureEncoder_throws env a.quality a.speed a.qualityMode
    obtain ⟨g1, _, _, _⟩ := configureEncoder_calls env a.quality a.speed a.qualityMode
    rw [throwsOf_append, ht, encodeImageCallsOf_append, he, formatRejectionsOf_append, hf,
      pixelLocksOf_append, hl, createdChromasOf_append, g1]
    refine ⟨rfl, rfl, fun hg => absurd h6 hg.2, fun _ => ⟨rfl, rfl, ?_⟩⟩
    intro _ _ _ _
    rw [if_neg h5]
    rfl
  rw [if_neg h6] at hs
  have hgood : ¬ (env.AndroidBitmap_getInfo.2.flags &&& ANDROID_BITMAP_FLAGS_IS_HARDWARE ≠ 0 ∨
      (env.AndroidBitmap_getInfo.2.format ≠ ANDROID_BITMAP_FORMAT_RGBA_8888 ∧
        env.AndroidBitmap_getInfo.2.format ≠ ANDROID_BITMAP_FORMAT_RGB_565 ∧
        env.AndroidBitmap_getInfo.2.format ≠ ANDROID_BITMAP_FORMAT_RGBA_F16 ∧
        env.AndroidBitmap_getInfo.2.format ≠ ANDROID_BITMAP_FORMAT_RGBA_1010102)) := by
    intro hb
    rcases hb with hb | hb
    · exact h5 hb
    · exact h6 hb
  by_cases h7 : env.AndroidBitmap_lockPixels ≠ 0
  · rw [if_pos h7] at hs
    cases hs
    have ht := configureEncoder_no_throw env a.quality a.speed a.qualityMode h3
    obtain ⟨_, hl, he, hf, _⟩ := configureEncoder_throws env a.quality a.speed a.qualityMode
    obtain ⟨g1, _, _, _⟩ := configureEncoder_calls env a.quality a.speed a.qualityMode
    rw [throwsOf_append, ht, encodeImageCallsOf_append, he, formatRejectionsOf_append, hf,
      pixelLocksOf_append, hl, createdChromasOf_append, g1]
    exact ⟨rfl, rfl, fun _ => rfl, fun hb => absurd hb hgood⟩
  rw [if_neg h7] at hs
  by_cases h8 : (env.heif_image_create env.AndroidBitmap_getInfo.2.width
      env.AndroidBitmap_getInfo.2.height
      (encodeChroma env.AndroidBitmap_getInfo.2.format a.heifCompressionFormat)).code ≠
      heif_error_Ok
  · rw [if_pos h8] at hs
    cases hs
    have ht := configureEncoder_no_throw env a.quality a.speed a.qualityMode h3
    obtain ⟨_, hl, he, hf, _⟩ := configureEncoder_throws env a.quality a.speed a.qualityMode
    obtain ⟨g1, _, _, _⟩ := configureEncoder_calls env a.quality a.speed a.qualityMode
    rw [throwsOf_append, ht, encodeImageCallsOf_append, he, formatRejectionsOf_append, hf,
      pixelLocksOf_append, hl, createdChromasOf_append, g1]
    exact ⟨rfl, rfl, fun _ => rfl, fun hb => absurd hb hgood⟩
  rw [if_neg h8] at hs
  by_cases h9 : (env.heif_image_add_plane env.AndroidBitmap_getInfo.2.width
      env.AndroidBitmap_getInfo.2.height
      (encodeBitDepth env.AndroidBitmap_getInfo.2.format a.heifCompressionFormat)).code ≠
      heif_error_Ok
  · rw [if_pos h9] at hs
    cases hs
    have ht := configureEncoder_no_throw env a.quality a.speed a.qualityMode h3
    obtain ⟨_, hl, he, hf, _⟩ := configureEncoder_throws env a.quality a.speed a.qualityMode
    obtain ⟨g1, _, _, _⟩ := configureEncoder_calls env a.quality a.speed a.qualityMode
    rw [throwsOf_append, ht, encodeImageCallsOf_append, he, formatRejectionsOf_append, hf,
      pixelLocksOf_append, hl, createdChromasOf_append, g1]
    exact ⟨rfl, rfl, fun _ => rfl, fun hb => absurd hb hgood⟩
  rw [if_neg h9] at hs
  cases hs

/-- What a successful `encodeSetup` says about the answers of the
collaborators. -/
theorem encodeSetup_ok_answers (env : EncodeEnv) (a : EncodeArgs) (info : AndroidBitmapInfo)
    (calls0 : List EncodeCall) (h : encodeSetup env a = .ok (info, calls0)) :
    env.heif_context_alloc = true ∧
    (env.heif_context_get_encoder_for_format a.heifCompressionFormat).code = heif_error_Ok ∧
    (configureEncoder env a.quality a.speed a.qualityMode).1 = true ∧
    0 ≤ env.AndroidBitmap_getInfo.1 ∧
    env.AndroidBitmap_getInfo.2.flags &&& ANDROID_BITMAP_FLAGS_IS_HARDWARE = 0 ∧
    env.AndroidBitmap_lockPixels = 0 := by
  rw [encodeSetup_eq] at h
  by_cases h1 : (!env.heif_context_alloc) = true
  · rw [if_pos h1] at h
    cases h
  rw [if_neg h1] at h
  by_cases h2 : (env.heif_context_get_encoder_for_format a.heifCompressionFormat).code ≠
      heif_error_Ok
  · rw [if_pos h2] at h
    cases h
  rw [if_neg h2] at h
  by_cases h3 : (!(configureEncoder env a.quality a.speed a.qualityMode).1) = true
  · rw [if_pos h3] at h
    cases h
  rw [if_neg h3] at h
  by_cases h4 : env.AndroidBitmap_getInfo.1 < 0
  · rw [if_pos h4] at h
    cases h
  rw [if_neg h4] at h
  by_cases h5 : env.AndroidBitmap_getInfo.2.flags &&& ANDROID_BITMAP_FLAGS_IS_HARDWARE ≠ 0
  · rw [if_pos h5] at h
    cases h
  rw [if_neg h5] at h
  by_cases h6 : env.AndroidBitmap_getInfo.2.format ≠ ANDROID_BITMAP_FORMAT_RGBA_8888 ∧
      env.AndroidBitmap_getInfo.2.format ≠ ANDROID_BITMAP_FORMAT_RGB_565 ∧
      env.AndroidBitmap_getInfo.2.format ≠ ANDROID_BITMAP_FORMAT_RGBA_F16 ∧
      env.AndroidBitmap_getInfo.2.format ≠ ANDROID_BITMAP_FORMAT_RGBA_1010102
  · rw [if_pos h6] at h
    cases h
  rw [if_neg h6] at h
  by_cases h7 : env.AndroidBitmap_lockPixels ≠ 0
  · rw [if_pos h7] at h
    cases h
  refine ⟨?_, not_not.mp h2, ?_, by omega, not_not.mp h5, not_not.mp h7⟩
  · cases hx : env.heif_context_alloc
    · rw [hx] at h1
      exact absurd rfl h1
    · rfl
  · cases hx : (configureEncoder env a.quality a.speed a.qualityMode).1
    · rw [hx] at h3
      exact absurd rfl h3
    · rfl

/-- The calls of a successful `encodeSetup` raise no error, lock the pixels
once, and neither attach a profile nor encode. -/
theorem encodeSetup_ok_calls (env : EncodeEnv) (a : EncodeArgs) (info : AndroidBitmapInfo)
    (calls0 : List EncodeCall) (h : encodeSetup env a = .ok (info, calls0)) :
    throwsOf calls0 = [] ∧ encodeImageCallsOf calls0 = 0 ∧ formatRejectionsOf calls0 = [] ∧
    profileCallsOf calls0 = [] ∧ pixelLocksOf calls0 = 1 := by
  obtain ⟨_, _, hc0⟩ := encodeSetup_ok env a info calls0 h
  obtain ⟨_, _, hcfg, _, _, _⟩ := encodeSetup_ok_answers env a info calls0 h
  obtain ⟨ht, hl, he, hf, hp⟩ := configureEncoder_throws env a.quality a.speed a.qualityMode
  have ht0 : throwsOf (configureEncoder env a.quality a.speed a.qualityMode).2 = [] := by
    rcases ht with hc | hc
    · exact hc.2
    · rw [hcfg] at hc
      exact absurd hc.1 (by decide)
  rw [hc0, throwsOf_append, ht0, encodeImageCallsOf_append, he, formatRejectionsOf_append, hf,
    profileCallsOf_append, hp, pixelLocksOf_append, hl]
  exact ⟨rfl, rfl, rfl, rfl, rfl⟩

theorem convertPixels_quiet (format codec : Int) :
    throwsOf (convertPixels format codec) = [] ∧
    pixelLocksOf (convertPixels format codec) = 0 ∧
    encodeImageCallsOf (convertPixels format codec) = 0 ∧
    formatRejectionsOf (convertPixels format codec) = [] ∧
    profileCallsOf (convertPixels format codec) = [] := by
  unfold convertPixels
  split_ifs <;> exact ⟨rfl, rfl, rfl, rfl, rfl⟩

/-- The profile step either succeeds without raising or fails raising exactly
one error. -/
theorem attachProfile_throws (env : EncodeEnv) (bitDepth dataSpace : Int) :
    (((attachProfile env bitDepth dataSpace).1 = true ∧
        throwsOf (attachProfile env bitDepth dataSpace).2 = []) ∨
      ((attachProfile env bitDepth dataSpace).1 = false ∧
        (throwsOf (attachProfile env bitDepth dataSpace).2).length = 1)) ∧
    pixelLocksOf (attachProfile env bitDepth dataSpace).2 = 0 ∧
    encodeImageCallsOf (attachProfile env bitDepth dataSpace).2 = 0 ∧
    formatRejectionsOf (attachProfile env bitDepth dataSpace).2 = [] := by
  unfold attachProfile
  simp only
  split_ifs <;>
    first
    | exact ⟨Or.inl ⟨rfl, rfl⟩, rfl, rfl, rfl⟩
    | exact ⟨Or.inr ⟨rfl, rfl⟩, rfl, rfl, rfl⟩

/-- The profile calls of the profile step. -/
theorem attachProfile_profile (env : EncodeEnv) (bitDepth dataSpace : Int) :
    profileCallsOf (attachProfile env bitDepth dataSpace).2 =
      if (env.colorProfileFromDataSpace (decide (bitDepth = 8)) bitDepth dataSpace).1 = true then
        (if (env.colorProfileFromDataSpace (decide (bitDepth = 8)) bitDepth dataSpace).2 = [] then
          [EncodeCall.heif_image_set_nclx_color_profile]
         else
          [EncodeCall.heif_image_set_raw_color_profile "prof"
            (env.colorProfileFromDataSpace (decide (bitDepth = 8)) bitDepth dataSpace).2])
      else [] := by
  unfold attachProfile
  simp only
  cases hicc : (env.colorProfileFromDataSpace (decide (bitDepth = 8)) bitDepth dataSpace).2 with
  | nil =>
    have hlen : ([] : List Nat).length < 1 := by decide
    simp only [hlen, if_true]
    split_ifs <;> rfl
  | cons x xs =>
    have hlen : ¬ ((x :: xs).length < 1) := by
      simp only [List.length_cons]
      omega
    have hne : ¬ (x :: xs = []) := List.cons_ne_nil x xs
    simp only [hlen, hne, if_false]
    split_ifs <;> rfl

/-- The last step either returns bytes without raising or returns nothing
raising exactly one error; it asks the codec to encode exactly once. -/
theorem encodeAndWrite_throws (env : EncodeEnv) :
    (((encodeAndWrite env).result = some env.heif_context_write.2 ∧
        throwsOf (encodeAndWrite env).calls = []) ∨
      ((encodeAndWrite env).result = none ∧
        (throwsOf (encodeAndWrite env).calls).length = 1)) ∧
    pixelLocksOf (encodeAndWrite env).calls = 0 ∧
    encodeImageCallsOf (encodeAndWrite env).calls = 1 ∧
    formatRejectionsOf (encodeAndWrite env).calls = [] ∧
    profileCallsOf (encodeAndWrite env).calls = [] := by
  unfold encodeAndWrite
  simp only
  split_ifs <;>
    first
    | exact ⟨Or.inl ⟨rfl, rfl⟩, rfl, rfl, rfl, rfl⟩
    | exact ⟨Or.inr ⟨rfl, rfl⟩, rfl, rfl, rfl, rfl⟩

theorem encodeBitmap_error (env : EncodeEnv) (a : EncodeArgs) (calls : List EncodeCall)
    (hs : encodeSetup env a = .error calls) :
    encodeBitmap env a = { result := none, calls := calls } := by
  unfold encodeBitmap
  rw [hs]

theorem encodeBitmap_ok (env : EncodeEnv) (a : EncodeArgs) (info : AndroidBitmapInfo)
    (calls0 : List EncodeCall) (hs : encodeSetup env a = .ok (info, calls0)) :
    encodeBitmap env a =
      if (!(attachProfile env (encodeBitDepth info.format a.heifCompressionFormat)
          a.dataSpace).1) = true then
        { result := none
          calls := calls0 ++ convertPixels info.format a.heifCompressionFormat ++
            (attachProfile env (encodeBitDepth info.format a.heifCompressionFormat)
              a.dataSpace).2 }
      else
        { result := (encodeAndWrite env).result
          calls := calls0 ++ convertPixels info.format a.heifCompressionFormat ++
            (attachProfile env (encodeBitDepth info.format a.heifCompressionFormat)
              a.dataSpace).2 ++ (encodeAndWrite env).calls } := by
  unfold encodeBitmap
  rw [hs]

theorem attachProfile_of_failure (env : EncodeEnv) (bitDepth dataSpace : Int)
    (h : (env.colorProfileFromDataSpace (decide (bitDepth = 8)) bitDepth dataSpace).1 = false) :
    attachProfile env bitDepth dataSpace =
      (true, [EncodeCall.colorProfileFromDataSpace (decide (bitDepth = 8)) bitDepth dataSpace]) := by
  unfold attachProfile
  simp only [h]
  rfl

/-- Every encode either returns nothing and raises exactly one error, or
returns the written bytes and raises none. -/
theorem encodeBitmap_atomic (env : EncodeEnv) (a : EncodeArgs) :
    ((encodeBitmap env a).result = none ∧ (throwsOf (encodeBitmap env a).calls).length = 1) ∨
    ((encodeBitmap env a).result = some env.heif_context_write.2 ∧
      throwsOf (encodeBitmap env a).calls = []) := by
  cases hs : encodeSetup env a with
  | error calls =>
    rw [encodeBitmap_error env a calls hs]
    exact Or.inl ⟨rfl, (encodeSetup_error env a calls hs).1⟩
  | ok v =>
    obtain ⟨info, calls0⟩ := v
    obtain ⟨t0, _, _, _, _⟩ := encodeSetup_ok_calls env a info calls0 hs
    obtain ⟨t1, _, _, _, _⟩ := convertPixels_quiet info.format a.heifCompressionFormat
    obtain ⟨t2, _, _, _⟩ :=
      attachProfile_throws env (encodeBitDepth info.format a.heifCompressionFormat) a.dataSpace
    obtain ⟨t3, _, _, _, _⟩ := encodeAndWrite_throws env
    rw [encodeBitmap_ok env a info calls0 hs]
    rcases t2 with hat | hat
    · rw [hat.1]
      simp only [Bool.not_true, Bool.false_eq_true, if_false, throwsOf_append, t0, t1, hat.2,
        List.nil_append]
      rcases t3 with hw | hw
      · exact Or.inr ⟨hw.1, hw.2⟩
      · exact Or.inl ⟨hw.1, hw.2⟩
    · rw [hat.1]
      simp only [Bool.not_false, if_true, throwsOf_append, t0, t1, List.nil_append]
      exact Or.inl ⟨trivial, hat.2⟩

end EncodeFailureLemmas

section DecodeFailureLemmas

variable {F C : Type}

theorem bitDepthErrorsOf_append (xs ys : List (DecodeCall F C)) :
    bitDepthErrorsOf (xs ++ ys) = bitDepthErrorsOf xs + bitDepthErrorsOf ys := by
  induction xs with
  | nil => simp [bitDepthErrorsOf]
  | cons x xs ih =>
    cases x <;> simp [bitDepthErrorsOf, ih]
    omega

theorem decodeThrowsOf_append (xs ys : List (DecodeCall F C)) :
    decodeThrowsOf (xs ++ ys) = decodeThrowsOf xs + decodeThrowsOf ys := by
  induction xs with
  | nil => simp [decodeThrowsOf]
  | cons x xs ih => cases x <;> simp [decodeThrowsOf, ih] <;> omega

theorem unpremultiplyCallsOf_append (xs ys : List (DecodeCall F C)) :
    unpremultiplyCallsOf (xs ++ ys) = unpremultiplyCallsOf xs + unpremultiplyCallsOf ys := by
  induction xs with
  | nil => simp [unpremultiplyCallsOf]
  | cons x xs ih =>
    cases x <;> simp [unpremultiplyCallsOf, ih]
    omega

/-- The unpremultiply step raises nothing; it clears the flag exactly when it
runs `UnpremultiplyRGBA` and leaves it as it was otherwise. -/
theorem unpremultiplyStep_flag (env : DecodeEnv F C) (d : Decoded F) :
    bitDepthErrorsOf (unpremultiplyStep env d).2 = 0 ∧
    decodeThrowsOf (unpremultiplyStep env d).2 = 0 ∧
    ((unpremultiplyCallsOf (unpremultiplyStep env d).2 = 1 ∧
        (unpremultiplyStep env d).1.alphaPremultiplied = false) ∨
      (unpremultiplyCallsOf (unpremultiplyStep env d).2 = 0 ∧
        (unpremultiplyStep env d).1.alphaPremultiplied = d.alphaPremultiplied)) := by
  unfold unpremultiplyStep
  split
  · exact ⟨rfl, rfl, Or.inl ⟨rfl, rfl⟩⟩
  · exact ⟨rfl, rfl, Or.inr ⟨rfl, rfl⟩⟩

theorem colorStep_quiet (env : DecodeEnv F C) (d : Decoded F) :
    bitDepthErrorsOf (colorStep env d).2 = 0 ∧ decodeThrowsOf (colorStep env d).2 = 0 ∧
    unpremultiplyCallsOf (colorStep env d).2 = 0 := by
  unfold colorStep
  simp only
  split
  · exact ⟨rfl, rfl, rfl⟩
  · split
    · split
      · split <;> exact ⟨rfl, rfl, rfl⟩
      · exact ⟨rfl, rfl, rfl⟩
    · exact ⟨rfl, rfl, rfl⟩

/-- The reformat step raises an error, and returns nothing, exactly when
`ReformatColorConfig` throws. -/
theorem reformatStep_throws (env : DecodeEnv F C) (d : Decoded F) (buf : List Nat)
    (stride : Int) :
    bitDepthErrorsOf (reformatStep env d buf stride).calls = 0 ∧
    unpremultiplyCallsOf (reformatStep env d buf stride).calls = 0 ∧
    (((∃ r, env.ReformatColorConfig
          { dstARGB := buf
            imageConfig := imageConfigOf d.useBitmapHalf16Floats
            preferredColorConfig := d.preferredColorConfig
            bitDepth := d.bitDepth
            imageWidth := d.imageWidth
            imageHeight := d.imageHeight
            stride := stride
            useBitmapHalf16Floats := d.useBitmapHalf16Floats
            alphaPremultiplied := d.alphaPremultiplied } = .ok r) ∧
        decodeThrowsOf (reformatStep env d buf stride).calls = 0 ∧
        (reformatStep env d buf stride).result.isSome = true) ∨
      ((∃ what, env.ReformatColorConfig
          { dstARGB := buf
            imageConfig := imageConfigOf d.useBitmapHalf16Floats
            preferredColorConfig := d.preferredColorConfig
            bitDepth := d.bitDepth
            imageWidth := d.imageWidth
            imageHeight := d.imageHeight
            stride := stride
            useBitmapHalf16Floats := d.useBitmapHalf16Floats
            alphaPremultiplied := d.alphaPremultiplied } = .error what) ∧
        decodeThrowsOf (reformatStep env d buf stride).calls = 1 ∧
        (reformatStep env d buf stride).result = none)) := by
  unfold reformatStep
  simp only
  split
  · rename_i what hw
    exact ⟨rfl, rfl, Or.inr ⟨⟨what, hw⟩, rfl, rfl⟩⟩
  · rename_i r hr
    exact ⟨rfl, rfl, Or.inl ⟨⟨r, hr⟩, rfl, rfl⟩⟩

/-- What an early return of `decodeSource` looks like: at most one error is
raised, and it is the bit-depth error exactly when the handle was acquired
and the reported bit depth is negative. -/
theorem decodeSource_error (env : DecodeEnv F C) (a : DecodeArgs)
    (calls : List (DecodeCall F C)) (h : decodeSource env a = .error calls) :
    decodeThrowsOf calls ≤ 1 ∧ unpremultiplyCallsOf calls = 0 ∧
    (((env.checkDecodePreconditions a.javaColorSpace a.javaScaleMode a.javaToneMapper).isSome =
          true ∧
        env.heif_context_alloc = true ∧
        env.heif_context_read_from_memory_without_copy a.srcBuffer = true ∧
        env.heif_context_get_primary_image_handle = true ∧
        env.heif_image_handle_get_chroma_bits_per_pixel < 0) →
      bitDepthErrorsOf calls = 1 ∧ decodeThrowsOf calls = 1) ∧
    (¬ ((env.checkDecodePreconditions a.javaColorSpace a.javaScaleMode a.javaToneMapper).isSome =
          true ∧
        env.heif_context_alloc = true ∧
        env.heif_context_read_from_memory_without_copy a.srcBuffer = true ∧
        env.heif_context_get_primary_image_handle = true ∧
        env.heif_image_handle_get_chroma_bits_per_pixel < 0) →
      bitDepthErrorsOf calls = 0) := by
  unfold decodeSource at h
  split at h
  · rename_i hpre
    cases h
    refine ⟨Nat.zero_le _, rfl, ?_, fun _ => rfl⟩
    intro hr
    rw [hpre] at hr
    exact absurd hr.1 (by decide)
  · rename_i cfg sm tm hpre
    split at h
    · rename_i h1
      cases h
      refine ⟨Nat.le_refl _, rfl, ?_, fun _ => rfl⟩
      intro hr
      rw [hr.2.1] at h1
      exact absurd h1 (by decide)
    split at h
    · rename_i h2
      cases h
      refine ⟨Nat.le_refl _, rfl, ?_, fun _ => rfl⟩
      intro hr
      rw [hr.2.2.1] at h2
      exact absurd h2 (by decide)
    split at h
    · rename_i h3
      cases h
      refine ⟨Nat.le_refl _, rfl, ?_, fun _ => rfl⟩
      intro hr
      rw [hr.2.2.2.1] at h3
      exact absurd h3 (by decide)
    rename_i h1 h2 h3
    simp only at h
    split at h
    · rename_i h4
      cases h
      refine ⟨Nat.le_refl _, rfl, fun _ => ⟨rfl, rfl⟩, ?_⟩
      intro hr
      exfalso
      apply hr
      rw [hpre]
      refine ⟨rfl, ?_, ?_, ?_, h4⟩
      · cases hx : env.heif_context_alloc
        · rw [hx] at h1
          exact absurd rfl h1
        · rfl
      · cases hx : env.heif_context_read_from_memory_without_copy a.srcBuffer
        · rw [hx] at h2
          exact absurd rfl h2
        · rfl
      · cases hx : env.heif_context_get_primary_image_handle
        · rw [hx] at h3
          exact absurd rfl h3
        · rfl
    rename_i h4
    split at h
    · cases h
      refine ⟨Nat.le_refl _, rfl, ?_, fun _ => rfl⟩
      intro hr
      exact absurd hr.2.2.2.2 h4
    split at h
    · cases h
      refine ⟨Nat.zero_le _, rfl, ?_, fun _ => rfl⟩
      intro hr
      exact absurd hr.2.2.2.2 h4
    · cases h

theorem decode_of_source_error (env : DecodeEnv F C) (a : DecodeArgs)
    (calls : List (DecodeCall F C)) (h : decodeSource env a = .error calls) :
    decodeImplementationNative env a = { result := none, calls := calls } := by
  unfold decodeImplementationNative
  rw [h]

/-- The error and unpremultiply counts of a decode that got past rescaling. -/
theorem decode_counts (env : DecodeEnv F C) (a : DecodeArgs) (d : Decoded F)
    (calls0 : List (DecodeCall F C)) (h : decodeSource env a = .ok (d, calls0)) :
    bitDepthErrorsOf (decodeImplementationNative env a).calls = 0 ∧
    decodeThrowsOf (decodeImplementationNative env a).calls =
      decodeThrowsOf (reformatStep env (unpremultiplyStep env d).1
        (colorStep env (unpremultiplyStep env d).1).1.1
        (colorStep env (unpremultiplyStep env d).1).1.2).calls ∧
    unpremultiplyCallsOf (decodeImplementationNative env a).calls =
      unpremultiplyCallsOf (unpremultiplyStep env d).2 := by
  have hc := (decodeSource_ok env a d calls0 h).2.2.2.2.2.2.2.2
  obtain ⟨u1, u2, _⟩ := unpremultiplyStep_flag env d
  obtain ⟨c1, c2, c3⟩ := colorStep_quiet env (unpremultiplyStep env d).1
  obtain ⟨r1, r2, _⟩ := reformatStep_throws env (unpremultiplyStep env d).1
    (colorStep env (unpremultiplyStep env d).1).1.1
    (colorStep env (unpremultiplyStep env d).1).1.2
  have b0 : bitDepthErrorsOf
      [(DecodeCall.heif_decode_image (decodeChroma d.useBitmapHalf16Floats) :
        DecodeCall F C)] = 0 := rfl
  have b1 : decodeThrowsOf
      [(DecodeCall.heif_decode_image (decodeChroma d.useBitmapHalf16Floats) :
        DecodeCall F C)] = 0 := rfl
  have b2 : unpremultiplyCallsOf
      [(DecodeCall.heif_decode_image (decodeChroma d.useBitmapHalf16Floats) :
        DecodeCall F C)] = 0 := rfl
  rw [(decode_of_source_ok env a d calls0 h).1, hc]
  simp only [bitDepthErrorsOf_append, decodeThrowsOf_append, unpremultiplyCallsOf_append,
    u1, u2, c1, c2, c3, r1, r2, b0, b1, b2, Nat.zero_add, Nat.add_zero, and_self]

/-- The bit-depth error of `getSizeImpl`. -/
theorem getSize_bit_depth (env : SizeEnv) (byte_array : List Nat) :
    (0 < sizeBitDepthErrorsOf
        (Java_com_radzivon_bartoshyk_avif_coder_HeifCoder_getSizeImpl env byte_array).calls ↔
      (env.heif_context_alloc = true ∧
        (env.heif_context_read_from_memory_without_copy byte_array byte_array.length).code =
          heif_error_Ok ∧
        env.heif_context_get_primary_image_handle.code = heif_error_Ok ∧
        env.heif_image_handle_get_chroma_bits_per_pixel < 0)) ∧
    (0 < sizeBitDepthErrorsOf
        (Java_com_radzivon_bartoshyk_avif_coder_HeifCoder_getSizeImpl env byte_array).calls →
      (Java_com_radzivon_bartoshyk_avif_coder_HeifCoder_getSizeImpl env byte_array).result =
        none) := by
  unfold Java_com_radzivon_bartoshyk_avif_coder_HeifCoder_getSizeImpl
  simp only
  by_cases h1 : (!env.heif_context_alloc) = true
  · rw [if_pos h1]
    refine ⟨⟨fun h => absurd h (by decide), fun h => ?_⟩, fun _ => rfl⟩
    rw [h.1] at h1
    exact absurd h1 (by decide)
  rw [if_neg h1]
  by_cases h2 : (env.heif_context_read_from_memory_without_copy byte_array
      byte_array.length).code ≠ heif_error_Ok
  · rw [if_pos h2]
    exact ⟨⟨fun h => absurd h (by decide), fun h => absurd h.2.1 h2⟩, fun _ => rfl⟩
  rw [if_neg h2]
  by_cases h3 : env.heif_context_get_primary_image_handle.code ≠ heif_error_Ok
  · rw [if_pos h3]
    exact ⟨⟨fun h => absurd h (by decide), fun h => absurd h.2.2.1 h3⟩, fun _ => rfl⟩
  rw [if_neg h3]
  by_cases h4 : env.heif_image_handle_get_chroma_bits_per_pixel < 0
  · rw [if_pos h4]
    refine ⟨⟨fun _ => ⟨?_, not_not.mp h2, not_not.mp h3, h4⟩, fun _ => by decide⟩,
      fun _ => rfl⟩
    cases hx : env.heif_context_alloc
    · rw [hx] at h1
      exact absurd rfl h1
    · rfl
  · rw [if_neg h4]
    exact ⟨⟨fun h => absurd h (Nat.lt_irrefl 0), fun h => absurd h.2.2.2 h4⟩,
      fun h => absurd h (Nat.lt_irrefl 0)⟩

/-- The premultiplied-alpha flags of an encode are those its conversion branch
sets. -/
theorem encode_premultiplied_flags (env : EncodeEnv) (a : EncodeArgs)
    (info : AndroidBitmapInfo) (calls0 : List EncodeCall)
    (h : encodeSetup env a = .ok (info, calls0)) :
    premultipliedFlagsOf (encodeBitmap env a).calls =
      premultipliedFlagsOf (convertPixels info.format a.heifCompressionFormat) ∧
    conversionsOf (encodeBitmap env a).calls =
      conversionsOf (convertPixels info.format a.heifCompressionFormat) := by
  obtain ⟨tail, hcalls, _, _, _, t4, t5⟩ := encode_of_setup_ok env a info calls0 h
  obtain ⟨_, _, hc0⟩ := encodeSetup_ok env a info calls0 h
  obtain ⟨_, _, g3, g4⟩ := configureEncoder_calls env a.quality a.speed a.qualityMode
  rw [hcalls, hc0]
  simp only [premultipliedFlagsOf_append, conversionsOf_append, g3, g4, t4, t5,
    premultipliedFlagsOf, conversionsOf, List.nil_append, List.append_nil, and_self]

end DecodeFailureLemmas

/-! ## Lemmas about atomic failure -/

section AtomicLemmas

variable {F C : Type}

end AtomicLemmas

/-! ## Claims about failures, profiles and probes -/

/-- C11: an encode of a hardware-backed bitmap, or of a bitmap whose format is
none of RGBA_8888, RGB_565, RGBA_F16 and RGBA_1010102, returns nothing and
raises exactly one error without locking the pixels, creating a codec image
or encoding; when the earlier steps succeeded that error is the hardware
error, respectively the format error.  A software bitmap in one of the four
formats is rejected by neither check. -/
theorem encode_rejects_unsupported_bitmap (env : EncodeEnv) (a : EncodeArgs) :
    ((env.AndroidBitmap_getInfo.2.flags &&& ANDROID_BITMAP_FLAGS_IS_HARDWARE ≠ 0 ∨
      (env.AndroidBitmap_getInfo.2.format ≠ ANDROID_BITMAP_FORMAT_RGBA_8888 ∧
        env.AndroidBitmap_getInfo.2.format ≠ ANDROID_BITMAP_FORMAT_RGB_565 ∧
        env.AndroidBitmap_getInfo.2.format ≠ ANDROID_BITMAP_FORMAT_RGBA_F16 ∧
        env.AndroidBitmap_getInfo.2.format ≠ ANDROID_BITMAP_FORMAT_RGBA_1010102)) →
      (encodeBitmap env a).result = none ∧
      (throwsOf (encodeBitmap env a).calls).length = 1 ∧
      pixelLocksOf (encodeBitmap env a).calls = 0 ∧
      createdChromasOf (encodeBitmap env a).calls = [] ∧
      encodeImageCallsOf (encodeBitmap env a).calls = 0 ∧
      (env.heif_context_alloc = true →
        (env.heif_context_get_encoder_for_format a.heifCompressionFormat).code =
          heif_error_Ok →
        (configureEncoder env a.quality a.speed a.qualityMode).1 = true →
        0 ≤ env.AndroidBitmap_getInfo.1 →
        throwsOf (encodeBitmap env a).calls =
          [if env.AndroidBitmap_getInfo.2.flags &&& ANDROID_BITMAP_FLAGS_IS_HARDWARE ≠ 0 then
            EncodeCall.throwHardwareBitmapException
           else EncodeCall.throwInvalidPixelsFormat])) ∧
    (env.AndroidBitmap_getInfo.2.flags &&& ANDROID_BITMAP_FLAGS_IS_HARDWARE = 0 →
      (env.AndroidBitmap_getInfo.2.format = ANDROID_BITMAP_FORMAT_RGBA_8888 ∨
        env.AndroidBitmap_getInfo.2.format = ANDROID_BITMAP_FORMAT_RGB_565 ∨
        env.AndroidBitmap_getInfo.2.format = ANDROID_BITMAP_FORMAT_RGBA_F16 ∨
        env.AndroidBitmap_getInfo.2.format = ANDROID_BITMAP_FORMAT_RGBA_1010102) →
      formatRejectionsOf (encodeBitmap env a).calls = []) := by
  constructor
  · intro hbad
    cases hs : encodeSetup env a with
    | ok v =>
      exfalso
      obtain ⟨info, calls0⟩ := v
      obtain ⟨hi, hfmt, _⟩ := encodeSetup_ok env a info calls0 hs
      obtain ⟨_, _, _, _, hsoft, _⟩ := encodeSetup_ok_answers env a info calls0 hs
      rcases hbad with hb | hb
      · exact hb hsoft
      · rw [hi] at hfmt
        rcases hfmt with hf | hf | hf | hf
        · exact hb.1 hf
        · exact hb.2.1 hf
        · exact hb.2.2.1 hf
        · exact hb.2.2.2 hf
    | error calls =>
      obtain ⟨e1, e2, _, e4⟩ := encodeSetup_error env a calls hs
      obtain ⟨e5, e6, e7⟩ := e4 hbad
      rw [encodeBitmap_error env a calls hs]
      exact ⟨rfl, e1, e5, e6, e2, e7⟩
  · intro hsoft hfmt
    have hgood : ¬ (env.AndroidBitmap_getInfo.2.format ≠ ANDROID_BITMAP_FORMAT_RGBA_8888 ∧
        env.AndroidBitmap_getInfo.2.format ≠ ANDROID_BITMAP_FORMAT_RGB_565 ∧
        env.AndroidBitmap_getInfo.2.format ≠ ANDROID_BITMAP_FORMAT_RGBA_F16 ∧
        env.AndroidBitmap_getInfo.2.format ≠ ANDROID_BITMAP_FORMAT_RGBA_1010102) := by
      intro hb
      rcases hfmt with hf | hf | hf | hf
      · exact hb.1 hf
      · exact hb.2.1 hf
      · exact hb.2.2.1 hf
      · exact hb.2.2.2 hf
    cases hs : encodeSetup env a with
    | error calls =>
      rw [encodeBitmap_error env a calls hs]
      exact (encodeSetup_error env a calls hs).2.2.1 ⟨hsoft, hgood⟩
    | ok v =>
      obtain ⟨info, calls0⟩ := v
      obtain ⟨_, _, f0, _, _⟩ := encodeSetup_ok_calls env a info calls0 hs
      obtain ⟨_, _, _, f1, _⟩ := convertPixels_quiet info.format a.heifCompressionFormat
      obtain ⟨_, _, _, f2⟩ :=
        attachProfile_throws env (encodeBitDepth info.format a.heifCompressionFormat)
          a.dataSpace
      obtain ⟨_, _, _, f3, _⟩ := encodeAndWrite_throws env
      rw [encodeBitmap_ok env a info calls0 hs]
      split_ifs
      · simp only [formatRejectionsOf_append, f0, f1, f2, List.append_nil]
      · simp only [formatRejectionsOf_append, f0, f1, f2, f3, List.append_nil]

/-- Witness of C11: a hardware-backed RGBA_8888 bitmap. -/
theorem encode_rejects_unsupported_bitmap_witness :
    (encodeBitmap (fixtureEncodeEnvOf
        { width := 2, height := 2, stride := 8, format := ANDROID_BITMAP_FORMAT_RGBA_8888
          flags := ANDROID_BITMAP_FLAGS_IS_HARDWARE })
        (fixtureEncodeArgs heif_compression_AV1 80 6 AVIF_LOSSY_MODE)).result = none ∧
    throwsOf (encodeBitmap (fixtureEncodeEnvOf
        { width := 2, height := 2, stride := 8, format := ANDROID_BITMAP_FORMAT_RGBA_8888
          flags := ANDROID_BITMAP_FLAGS_IS_HARDWARE })
        (fixtureEncodeArgs heif_compression_AV1 80 6 AVIF_LOSSY_MODE)).calls =
      [EncodeCall.throwHardwareBitmapException] :=
  have h := (encode_rejects_unsupported_bitmap (fixtureEncodeEnvOf
      { width := 2, height := 2, stride := 8, format := ANDROID_BITMAP_FORMAT_RGBA_8888
        flags := ANDROID_BITMAP_FLAGS_IS_HARDWARE })
      (fixtureEncodeArgs heif_compression_AV1 80 6 AVIF_LOSSY_MODE)).1 (Or.inl (by decide))
  ⟨h.1, h.2.2.2.2.2 rfl rfl rfl (by decide)⟩

/-- C12: a decode raises the bit-depth error exactly when the preconditions,
the context, the read and the primary handle all succeeded and the reported
chroma bit depth is negative, and it then returns nothing and raises no other
error; `getSizeImpl` raises the bit-depth error exactly when the context, the
read and the primary handle succeeded and the reported bit depth is negative,
and then returns nothing.  So neither raises it for a non-negative depth. -/
theorem bit_depth_error_iff_negative {F C : Type} (env : DecodeEnv F C) (a : DecodeArgs)
    (senv : SizeEnv) (byte_array : List Nat) :
    (0 < bitDepthErrorsOf (decodeImplementationNative env a).calls ↔
      ((env.checkDecodePreconditions a.javaColorSpace a.javaScaleMode a.javaToneMapper).isSome =
          true ∧
        env.heif_context_alloc = true ∧
        env.heif_context_read_from_memory_without_copy a.srcBuffer = true ∧
        env.heif_context_get_primary_image_handle = true ∧
        env.heif_image_handle_get_chroma_bits_per_pixel < 0)) ∧
    (0 < bitDepthErrorsOf (decodeImplementationNative env a).calls →
      (decodeImplementationNative env a).result = none ∧
      decodeThrowsOf (decodeImplementationNative env a).calls = 1) ∧
    (0 < sizeBitDepthErrorsOf
        (Java_com_radzivon_bartoshyk_avif_coder_HeifCoder_getSizeImpl senv byte_array).calls ↔
      (senv.heif_context_alloc = true ∧
        (senv.heif_context_read_from_memory_without_copy byte_array byte_array.length).code =
          heif_error_Ok ∧
        senv.heif_context_get_primary_image_handle.code = heif_error_Ok ∧
        senv.heif_image_handle_get_chroma_bits_per_pixel < 0)) ∧
    (0 < sizeBitDepthErrorsOf
        (Java_com_radzivon_bartoshyk_avif_coder_HeifCoder_getSizeImpl senv byte_array).calls →
      (Java_com_radzivon_bartoshyk_avif_coder_HeifCoder_getSizeImpl senv byte_array).result =
        none) := by
  refine ⟨?_, ?_, (getSize_bit_depth senv byte_array).1, (getSize_bit_depth senv byte_array).2⟩
  · cases hs : decodeSource env a with
    | error calls =>
      obtain ⟨_, _, hpos, hneg⟩ := decodeSource_error env a calls hs
      rw [decode_of_source_error env a calls hs]
      constructor
      · intro hlt
        by_contra hno
        rw [hneg hno] at hlt
        exact absurd hlt (Nat.lt_irrefl 0)
      · intro hr
        rw [(hpos hr).1]
        exact Nat.one_pos
    | ok v =>
      obtain ⟨d, calls0⟩ := v
      obtain ⟨_, hbits, hnn, _⟩ := decodeSource_ok env a d calls0 hs
      rw [(decode_counts env a d calls0 hs).1]
      constructor
      · intro hlt
        exact absurd hlt (Nat.lt_irrefl 0)
      · intro hr
        rw [hbits] at hnn
        omega
  · cases hs : decodeSource env a with
    | error calls =>
      obtain ⟨_, _, hpos, hneg⟩ := decodeSource_error env a calls hs
      rw [decode_of_source_error env a calls hs]
      intro hlt
      refine ⟨rfl, ?_⟩
      by_cases hr : ((env.checkDecodePreconditions a.javaColorSpace a.javaScaleMode
          a.javaToneMapper).isSome = true ∧
        env.heif_context_alloc = true ∧
        env.heif_context_read_from_memory_without_copy a.srcBuffer = true ∧
        env.heif_context_get_primary_image_handle = true ∧
        env.heif_image_handle_get_chroma_bits_per_pixel < 0)
      · exact (hpos hr).2
      · rw [hneg hr] at hlt
        exact absurd hlt (Nat.lt_irrefl 0)
    | ok v =>
      obtain ⟨d, calls0⟩ := v
      rw [(decode_counts env a d calls0 hs).1]
      intro hlt
      exact absurd hlt (Nat.lt_irrefl 0)

/-- Witness of C12: a decode and a size query of an image whose reported bit
depth is -1. -/
theorem bit_depth_error_iff_negative_witness :
    ((decodeImplementationNative (fixtureEnv (-1) 30 [] none false 0)
        (fixtureArgs 1 1)).result = none ∧
      decodeThrowsOf (decodeImplementationNative (fixtureEnv (-1) 30 [] none false 0)
        (fixtureArgs 1 1)).calls = 1) ∧
    (Java_com_radzivon_bartoshyk_avif_coder_HeifCoder_getSizeImpl (fixtureSizeEnv true (-1))
        [0, 0, 0, 28]).result = none :=
  have h := bit_depth_error_iff_negative (fixtureEnv (-1) 30 [] none false 0) (fixtureArgs 1 1)
    (fixtureSizeEnv true (-1)) [0, 0, 0, 28]
  ⟨h.2.1 (by decide), h.2.2.2 (by decide)⟩

/-- C13: in an encode that gets past plane creation, when
`colorProfileFromDataSpace` reports success exactly one profile is attached:
the raw profile of type "prof" when the ICC bytes it returned are non-empty,
the NCLX descriptor when they are empty; when it reports failure no profile
is attached and the image is still handed to the encoder. -/
theorem encode_profile_attachment (env : EncodeEnv) (a : EncodeArgs)
    (info : AndroidBitmapInfo) (calls0 : List EncodeCall)
    (h : encodeSetup env a = .ok (info, calls0)) :
    profileCallsOf (encodeBitmap env a).calls =
      (if (env.colorProfileFromDataSpace
          (decide (encodeBitDepth info.format a.heifCompressionFormat = 8))
          (encodeBitDepth info.format a.heifCompressionFormat) a.dataSpace).1 = true then
        (if (env.colorProfileFromDataSpace
            (decide (encodeBitDepth info.format a.heifCompressionFormat = 8))
            (encodeBitDepth info.format a.heifCompressionFormat) a.dataSpace).2 = [] then
          [EncodeCall.heif_image_set_nclx_color_profile]
         else
          [EncodeCall.heif_image_set_raw_color_profile "prof"
            (env.colorProfileFromDataSpace
              (decide (encodeBitDepth info.format a.heifCompressionFormat = 8))
              (encodeBitDepth info.format a.heifCompressionFormat) a.dataSpace).2])
       else []) ∧
    ((env.colorProfileFromDataSpace
        (decide (encodeBitDepth info.format a.heifCompressionFormat = 8))
        (encodeBitDepth info.format a.heifCompressionFormat) a.dataSpace).1 = false →
      encodeImageCallsOf (encodeBitmap env a).calls = 1) := by
  obtain ⟨_, e0, _, p0, _⟩ := encodeSetup_ok_calls env a info calls0 h
  obtain ⟨_, _, e1, _, p1⟩ := convertPixels_quiet info.format a.heifCompressionFormat
  obtain ⟨_, _, e3, _, p3⟩ := encodeAndWrite_throws env
  have p2 := attachProfile_profile env (encodeBitDepth info.format a.heifCompressionFormat)
    a.dataSpace
  constructor
  · rw [encodeBitmap_ok env a info calls0 h]
    rcases (attachProfile_throws env (encodeBitDepth info.format a.heifCompressionFormat)
      a.dataSpace).1 with hat | hat
    · rw [hat.1]
      simp only [Bool.not_true, Bool.false_eq_true, if_false, profileCallsOf_append, p0, p1,
        p3, List.nil_append, List.append_nil]
      exact p2
    · rw [hat.1]
      simp only [Bool.not_false, if_true, profileCallsOf_append, p0, p1, List.nil_append]
      exact p2
  · intro hfail
    rw [encodeBitmap_ok env a info calls0 h, attachProfile_of_failure env _ _ hfail]
    simp only [Bool.not_true, Bool.false_eq_true, if_false, encodeImageCallsOf_append, e0, e1,
      e3, encodeImageCallsOf]

/-- Witness of C13: the fixture, whose data space yields no profile. -/
theorem encode_profile_attachment_witness :
    profileCallsOf (encodeBitmap (fixtureEncodeEnv ANDROID_BITMAP_FORMAT_RGBA_8888)
        (fixtureEncodeArgs heif_compression_AV1 80 6 AVIF_LOSSY_MODE)).calls = [] ∧
    encodeImageCallsOf (encodeBitmap (fixtureEncodeEnv ANDROID_BITMAP_FORMAT_RGBA_8888)
        (fixtureEncodeArgs heif_compression_AV1 80 6 AVIF_LOSSY_MODE)).calls = 1 :=
  have h := encode_profile_attachment (fixtureEncodeEnv ANDROID_BITMAP_FORMAT_RGBA_8888)
    (fixtureEncodeArgs heif_compression_AV1 80 6 AVIF_LOSSY_MODE) _ _ rfl
  ⟨h.1, h.2 rfl⟩

/-- Counterexample to C14 as stated: on an empty direct byte buffer
`isSupportedImageImplBB` raises "Only direct byte buffers are supported". -/
theorem probe_empty_direct_buffer_counterexample :
    Java_com_radzivon_bartoshyk_avif_coder_HeifCoder_isSupportedImageImplBB fixtureMime
        { GetDirectBufferAddress := some [], GetDirectBufferCapacity := 0 } =
      { result := false, thrown := ["Only direct byte buffers are supported"] } := by
  rfl

/-- C14, amended: a byte array reported as image/avif is classified as avif and
not as heif, one reported as image/heic as heif and not as avif, both without
an error; a byte array, empty or not, whose reported type is none of the six
supported ones makes the three byte-array probes return false without an
error, and so does a non-empty direct buffer for `isSupportedImageImplBB`;
on an empty direct buffer, or one without address, `isSupportedImageImplBB`
returns false and raises "Only direct byte buffers are supported". -/
theorem probe_classification (mime : List Nat → Int → String) (byte_array : List Nat)
    (byteBuffer : ByteBuffer) :
    (mime byte_array byte_array.length = "image/avif" →
      Java_com_radzivon_bartoshyk_avif_coder_HeifCoder_isAvifImageImpl mime byte_array =
        { result := true, thrown := [] } ∧
      Java_com_radzivon_bartoshyk_avif_coder_HeifCoder_isHeifImageImpl mime byte_array =
        { result := false, thrown := [] }) ∧
    (mime byte_array byte_array.length = "image/heic" →
      Java_com_radzivon_bartoshyk_avif_coder_HeifCoder_isHeifImageImpl mime byte_array =
        { result := true, thrown := [] } ∧
      Java_com_radzivon_bartoshyk_avif_coder_HeifCoder_isAvifImageImpl mime byte_array =
        { result := false, thrown := [] }) ∧
    ((mime byte_array byte_array.length ≠ "image/heic" ∧
        mime byte_array byte_array.length ≠ "image/heif" ∧
        mime byte_array byte_array.length ≠ "image/heic-sequence" ∧
        mime byte_array byte_array.length ≠ "image/heif-sequence" ∧
        mime byte_array byte_array.length ≠ "image/avif" ∧
        mime byte_array byte_array.length ≠ "image/avif-sequence") →
      Java_com_radzivon_bartoshyk_avif_coder_HeifCoder_isHeifImageImpl mime byte_array =
        { result := false, thrown := [] } ∧
      Java_com_radzivon_bartoshyk_avif_coder_HeifCoder_isAvifImageImpl mime byte_array =
        { result := false, thrown := [] } ∧
      Java_com_radzivon_bartoshyk_avif_coder_HeifCoder_isSupportedImageImpl mime byte_array =
        { result := false, thrown := [] }) ∧
    ((byteBuffer.GetDirectBufferAddress = some byte_array ∧
        0 < byteBuffer.GetDirectBufferCapacity ∧
        byteBuffer.GetDirectBufferCapacity = byte_array.length ∧
        mime byte_array byte_array.length ≠ "image/heic" ∧
        mime byte_array byte_array.length ≠ "image/heif" ∧
        mime byte_array byte_array.length ≠ "image/heic-sequence" ∧
        mime byte_array byte_array.length ≠ "image/heif-sequence" ∧
        mime byte_array byte_array.length ≠ "image/avif" ∧
        mime byte_array byte_array.length ≠ "image/avif-sequence") →
      Java_com_radzivon_bartoshyk_avif_coder_HeifCoder_isSupportedImageImplBB mime byteBuffer =
        { result := false, thrown := [] }) ∧
    ((byteBuffer.GetDirectBufferAddress = none ∨ byteBuffer.GetDirectBufferCapacity ≤ 0) →
      Java_com_radzivon_bartoshyk_avif_coder_HeifCoder_isSupportedImageImplBB mime byteBuffer =
        { result := false, thrown := ["Only direct byte buffers are supported"] }) := by
  refine ⟨?_, ?_, ?_, ?_, ?_⟩
  · intro hm
    unfold Java_com_radzivon_bartoshyk_avif_coder_HeifCoder_isAvifImageImpl
      Java_com_radzivon_bartoshyk_avif_coder_HeifCoder_isHeifImageImpl
    simp only [hm]
    exact ⟨by decide, by decide⟩
  · intro hm
    unfold Java_com_radzivon_bartoshyk_avif_coder_HeifCoder_isAvifImageImpl
      Java_com_radzivon_bartoshyk_avif_coder_HeifCoder_isHeifImageImpl
    simp only [hm]
    exact ⟨by decide, by decide⟩
  · intro ⟨h1, h2, h3, h4, h5, h6⟩
    unfold Java_com_radzivon_bartoshyk_avif_coder_HeifCoder_isAvifImageImpl
      Java_com_radzivon_bartoshyk_avif_coder_HeifCoder_isHeifImageImpl
      Java_com_radzivon_bartoshyk_avif_coder_HeifCoder_isSupportedImageImpl
    simp only [beq_eq_false_iff_ne.mpr h1, beq_eq_false_iff_ne.mpr h2,
      beq_eq_false_iff_ne.mpr h3, beq_eq_false_iff_ne.mpr h4, beq_eq_false_iff_ne.mpr h5,
      beq_eq_false_iff_ne.mpr h6, Bool.or_self, and_self]
  · intro ⟨ha, hpos, hlen, h1, h2, h3, h4, h5, h6⟩
    have hnot : ¬ (byteBuffer.GetDirectBufferCapacity ≤ 0) := by omega
    have htake : List.take byteBuffer.GetDirectBufferCapacity.toNat byte_array = byte_array := by
      rw [hlen, Int.toNat_ofNat, List.take_length]
    unfold Java_com_radzivon_bartoshyk_avif_coder_HeifCoder_isSupportedImageImplBB
    simp only [ha, hnot, if_false, htake, beq_eq_false_iff_ne.mpr h1,
      beq_eq_false_iff_ne.mpr h2, beq_eq_false_iff_ne.mpr h3, beq_eq_false_iff_ne.mpr h4,
      beq_eq_false_iff_ne.mpr h5, beq_eq_false_iff_ne.mpr h6, Bool.or_self]
  · intro hbad
    unfold Java_com_radzivon_bartoshyk_avif_coder_HeifCoder_isSupportedImageImplBB
    cases haddr : byteBuffer.GetDirectBufferAddress with
    | none => rfl
    | some mem =>
      rcases hbad with hb | hb
      · rw [haddr] at hb
        cases hb
      · simp only [hb, if_true]

/-- Witness of the amended C14: a buffer the stand-in reports as AVIF, an empty
byte array and a direct buffer without address. -/
theorem probe_classification_witness :
    (Java_com_radzivon_bartoshyk_avif_coder_HeifCoder_isAvifImageImpl fixtureMime [1, 0] =
        { result := true, thrown := [] } ∧
      Java_com_radzivon_bartoshyk_avif_coder_HeifCoder_isHeifImageImpl fixtureMime [1, 0] =
        { result := false, thrown := [] }) ∧
    Java_com_radzivon_bartoshyk_avif_coder_HeifCoder_isSupportedImageImplBB fixtureMime
        { GetDirectBufferAddress := none, GetDirectBufferCapacity := -1 } =
      { result := false, thrown := ["Only direct byte buffers are supported"] } :=
  have h := probe_classification fixtureMime [1, 0]
    { GetDirectBufferAddress := none, GetDirectBufferCapacity := -1 }
  ⟨h.1 rfl, h.2.2.2.2 (Or.inl rfl)⟩

/-- Decode makes no singularity test: on the NCLX path the matrix handed to
the colour-matrix applier is always the row-major flattening of
`inverse (destination) * source`, whatever `inverse` returns, and the decode
raises an error afterwards only if the reformat step throws. -/
theorem decode_no_singularity_check {F C : Type} (env : DecodeEnv F C) (a : DecodeArgs)
    (d : Decoded F) (calls0 : List (DecodeCall F C)) (n : heif_color_profile_nclx F)
    (h : decodeSource env a = .ok (d, calls0))
    (hp : env.RecognizeICC.profile = []) (hh : env.RecognizeICC.hasNCLX = true)
    (hn : env.RecognizeICC.nclx = some n)
    (htc : n.transfer_characteristics ≠ heif_transfer_characteristic_unspecified)
    (hcp : n.color_primaries ≠ heif_color_primaries_unspecified) :
    (colorMatrixArgsOf (decodeImplementationNative env a).calls).map
        (fun args => args.matrix) =
      [flattenMatrix (env.lib.mul
        (env.lib.inverse
          (env.lib.GamutRgbToXYZ env.lib.getSRGBPrimaries env.lib.getIlluminantD65))
        (env.lib.GamutRgbToXYZ (nclxPrimaries env.lib n) (nclxWhitePoint env.lib n)))] ∧
    ∃ args, reformatArgsOf (decodeImplementationNative env a).calls = [args] ∧
      ((∃ r, env.ReformatColorConfig args = .ok r) →
        decodeThrowsOf (decodeImplementationNative env a).calls = 0 ∧
        (decodeImplementationNative env a).result.isSome = true) := by
  obtain ⟨_, _, _, _, hprof, hnclx, hhas, _, hc⟩ := decodeSource_ok env a d calls0 h
  obtain ⟨_, _, _, _, hp1, hn1, hh1⟩ := unpremultiplyStep_fields env d
  constructor
  · rw [(decode_colour_calls env a d calls0 h).2,
      (colorStep_nclx env (unpremultiplyStep env d).1 n (by rw [hp1, hprof]; exact hp)
        (by rw [hh1, hhas]; exact hh) (by rw [hn1, hnclx]; exact hn) htc hcp).2]
    rfl
  · obtain ⟨_, _, _, hargs⟩ := reformatStep_calls env (unpremultiplyStep env d).1
      (colorStep env (unpremultiplyStep env d).1).1.1
      (colorStep env (unpremultiplyStep env d).1).1.2
    obtain ⟨_, _, hthrow⟩ := reformatStep_throws env (unpremultiplyStep env d).1
      (colorStep env (unpremultiplyStep env d).1).1.1
      (colorStep env (unpremultiplyStep env d).1).1.2
    obtain ⟨_, r2⟩ := colorStep_chromas_reformats env (unpremultiplyStep env d).1
    obtain ⟨_, _, u3, _⟩ := unpremultiplyStep_calls env d
    have r0 : reformatArgsOf
        [(DecodeCall.heif_decode_image (decodeChroma d.useBitmapHalf16Floats) :
          DecodeCall F C)] = [] := rfl
    refine ⟨{ dstARGB := (colorStep env (unpremultiplyStep env d).1).1.1
              imageConfig := imageConfigOf (unpremultiplyStep env d).1.useBitmapHalf16Floats
              preferredColorConfig := (unpremultiplyStep env d).1.preferredColorConfig
              bitDepth := (unpremultiplyStep env d).1.bitDepth
              imageWidth := (unpremultiplyStep env d).1.imageWidth
              imageHeight := (unpremultiplyStep env d).1.imageHeight
              stride := (colorStep env (unpremultiplyStep env d).1).1.2
              useBitmapHalf16Floats := (unpremultiplyStep env d).1.useBitmapHalf16Floats
              alphaPremultiplied := (unpremultiplyStep env d).1.alphaPremultiplied }, ?_, ?_⟩
    · rw [(decode_of_source_ok env a d calls0 h).1, hc]
      simp only [reformatArgsOf_append, r0, u3, r2, hargs, List.nil_append]
    · intro hok
      obtain ⟨r, hr⟩ := hok
      rw [(decode_counts env a d calls0 h).2.1, (decode_of_source_ok env a d calls0 h).2]
      rcases hthrow with hgood | hbad
      · exact hgood.2
      · obtain ⟨⟨what, hw⟩, _⟩ := hbad
        rw [hr] at hw
        cases hw

/-- Counterexample to C17 as stated: the RGB_565 branch of encode converts the
pixels without setting the premultiplied-alpha flag of the codec image, and so
does the RGBA_F16 branch for AV1. -/
theorem encode_flag_per_branch_counterexample :
    (conversionsOf (encodeBitmap (fixtureEncodeEnv ANDROID_BITMAP_FORMAT_RGB_565)
        (fixtureEncodeArgs heif_compression_AV1 80 6 AVIF_LOSSY_MODE)).calls =
      [EncodeCall.Rgb565ToUnsigned8 8 255] ∧
    premultipliedFlagsOf (encodeBitmap (fixtureEncodeEnv ANDROID_BITMAP_FORMAT_RGB_565)
        (fixtureEncodeArgs heif_compression_AV1 80 6 AVIF_LOSSY_MODE)).calls = []) ∧
    (conversionsOf (encodeBitmap (fixtureEncodeEnv ANDROID_BITMAP_FORMAT_RGBA_F16)
        (fixtureEncodeArgs heif_compression_AV1 80 6 AVIF_LOSSY_MODE)).calls =
      [EncodeCall.RGBAF16BitToNBitU16 10] ∧
    premultipliedFlagsOf (encodeBitmap (fixtureEncodeEnv ANDROID_BITMAP_FORMAT_RGBA_F16)
        (fixtureEncodeArgs heif_compression_AV1 80 6 AVIF_LOSSY_MODE)).calls = []) := by
  refine ⟨⟨rfl, rfl⟩, ⟨rfl, rfl⟩⟩

/-- C17, amended: in decode, the flag handed to the reformat step is false
when `UnpremultiplyRGBA` ran (which happens at most once) and is the source's
premultiplication state when it did not.  In encode, the RGBA_8888 branch sets
the codec image's flag to false, the RGBA_1010102 branches and the RGBA_F16
branch for HEVC set it to true, each exactly once next to its conversion, and
the RGB_565 branch, which writes opaque pixels, sets no flag. -/
theorem premultiplication_flag_tracking {F C : Type} (env : DecodeEnv F C) (a : DecodeArgs)
    (d : Decoded F) (calls0 : List (DecodeCall F C)) (eenv : EncodeEnv) (ea : EncodeArgs)
    (info : AndroidBitmapInfo) (ecalls0 : List EncodeCall)
    (h : decodeSource env a = .ok (d, calls0))
    (he : encodeSetup eenv ea = .ok (info, ecalls0)) :
    ((unpremultiplyCallsOf (decodeImplementationNative env a).calls = 1 ∧
        (reformatArgsOf (decodeImplementationNative env a).calls).map
          (fun r => r.alphaPremultiplied) = [false]) ∨
      (unpremultiplyCallsOf (decodeImplementationNative env a).calls = 0 ∧
        (reformatArgsOf (decodeImplementationNative env a).calls).map
          (fun r => r.alphaPremultiplied) =
          [env.heif_image_handle_has_alpha_channel &&
            decide (env.heif_image_handle_is_premultiplied_alpha ≠ 0)])) ∧
    (info.format = ANDROID_BITMAP_FORMAT_RGBA_8888 →
      conversionsOf (encodeBitmap eenv ea).calls = [EncodeCall.UnpremultiplyRGBA] ∧
      premultipliedFlagsOf (encodeBitmap eenv ea).calls = [false]) ∧
    (info.format = ANDROID_BITMAP_FORMAT_RGBA_1010102 →
      premultipliedFlagsOf (encodeBitmap eenv ea).calls = [true]) ∧
    (info.format = ANDROID_BITMAP_FORMAT_RGBA_F16 →
      ea.heifCompressionFormat = heif_compression_HEVC →
      premultipliedFlagsOf (encodeBitmap eenv ea).calls = [true]) ∧
    (info.format = ANDROID_BITMAP_FORMAT_RGB_565 →
      premultipliedFlagsOf (encodeBitmap eenv ea).calls = []) := by
  obtain ⟨ef, ec⟩ := encode_premultiplied_flags eenv ea info ecalls0 he
  refine ⟨?_, ?_, ?_, ?_, ?_⟩
  · obtain ⟨_, _, _, _, _, _, _, halpha, _⟩ := decodeSource_ok env a d calls0 h
    obtain ⟨_, _, hflag⟩ := unpremultiplyStep_flag env d
    have hr := (decode_requests env a d calls0 h).2
    have hm : (reformatArgsOf (decodeImplementationNative env a).calls).map
        (fun r => r.alphaPremultiplied) =
        ((reformatArgsOf (decodeImplementationNative env a).calls).map
          (fun r => (r.imageConfig, r.preferredColorConfig, r.alphaPremultiplied))).map
          (fun p => p.2.2) := by
      simp only [List.map_map, Function.comp_def]
    rw [hm, hr, (decode_counts env a d calls0 h).2.2, ← unpremultiplyStep_alpha env d]
    simp only [List.map_cons, List.map_nil]
    rcases hflag with hf | hf
    · exact Or.inl ⟨hf.1, by rw [hf.2]⟩
    · exact Or.inr ⟨hf.1, by rw [hf.2, halpha]⟩
  · intro hf
    rw [ef, ec, hf]
    exact ⟨rfl, rfl⟩
  · intro hf
    rw [ef, hf]
    unfold convertPixels
    have n1 : ¬ (ANDROID_BITMAP_FORMAT_RGBA_1010102 = ANDROID_BITMAP_FORMAT_RGBA_8888) := by
      decide
    have n2 : ¬ (ANDROID_BITMAP_FORMAT_RGBA_1010102 = ANDROID_BITMAP_FORMAT_RGB_565) := by
      decide
    simp only [n1, n2, if_false, if_true]
    split <;> rfl
  · intro hf hk
    rw [ef, hf, hk]
    rfl
  · intro hf
    rw [ef, hf]
    rfl

/-- Witness of the amended C17: a premultiplied 8-bit source decoded for
`Rgb_565`, and an RGBA_8888 bitmap encoded for AV1. -/
theorem premultiplication_flag_tracking_witness :
    ((unpremultiplyCallsOf (decodeImplementationNative (fixtureEnv 8 30 [] none true 1)
          (fixtureArgs 2 1)).calls = 1 ∧
        (reformatArgsOf (decodeImplementationNative (fixtureEnv 8 30 [] none true 1)
          (fixtureArgs 2 1)).calls).map (fun r => r.alphaPremultiplied) = [false]) ∨
      (unpremultiplyCallsOf (decodeImplementationNative (fixtureEnv 8 30 [] none true 1)
          (fixtureArgs 2 1)).calls = 0 ∧
        (reformatArgsOf (decodeImplementationNative (fixtureEnv 8 30 [] none true 1)
          (fixtureArgs 2 1)).calls).map (fun r => r.alphaPremultiplied) =
          [true && decide ((1 : Int) ≠ 0)])) ∧
    premultipliedFlagsOf (encodeBitmap (fixtureEncodeEnv ANDROID_BITMAP_FORMAT_RGBA_8888)
      (fixtureEncodeArgs heif_compression_AV1 80 6 AVIF_LOSSY_MODE)).calls = [false] :=
  have h := premultiplication_flag_tracking (fixtureEnv 8 30 [] none true 1) (fixtureArgs 2 1)
    _ _ (fixtureEncodeEnv ANDROID_BITMAP_FORMAT_RGBA_8888)
    (fixtureEncodeArgs heif_compression_AV1 80 6 AVIF_LOSSY_MODE) _ _ rfl rfl
  ⟨h.1, (h.2.1 rfl).2⟩

/-- C18: in lossy mode a quality outside 1..100, and likewise a quality mode
that is neither lossy nor lossless, makes the configuration step succeed
without any call: no error is raised there and no quality, chroma or speed
is set in the whole encode, whatever the speed. -/
theorem encode_unconfigured_quality (env : EncodeEnv) (a : EncodeArgs)
    (h : (a.qualityMode = AVIF_LOSSY_MODE ∧ (a.quality ≤ 0 ∨ 100 < a.quality)) ∨
      (a.qualityMode ≠ AVIF_LOSSY_MODE ∧ a.qualityMode ≠ AVIF_LOSELESS_MODE)) :
    configureEncoder env a.quality a.speed a.qualityMode = (true, []) ∧
    encoderSettingsOf (encodeBitmap env a).calls = [] := by
  have hcfg : configureEncoder env a.quality a.speed a.qualityMode = (true, []) := by
    unfold configureEncoder
    rcases h with ⟨hm, hq⟩ | ⟨hm1, hm2⟩
    · have hr : ¬ (a.quality ≤ 100 ∧ a.quality > 0) := by omega
      rw [if_pos hm, if_neg hr]
    · rw [if_neg hm1, if_neg hm2]
  refine ⟨hcfg, ?_⟩
  by_cases h1 : (!env.heif_context_alloc) = true
  · have hs : encodeSetup env a =
        .error [.throwException "Can't create HEIF/AVIF encoder due to unknown reason"] := by
      rw [encodeSetup_eq, if_pos h1]
    rw [encodeBitmap_error env a _ hs]
    rfl
  by_cases h2 : (env.heif_context_get_encoder_for_format a.heifCompressionFormat).code ≠
      heif_error_Ok
  · have hs : encodeSetup env a =
        .error [.throwException ("Can't create encoder with exception: " ++
          (env.heif_context_get_encoder_for_format a.heifCompressionFormat).message)] := by
      rw [encodeSetup_eq, if_neg h1, if_pos h2]
    rw [encodeBitmap_error env a _ hs]
    rfl
  have halloc : env.heif_context_alloc = true := by
    cases hx : env.heif_context_alloc
    · rw [hx] at h1
      exact absurd rfl h1
    · rfl
  rw [encode_settings env a halloc (not_not.mp h2), hcfg]
  rfl

/-- Witness of C18: a lossy encode with quality 0 and speed 6. -/
theorem encode_unconfigured_quality_witness :
    configureEncoder (fixtureEncodeEnv ANDROID_BITMAP_FORMAT_RGBA_8888) 0 6 AVIF_LOSSY_MODE =
      (true, []) ∧
    encoderSettingsOf (encodeBitmap (fixtureEncodeEnv ANDROID_BITMAP_FORMAT_RGBA_8888)
      (fixtureEncodeArgs heif_compression_AV1 0 6 AVIF_LOSSY_MODE)).calls = [] :=
  encode_unconfigured_quality (fixtureEncodeEnv ANDROID_BITMAP_FORMAT_RGBA_8888)
    (fixtureEncodeArgs heif_compression_AV1 0 6 AVIF_LOSSY_MODE)
    (Or.inl ⟨rfl, Or.inl (by decide)⟩)

/-- C19: for every byte array `isSupportedImageImpl` answers true exactly when
`isHeifImageImpl` or `isAvifImageImpl` does, these two never both answer true,
and on a non-empty direct buffer `isSupportedImageImplBB` gives the outcome of
`isSupportedImageImpl` on the bytes of the buffer. -/
theorem probe_relations (mime : List Nat → Int → String) (byte_array : List Nat)
    (byteBuffer : ByteBuffer) :
    (Java_com_radzivon_bartoshyk_avif_coder_HeifCoder_isSupportedImageImpl mime
        byte_array).result =
      ((Java_com_radzivon_bartoshyk_avif_coder_HeifCoder_isHeifImageImpl mime
          byte_array).result ||
        (Java_com_radzivon_bartoshyk_avif_coder_HeifCoder_isAvifImageImpl mime
          byte_array).result) ∧
    ¬ ((Java_com_radzivon_bartoshyk_avif_coder_HeifCoder_isHeifImageImpl mime
          byte_array).result = true ∧
        (Java_com_radzivon_bartoshyk_avif_coder_HeifCoder_isAvifImageImpl mime
          byte_array).result = true) ∧
    (∀ mem, byteBuffer.GetDirectBufferAddress = some mem →
      0 < byteBuffer.GetDirectBufferCapacity →
      Java_com_radzivon_bartoshyk_avif_coder_HeifCoder_isSupportedImageImplBB mime byteBuffer =
        Java_com_radzivon_bartoshyk_avif_coder_HeifCoder_isSupportedImageImpl mime
          (mem.take byteBuffer.GetDirectBufferCapacity.toNat)) := by
  refine ⟨?_, ?_, ?_⟩
  · unfold Java_com_radzivon_bartoshyk_avif_coder_HeifCoder_isSupportedImageImpl
      Java_com_radzivon_bartoshyk_avif_coder_HeifCoder_isHeifImageImpl
      Java_com_radzivon_bartoshyk_avif_coder_HeifCoder_isAvifImageImpl
    simp only [Bool.or_assoc]
  · unfold Java_com_radzivon_bartoshyk_avif_coder_HeifCoder_isHeifImageImpl
      Java_com_radzivon_bartoshyk_avif_coder_HeifCoder_isAvifImageImpl
    simp only [Bool.or_eq_true, beq_iff_eq]
    intro ⟨hh, ha⟩
    rcases hh with ((hh | hh) | hh) | hh <;> rcases ha with ha | ha <;>
      exact absurd (hh.symm.trans ha) (by decide)
  · intro mem ha hpos
    have hnot : ¬ (byteBuffer.GetDirectBufferCapacity ≤ 0) := by omega
    unfold Java_com_radzivon_bartoshyk_avif_coder_HeifCoder_isSupportedImageImplBB
      Java_com_radzivon_bartoshyk_avif_coder_HeifCoder_isSupportedImageImpl
    simp only [ha, hnot, if_false]

/-- Witness of C19: a two-byte direct buffer the stand-in reports as HEIC. -/
theorem probe_relations_witness :
    Java_com_radzivon_bartoshyk_avif_coder_HeifCoder_isSupportedImageImplBB fixtureMime
        { GetDirectBufferAddress := some [2, 0], GetDirectBufferCapacity := 2 } =
      Java_com_radzivon_bartoshyk_avif_coder_HeifCoder_isSupportedImageImpl fixtureMime
        (List.take (2 : Int).toNat [2, 0]) :=
  (probe_relations fixtureMime [2, 0]
    { GetDirectBufferAddress := some [2, 0], GetDirectBufferCapacity := 2 }).2.2
    [2, 0] rfl (by decide)

end AvifCoder
